import Mathlib

/-!
# File-backed NETCONF datastore (`src/datastore/file/datastore_file.c`)

A shallow embedding of the file datastore of libnetconf.  The XML library, the
NACM and edit-config collaborators, the clock and the file system are outside
the translated file: they enter as the fields of `Ext` (collaborator
functions and absent constants), `Oracle` (what the system calls of one
operation return) and `World` (the backing file, the signal mask and the
semaphore as the process sees them).

Conventions of the embedding.

* An `xmlNodePtr` that walks a sibling chain is a `List xmlNode`: the node
  pointed to followed by its `next` siblings; `NULL` is `[]`.
* The three node handles `running`, `startup`, `candidate` of the datastore
  structure point into the chain `xml->children->children`; they are indices
  into that chain, `none` is `NULL`.
* Values are immutable, so `xmlFreeNode`, `xmlFreeDoc`, `xmlFree` and `free`
  have no counterpart, and a deep copy of a node is the node itself.
* Namespaces, the `parent`, `prev`, `last` and `doc` links of a node are not
  represented.  `xmlUnlinkNode` is modelled for a node whose `parent` link is
  set, which is the case for every node of a parsed document.
* The backing file is represented by the document its content parses to.  A
  successful `file_sync` stores the in-memory document, so the `xmlReadFile`
  of a later reload yields that document again.
-/

namespace DatastoreFile

/-! ## The XML tree (libxml2) -/

/-- Node kinds (`xmlElementType` of libxml2) that occur in a parsed datastore file. -/
inductive xmlElementType
  | XML_ELEMENT_NODE
  | XML_TEXT_NODE
  | XML_CDATA_SECTION_NODE
  | XML_PI_NODE
  | XML_COMMENT_NODE
  deriving DecidableEq, Repr

/-- One node of an XML tree: kind, name, text content, attributes in document
order, and the chain of children. -/
inductive xmlNode
  | mk (type : xmlElementType) (name : String) (content : String)
      (properties : List (String × String)) (children : List xmlNode)

mutual
/-- Equality of nodes is decidable: compare the fields, then the children. -/
def xmlNode.decEq : (a b : xmlNode) → Decidable (a = b)
  | .mk t1 n1 c1 p1 ch1, .mk t2 n2 c2 p2 ch2 =>
    if ht : t1 = t2 then
      if hn : n1 = n2 then
        if hc : c1 = c2 then
          if hp : p1 = p2 then
            match xmlNode.decEqList ch1 ch2 with
            | isTrue h => isTrue (by rw [ht, hn, hc, hp, h])
            | isFalse h => isFalse (fun e => h (by cases e; rfl))
          else isFalse (fun e => hp (by cases e; rfl))
        else isFalse (fun e => hc (by cases e; rfl))
      else isFalse (fun e => hn (by cases e; rfl))
    else isFalse (fun e => ht (by cases e; rfl))
/-- Equality of chains of nodes is decidable. -/
def xmlNode.decEqList : (a b : List xmlNode) → Decidable (a = b)
  | [], [] => isTrue rfl
  | [], _ :: _ => isFalse (fun e => by cases e)
  | _ :: _, [] => isFalse (fun e => by cases e)
  | a :: as, b :: bs =>
    match xmlNode.decEq a b with
    | isTrue h =>
      match xmlNode.decEqList as bs with
      | isTrue h' => isTrue (by rw [h, h'])
      | isFalse h' => isFalse (fun e => h' (by cases e; rfl))
    | isFalse h => isFalse (fun e => h (by cases e; rfl))
end

instance : DecidableEq xmlNode := xmlNode.decEq

/-- Field `type` of a node. -/
def xmlNode.type : xmlNode → xmlElementType
  | .mk t _ _ _ _ => t

/-- Field `name` of a node. -/
def xmlNode.name : xmlNode → String
  | .mk _ n _ _ _ => n

/-- Field `properties` of a node. -/
def xmlNode.properties : xmlNode → List (String × String)
  | .mk _ _ _ p _ => p

/-- Field `children` of a node, as the chain starting at the first child. -/
def xmlNode.children : xmlNode → List xmlNode
  | .mk _ _ _ _ c => c

/-- Assignment `node->children = p`. -/
def xmlNode.setChildren : xmlNode → List xmlNode → xmlNode
  | .mk t n c p _, ch => .mk t n c p ch

/-- Replacement of the attribute list of a node. -/
def xmlNode.setProperties : xmlNode → List (String × String) → xmlNode
  | .mk t n c _ ch, p => .mk t n c p ch

/-- A document: the chain of its top-level nodes (`doc->children`). -/
structure xmlDoc where
  children : List xmlNode
  deriving DecidableEq

/-- Attribute lookup behind `xmlGetProp`: the value of the first attribute of that name. -/
def getAttr (name : String) : List (String × String) → Option String
  | [] => none
  | (k, v) :: rest => if k = name then some v else getAttr name rest

/-- Attribute update behind `xmlSetProp`: an existing attribute gets the new
value in place, a new one is appended. -/
def setAttr (name value : String) : List (String × String) → List (String × String)
  | [] => [(name, value)]
  | (k, v) :: rest => if k = name then (k, value) :: rest else (k, v) :: setAttr name value rest

/-- `xmlGetProp (node, name)`: `NULL` for a `NULL` node or an absent attribute. -/
def xmlGetProp (node : Option xmlNode) (name : String) : Option String :=
  match node with
  | none => none
  | some n => getAttr name n.properties

/-- `xmlDocCopyNode (node, doc, 1)`: a recursive copy of the ONE node pointed
to (attributes and children included); the copy has no siblings.  `NULL`
gives `NULL`. -/
def xmlDocCopyNode (node : List xmlNode) : List xmlNode :=
  node.take 1

/-- `xmlUnlinkNode (parent->children)` seen from the parent `n`.  The function
detaches a node from its parent only when the node has its `parent` link:
`linked` says whether the first child has.  A linked first child leaves the
chain and the parent then points to the former second child; a first child
without the link stays where the parent's `children` pointer has it.  A `NULL`
argument changes nothing. -/
def xmlUnlinkNode_first (linked : Bool) (n : xmlNode) : xmlNode :=
  if linked then n.setChildren (n.children.drop 1) else n

/-- `xmlDocGetRootElement (doc)`: the first element among the top-level nodes
(followed by its siblings), `NULL` for a `NULL` document or none. -/
def xmlDocGetRootElement (doc : Option xmlDoc) : List xmlNode :=
  match doc with
  | none => []
  | some d => d.children.dropWhile (fun n => n.type ≠ xmlElementType.XML_ELEMENT_NODE)

/-- The chain `doc->children->children`: the children of the first top-level node. -/
def xmlDoc.dsnodes (doc : xmlDoc) : List xmlNode :=
  match doc.children with
  | [] => []
  | top :: _ => top.children

/-- Replacement of the chain `doc->children->children`. -/
def xmlDoc.setDsnodes (doc : xmlDoc) (l : List xmlNode) : xmlDoc :=
  match doc.children with
  | [] => doc
  | top :: rest => { children := top.setChildren l :: rest }

/-! ## Types of the surrounding library -/

/-- Datastore selectors (`NC_DATASTORE` of netconf.h) named in the file;
`NC_DATASTORE_ERROR` stands for every value the `switch` statements send to
`default`. -/
inductive NC_DATASTORE
  | NC_DATASTORE_ERROR
  | NC_DATASTORE_CONFIG
  | NC_DATASTORE_RUNNING
  | NC_DATASTORE_STARTUP
  | NC_DATASTORE_CANDIDATE
  deriving DecidableEq, Repr

/-- Return values of the operations: `EXIT_SUCCESS`, `EXIT_FAILURE` and the
library's `EXIT_RPC_NOT_APPLICABLE`, three distinct codes. -/
inductive retcode
  | EXIT_SUCCESS
  | EXIT_FAILURE
  | EXIT_RPC_NOT_APPLICABLE
  deriving DecidableEq, Repr

/-- Error kinds (`NC_ERR`) created in the file. -/
inductive NC_ERR
  | NC_ERR_BAD_ELEM
  | NC_ERR_LOCK_DENIED
  | NC_ERR_OP_FAILED
  | NC_ERR_IN_USE
  | NC_ERR_ACCESS_DENIED
  deriving DecidableEq, Repr

/-- Error parameters (`NC_ERR_PARAM`) set in the file. -/
inductive NC_ERR_PARAM
  | NC_ERR_PARAM_MSG
  | NC_ERR_PARAM_INFO_SID
  | NC_ERR_PARAM_INFO_BADELEM
  deriving DecidableEq, Repr

/-- Modelled from the spec: `struct nc_err` of error.c, which is not part of
the translated file.  An error has one of the kinds of spec section 7 and
carries the message, the session id of the lock holder and the bad element
name when these were set. -/
structure nc_err where
  kind : NC_ERR
  message : Option String
  sid : Option String
  badelem : Option String
  deriving DecidableEq, Repr

/-- Modelled from the spec: `nc_err_new` of error.c creates an error of the
given kind with no parameter set by this file. -/
def nc_err_new (e : NC_ERR) : nc_err :=
  { kind := e, message := none, sid := none, badelem := none }

/-- Modelled from the spec: `nc_err_set` of error.c stores one parameter of the error. -/
def nc_err_set (err : nc_err) (param : NC_ERR_PARAM) (value : Option String) : nc_err :=
  match param with
  | .NC_ERR_PARAM_MSG => { err with message := value }
  | .NC_ERR_PARAM_INFO_SID => { err with sid := value }
  | .NC_ERR_PARAM_INFO_BADELEM => { err with badelem := value }

/-- The part of `struct nc_session` the file reads: `session_id` is a
character array inside the structure, so it is never `NULL`. -/
structure nc_session where
  session_id : String
  username : String
  hostname : String
  deriving DecidableEq, Repr

/-- Modelled from the spec: `nc_session_dummy` of session.c builds a session
object that carries the given session id and the caller's user and host
("a reserved dummy session id is used internally to check whether the
datastore is locked by anyone at all"). -/
def nc_session_dummy (sid : String) (username hostname : String) : Option nc_session :=
  some { session_id := sid, username := username, hostname := hostname }

/-- NACM context attached to an rpc (`rpc->nacm`), an opaque handle. -/
structure nacm_rpc where
  id : Nat
  deriving DecidableEq, Repr

/-- The part of `nc_rpc` the file reads. -/
structure nc_rpc where
  nacm : Option nacm_rpc
  deriving DecidableEq, Repr

/-- Verdict of the NACM write check: `NACM_PERMIT`, `NACM_DENY`, or any other value. -/
inductive nacm_verdict
  | NACM_PERMIT
  | NACM_DENY
  | NACM_OTHER
  deriving DecidableEq, Repr

/-- Signal masks: the full mask of `sigfillset`, or a set of blocked signal numbers. -/
inductive sigset_t
  | filled
  | blocked (signals : List Nat)
  deriving DecidableEq, Repr

/-- Operations on the named semaphore, in the order the process issues them. -/
inductive sem_op
  | sem_wait
  | sem_post
  deriving DecidableEq, Repr

/-! ## The datastore structure and its environment -/

/-- The file datastore `struct ncds_ds_file`: path of the backing file, the
parsed document, the three node handles, the time of the last access and the
mutex bookkeeping of `ds_lock` (`holding_lock` and the saved signal mask).
The `FILE*`, the semaphore pointer and the data model pointers are not
represented.

The last field, `unparented`, is not a member of the C structure.  It keeps
a fact about the nodes of `xml` that the tree value does not carry: the
positions, in the chain `xml->children->children`, of the datastore elements
whose `children` pointer was assigned the result of `xmlDocCopyNode` since the
document was parsed.  A child hung in that way has no `parent` link (every
node of a parsed document has one), and `xmlUnlinkNode` goes by that link. -/
structure ncds_ds_file where
  path : String
  xml : Option xmlDoc
  running : Option Nat
  startup : Option Nat
  candidate : Option Nat
  last_access : Int
  holding_lock : Bool
  sigset : sigset_t
  unparented : List Nat
  deriving DecidableEq

/-- What the process shares with the system: the document that
`xmlReadFile (path)` yields for the present file content (`none` when the
content does not parse), the `st_mtime` that `stat (path)` reports (`none`
when `stat` fails), the signal mask of the process and the operations issued
on the semaphore so far. -/
structure World where
  content : Option xmlDoc
  st_mtime : Option Int
  sigmask : sigset_t
  sem : List sem_op
  deriving DecidableEq

/-- What the system calls made during one operation return: the three
readings of `time (NULL)` (`-1` on failure), whether `ftruncate` and
`xmlDocFormatDump` succeed, and the modification time the file gets when it
is written. -/
structure Oracle where
  time_reload : Int
  time_lock : Int
  time_sync : Int
  ftruncate_ok : Bool
  dump_ok : Bool
  mtime_sync : Int

/-- Collaborators and constants that the file uses and that live elsewhere in
the library: the reserved session id `INTERNAL_DUMMY_ID`, the time formatter
`nc_time2datetime` (`NULL` on failure), the XML parser on strings
`xmlReadMemory`, the NACM read filter `nacm_check_data_read` (which edits the
document it is given), the NACM write check `edit_replace_nacmcheck` (old
configuration, new document, NACM context; the data model and key list are
fixed per datastore) and the `edit_config` collaborator (datastore document,
edit document, default operation, error option, NACM context), which returns
its status, the edited datastore document and the error it reports. -/
structure Ext where
  INTERNAL_DUMMY_ID : String
  nc_time2datetime : Int → Option String
  xmlReadMemory : String → Option xmlDoc
  nacm_check_data_read : xmlDoc → nacm_rpc → xmlDoc
  edit_replace_nacmcheck : List xmlNode → xmlDoc → nacm_rpc → nacm_verdict × Option nc_err
  edit_config : xmlDoc → xmlDoc → Nat → Nat → Option nacm_rpc → Int × xmlDoc × Option nc_err

/-- Dereference of a node handle: the node of the chain
`xml->children->children` it points to. -/
def ncds_ds_file.deref (ds : ncds_ds_file) (p : Option Nat) : Option xmlNode :=
  match ds.xml, p with
  | some doc, some i => doc.dsnodes[i]?
  | _, _ => none

/-- Write through a node handle: the node it points to is replaced by its
image under `f`.  Nothing is written through a `NULL` handle; the operations
use the handles after a successful reload only, which leaves them set. -/
def ncds_ds_file.assign (ds : ncds_ds_file) (p : Option Nat) (f : xmlNode → xmlNode) :
    ncds_ds_file :=
  match ds.xml, p with
  | some doc, some i =>
    match doc.dsnodes[i]? with
    | some n => { ds with xml := some (doc.setDsnodes (doc.dsnodes.set i (f n))) }
    | none => ds
  | _, _ => ds

/-- The assignment `node->children = copy` through a node handle, for a `copy`
that `xmlDocCopyNode` returned: the copy becomes the child list, and it has no
`parent` link, which `unparented` records. -/
def ncds_ds_file.hang (ds : ncds_ds_file) (p : Option Nat) (copy : List xmlNode) :
    ncds_ds_file :=
  { ds.assign p (fun n => n.setChildren copy) with
    unparented :=
      match p with
      | some i => i :: ds.unparented
      | none => ds.unparented }

/-- Whether the children of the node behind the handle have their `parent`
link: they do unless the child list was hung in by `ncds_ds_file.hang`. -/
def ncds_ds_file.linked (ds : ncds_ds_file) (p : Option Nat) : Bool :=
  match p with
  | some i => !ds.unparented.contains i
  | none => true

/-- `xmlSetProp (node, name, value)` through a node handle; a `NULL` value
leaves an attribute that reads back as the empty string. -/
def xmlSetProp (ds : ncds_ds_file) (p : Option Nat) (name : String) (value : Option String) :
    ncds_ds_file :=
  ds.assign p (fun n => n.setProperties (setAttr name (value.getD "") n.properties))

/-- `node->children` through a node handle (`NULL` when there is no child). -/
def ncds_ds_file.childrenOf (ds : ncds_ds_file) (p : Option Nat) : List xmlNode :=
  match ds.deref p with
  | some n => n.children
  | none => []

/-- The `switch (target)` that opens the operations: the handle of a stored
datastore, `none` for the `default` branch. -/
def ncds_ds_file.select (ds : ncds_ds_file) : NC_DATASTORE → Option (Option Nat)
  | .NC_DATASTORE_RUNNING => some ds.running
  | .NC_DATASTORE_STARTUP => some ds.startup
  | .NC_DATASTORE_CANDIDATE => some ds.candidate
  | _ => none

/-- Macro `LOCK`: save the signal mask and block all signals, wait on the
semaphore, set `holding_lock`. -/
def LOCK (w : World) (ds : ncds_ds_file) : World × ncds_ds_file :=
  ({ w with sigmask := sigset_t.filled, sem := w.sem ++ [sem_op.sem_wait] },
   { ds with sigset := w.sigmask, holding_lock := true })

/-- Macro `UNLOCK`: post the semaphore, clear `holding_lock`, restore the saved signal mask. -/
def UNLOCK (w : World) (ds : ncds_ds_file) : World × ncds_ds_file :=
  ({ w with sem := w.sem ++ [sem_op.sem_post], sigmask := ds.sigset },
   { ds with holding_lock := false })

/-- The loop of `file_fill_dsnodes` over the chain `xml->children->children`:
`i` is the position of `aux`; `none` is the jump to `invalid_ds`. -/
def file_fill_dsnodes_loop :
    List xmlNode → Nat → Option Nat → Option Nat → Option Nat →
      Option (Option Nat × Option Nat × Option Nat)
  | [], _, running, startup, candidate => some (running, startup, candidate)
  | aux :: next, i, running, startup, candidate =>
    if aux.name = "running" then
      if running.isSome then none
      else file_fill_dsnodes_loop next (i + 1) (some i) startup candidate
    else if aux.name = "startup" then
      if startup.isSome then none
      else file_fill_dsnodes_loop next (i + 1) running (some i) candidate
    else if aux.name = "candidate" then
      if candidate.isSome then none
      else file_fill_dsnodes_loop next (i + 1) running startup (some i)
    else file_fill_dsnodes_loop next (i + 1) running startup candidate

/-- Function `file_fill_dsnodes`: find the three datastore nodes by name. -/
def file_fill_dsnodes (ds : ncds_ds_file) : retcode × ncds_ds_file :=
  match ds.xml with
  | none => (retcode.EXIT_FAILURE, ds)
  | some doc =>
    if doc.children.isEmpty then (retcode.EXIT_FAILURE, ds)
    else
      match file_fill_dsnodes_loop doc.dsnodes 0 none none none with
      | some (some r, some s, some c) =>
        (retcode.EXIT_SUCCESS, { ds with running := some r, startup := some s, candidate := some c })
      | _ =>
        (retcode.EXIT_FAILURE, { ds with running := none, startup := none, candidate := none })

/-- Function `file_reload`: re-read the backing file unless its modification
time is older than the last access. -/
def file_reload (o : Oracle) (w : World) (ds : ncds_ds_file) : retcode × ncds_ds_file :=
  if !ds.holding_lock then (retcode.EXIT_FAILURE, ds)
  else
    let t : Int := if o.time_reload = -1 then 0 else o.time_reload
    if (match w.st_mtime with
        | some st_mtime => decide (st_mtime < ds.last_access)
        | none => false) then (retcode.EXIT_SUCCESS, ds)
    else
      match w.content with
      | none => (retcode.EXIT_FAILURE, ds)
      | some doc =>
        let filled := file_fill_dsnodes { ds with xml := some doc }
        if filled.1 ≠ retcode.EXIT_SUCCESS then (retcode.EXIT_FAILURE, ds)
        else (retcode.EXIT_SUCCESS, { filled.2 with last_access := t, unparented := [] })

/-- Function `file_sync`: truncate the file and dump the document into it.
A file that was truncated but not written does not parse. -/
def file_sync (o : Oracle) (w : World) (ds : ncds_ds_file) : retcode × World × ncds_ds_file :=
  if !ds.holding_lock then (retcode.EXIT_FAILURE, w, ds)
  else if !o.ftruncate_ok then (retcode.EXIT_FAILURE, w, ds)
  else
    match ds.xml with
    | none => (retcode.EXIT_FAILURE, { w with content := none, st_mtime := some o.mtime_sync }, ds)
    | some doc =>
      if !o.dump_ok then
        (retcode.EXIT_FAILURE, { w with content := none, st_mtime := some o.mtime_sync }, ds)
      else
        (retcode.EXIT_SUCCESS, { w with content := some doc, st_mtime := some o.mtime_sync },
          if o.time_sync = -1 then ds else { ds with last_access := o.time_sync })

/-- Function `file_ds_access`: the datastore is accessible when its `lock`
attribute is the empty string or names the given session. -/
def file_ds_access (ds : ncds_ds_file) (target : NC_DATASTORE) (session : Option nc_session) :
    retcode :=
  match ds.select target with
  | none => retcode.EXIT_FAILURE
  | some target_ds =>
    let lock := xmlGetProp (ds.deref target_ds) "lock"
    if lock = some "" then retcode.EXIT_SUCCESS
    else
      match session with
      | some s => if lock = some s.session_id then retcode.EXIT_SUCCESS else retcode.EXIT_FAILURE
      | none => retcode.EXIT_FAILURE

/-! ## The operations -/

/-- What an operation leaves behind: its return value, the error stored
through the `error` argument (`none` when the argument was not written), the
world and the datastore structure. -/
structure Outcome where
  ret : retcode
  error : Option nc_err
  w : World
  ds : ncds_ds_file
  deriving DecidableEq

/-- The `struct ncds_lockinfo` handed out by `ncds_file_lockinfo`. -/
structure ncds_lockinfo where
  type : NC_DATASTORE
  sid : Option String
  time : Option String
  deriving DecidableEq, Repr

/-- What `ncds_file_lockinfo` leaves behind: the returned pointer (`none` is
`NULL`), the world and the datastore structure. -/
structure LockinfoOutcome where
  info : Option ncds_lockinfo
  w : World
  ds : ncds_ds_file
  deriving DecidableEq

/-- Release the mutex and return: the tail shared by all exits of the operations. -/
def leave (ret : retcode) (error : Option nc_err) (w : World) (ds : ncds_ds_file) : Outcome :=
  { ret := ret, error := error, w := (UNLOCK w ds).1, ds := (UNLOCK w ds).2 }

/-- Function `ncds_file_lockinfo`.  The result `none` is the undefined
behaviour of `strlen (NULL)` when the datastore element has no `lock` attribute. -/
def ncds_file_lockinfo (o : Oracle) (w : World) (ds : ncds_ds_file) (target : NC_DATASTORE) :
    Option LockinfoOutcome :=
  let locked := LOCK w ds
  let w := locked.1
  let ds := locked.2
  let reload := file_reload o w ds
  if reload.1 ≠ retcode.EXIT_SUCCESS then
    some { info := none, w := (UNLOCK w reload.2).1, ds := (UNLOCK w reload.2).2 }
  else
    let ds := reload.2
    match ds.select target with
    | none => some { info := none, w := (UNLOCK w ds).1, ds := (UNLOCK w ds).2 }
    | some target_ds =>
      match xmlGetProp (ds.deref target_ds) "lock" with
      | none => none
      | some sid =>
        let time := xmlGetProp (ds.deref target_ds) "locktime"
        let info : ncds_lockinfo :=
          if sid.length = 0 then { type := target, sid := none, time := none }
          else { type := target, sid := some sid, time := time }
        some { info := some info, w := (UNLOCK w ds).1, ds := (UNLOCK w ds).2 }

/-- Function `ncds_file_lock`. -/
def ncds_file_lock (x : Ext) (o : Oracle) (w : World) (ds : ncds_ds_file)
    (session : nc_session) (target : NC_DATASTORE) : Outcome :=
  let locked := LOCK w ds
  let w := locked.1
  let ds := locked.2
  let reload := file_reload o w ds
  if reload.1 ≠ retcode.EXIT_SUCCESS then leave retcode.EXIT_FAILURE none w reload.2
  else
    let ds := reload.2
    match ds.select target with
    | none =>
      leave retcode.EXIT_FAILURE
        (some (nc_err_set (nc_err_new NC_ERR.NC_ERR_BAD_ELEM)
          NC_ERR_PARAM.NC_ERR_PARAM_INFO_BADELEM (some "target"))) w ds
    | some target_ds =>
      let no_session := nc_session_dummy x.INTERNAL_DUMMY_ID session.username session.hostname
      if file_ds_access ds target no_session ≠ retcode.EXIT_SUCCESS then
        let lock := xmlGetProp (ds.deref target_ds) "lock"
        leave retcode.EXIT_FAILURE
          (some (nc_err_set (nc_err_new NC_ERR.NC_ERR_LOCK_DENIED)
            NC_ERR_PARAM.NC_ERR_PARAM_INFO_SID lock)) w ds
      else if target = NC_DATASTORE.NC_DATASTORE_CANDIDATE ∧
          xmlGetProp (ds.deref target_ds) "modified" = some "true" then
        leave retcode.EXIT_FAILURE
          (some (nc_err_set (nc_err_new NC_ERR.NC_ERR_LOCK_DENIED)
            NC_ERR_PARAM.NC_ERR_PARAM_MSG
            (some "Candidate datastore not locked but already modified."))) w ds
      else
        let ds := xmlSetProp ds target_ds "lock" (some session.session_id)
        let ds := xmlSetProp ds target_ds "locktime" (x.nc_time2datetime o.time_lock)
        let sync := file_sync o w ds
        if sync.1 ≠ retcode.EXIT_SUCCESS then
          leave retcode.EXIT_FAILURE
            (some (nc_err_set (nc_err_new NC_ERR.NC_ERR_OP_FAILED)
              NC_ERR_PARAM.NC_ERR_PARAM_MSG (some "Datastore file synchronisation failed.")))
            sync.2.1 sync.2.2
        else leave retcode.EXIT_SUCCESS none sync.2.1 sync.2.2

/-- Function `ncds_file_unlock`. -/
def ncds_file_unlock (x : Ext) (o : Oracle) (w : World) (ds : ncds_ds_file)
    (session : nc_session) (target : NC_DATASTORE) : Outcome :=
  let locked := LOCK w ds
  let w := locked.1
  let ds := locked.2
  let reload := file_reload o w ds
  if reload.1 ≠ retcode.EXIT_SUCCESS then leave retcode.EXIT_FAILURE none w reload.2
  else
    let ds := reload.2
    match ds.select target with
    | none =>
      leave retcode.EXIT_FAILURE
        (some (nc_err_set (nc_err_new NC_ERR.NC_ERR_BAD_ELEM)
          NC_ERR_PARAM.NC_ERR_PARAM_INFO_BADELEM (some "target"))) w ds
    | some target_ds =>
      let no_session := nc_session_dummy x.INTERNAL_DUMMY_ID session.username session.hostname
      if file_ds_access ds target no_session = retcode.EXIT_SUCCESS then
        leave retcode.EXIT_FAILURE
          (some (nc_err_set (nc_err_new NC_ERR.NC_ERR_OP_FAILED)
            NC_ERR_PARAM.NC_ERR_PARAM_MSG (some "Target datastore is not locked."))) w ds
      else if file_ds_access ds target (some session) ≠ retcode.EXIT_SUCCESS then
        leave retcode.EXIT_FAILURE
          (some (nc_err_set (nc_err_new NC_ERR.NC_ERR_OP_FAILED)
            NC_ERR_PARAM.NC_ERR_PARAM_MSG
            (some "Target datastore is locked by another session."))) w ds
      else
        let ds :=
          if target = NC_DATASTORE.NC_DATASTORE_CANDIDATE then
            let ds := ds.assign ds.candidate (xmlUnlinkNode_first (ds.linked ds.candidate))
            let copy := xmlDocCopyNode (ds.childrenOf ds.running)
            let ds := ds.hang ds.candidate copy
            xmlSetProp ds target_ds "modified" (some "false")
          else ds
        let ds := xmlSetProp ds target_ds "lock" (some "")
        let ds := xmlSetProp ds target_ds "locktime" (some "")
        let sync := file_sync o w ds
        if sync.1 ≠ retcode.EXIT_SUCCESS then
          leave retcode.EXIT_FAILURE
            (some (nc_err_set (nc_err_new NC_ERR.NC_ERR_OP_FAILED)
              NC_ERR_PARAM.NC_ERR_PARAM_MSG (some "Datastore file synchronisation failed.")))
            sync.2.1 sync.2.2
        else leave retcode.EXIT_SUCCESS none sync.2.1 sync.2.2

/-- The `switch (source)` of `ncds_file_copyconfig`: the node `source_ds` the
copy starts from, or the name of the bad element.  `config = none` is a
`NULL` string. -/
def copyconfig_source (x : Ext) (ds : ncds_ds_file) (source : NC_DATASTORE)
    (config : Option String) : Except String (List xmlNode) :=
  match source with
  | .NC_DATASTORE_RUNNING => .ok (ds.childrenOf ds.running)
  | .NC_DATASTORE_STARTUP => .ok (ds.childrenOf ds.startup)
  | .NC_DATASTORE_CANDIDATE => .ok (ds.childrenOf ds.candidate)
  | .NC_DATASTORE_CONFIG =>
    match config with
    | none => .error "config"
    | some c => .ok (xmlDocGetRootElement (x.xmlReadMemory c))
  | _ => .error "target"

/-- The NACM block of `ncds_file_copyconfig`: the working copy after the read
filter, the verdict of the write check and the error it left.  Without a NACM
context, and for a copy from running to startup, the copy is permitted as it is. -/
def copyconfig_nacm (x : Ext) (rpc : Option nc_rpc) (target source : NC_DATASTORE)
    (old : List xmlNode) (aux_doc : xmlDoc) : xmlDoc × nacm_verdict × Option nc_err :=
  match rpc.bind (fun r => r.nacm) with
  | some nacm =>
    if ¬ (source = NC_DATASTORE.NC_DATASTORE_RUNNING ∧
        target = NC_DATASTORE.NC_DATASTORE_STARTUP) then
      let aux_doc :=
        if source = NC_DATASTORE.NC_DATASTORE_RUNNING ∨
            source = NC_DATASTORE.NC_DATASTORE_STARTUP ∨
            source = NC_DATASTORE.NC_DATASTORE_CANDIDATE then
          x.nacm_check_data_read aux_doc nacm
        else aux_doc
      let r := x.edit_replace_nacmcheck old aux_doc nacm
      (aux_doc, r.1, r.2)
    else (aux_doc, nacm_verdict.NACM_PERMIT, none)
  | none => (aux_doc, nacm_verdict.NACM_PERMIT, none)

/-- The writes of `ncds_file_copyconfig`: unlink and free the first child of
the target (a child without `parent` link stays in the chain until the next
line overwrites the pointer), hang a copy of the first node of the working
copy in as the target's `children`, and set the `modified` mark of a candidate
target. -/
def copyconfig_write (ds : ncds_ds_file) (target_ds : Option Nat) (target source : NC_DATASTORE)
    (aux_doc : xmlDoc) : ncds_ds_file :=
  let ds := ds.assign target_ds (xmlUnlinkNode_first (ds.linked target_ds))
  let ds := ds.hang target_ds (xmlDocCopyNode aux_doc.children)
  if target = NC_DATASTORE.NC_DATASTORE_CANDIDATE then
    if source = NC_DATASTORE.NC_DATASTORE_RUNNING then
      xmlSetProp ds target_ds "modified" (some "false")
    else xmlSetProp ds target_ds "modified" (some "true")
  else ds

/-- Function `ncds_file_copyconfig`; its `switch (source)`, NACM block and
writes are `copyconfig_source`, `copyconfig_nacm` and `copyconfig_write`. -/
def ncds_file_copyconfig (x : Ext) (o : Oracle) (w : World) (ds : ncds_ds_file)
    (session : Option nc_session) (rpc : Option nc_rpc) (target source : NC_DATASTORE)
    (config : Option String) : Outcome :=
  let locked := LOCK w ds
  let w := locked.1
  let ds := locked.2
  let reload := file_reload o w ds
  if reload.1 ≠ retcode.EXIT_SUCCESS then leave retcode.EXIT_FAILURE none w reload.2
  else
    let ds := reload.2
    match ds.select target with
    | none =>
      leave retcode.EXIT_FAILURE
        (some (nc_err_set (nc_err_new NC_ERR.NC_ERR_BAD_ELEM)
          NC_ERR_PARAM.NC_ERR_PARAM_INFO_BADELEM (some "target"))) w ds
    | some target_ds =>
      if file_ds_access ds target session ≠ retcode.EXIT_SUCCESS then
        leave retcode.EXIT_FAILURE (some (nc_err_new NC_ERR.NC_ERR_IN_USE)) w ds
      else if source = NC_DATASTORE.NC_DATASTORE_CANDIDATE ∧
          target = NC_DATASTORE.NC_DATASTORE_RUNNING ∧
          file_ds_access ds source session ≠ retcode.EXIT_SUCCESS then
        leave retcode.EXIT_FAILURE (some (nc_err_new NC_ERR.NC_ERR_IN_USE)) w ds
      else
        match copyconfig_source x ds source config with
        | .error badelem =>
          leave retcode.EXIT_FAILURE
            (some (nc_err_set (nc_err_new NC_ERR.NC_ERR_BAD_ELEM)
              NC_ERR_PARAM.NC_ERR_PARAM_INFO_BADELEM (some badelem))) w ds
        | .ok source_ds =>
          if source_ds.isEmpty ∧ (ds.childrenOf target_ds).isEmpty then
            leave retcode.EXIT_RPC_NOT_APPLICABLE none w ds
          else
            let aux_doc : xmlDoc := { children := xmlDocCopyNode source_ds }
            let checked := copyconfig_nacm x rpc target source (ds.childrenOf target_ds) aux_doc
            let aux_doc := checked.1
            if checked.2.1 ≠ nacm_verdict.NACM_PERMIT then
              leave retcode.EXIT_FAILURE
                (some (nc_err_new
                  (if checked.2.1 = nacm_verdict.NACM_DENY then NC_ERR.NC_ERR_ACCESS_DENIED
                   else NC_ERR.NC_ERR_OP_FAILED))) w ds
            else
              let ds := copyconfig_write ds target_ds target source aux_doc
              let sync := file_sync o w ds
              if sync.1 ≠ retcode.EXIT_SUCCESS then
                leave retcode.EXIT_FAILURE
                  (some (nc_err_set (nc_err_new NC_ERR.NC_ERR_OP_FAILED)
                    NC_ERR_PARAM.NC_ERR_PARAM_MSG
                    (some "Datastore file synchronisation failed."))) sync.2.1 sync.2.2
              else leave retcode.EXIT_SUCCESS checked.2.2 sync.2.1 sync.2.2

/-- Function `ncds_file_deleteconfig`.  The result `none` is the undefined
behaviour that follows when the first child of the target has no `parent`
link: `xmlUnlinkNode` then leaves it in the chain, `xmlFreeNode` frees it, and
the `children` pointer of the target is left pointing to freed memory, which
the dump of `file_sync` reads. -/
def ncds_file_deleteconfig (o : Oracle) (w : World) (ds : ncds_ds_file)
    (session : Option nc_session) (target : NC_DATASTORE) : Option Outcome :=
  let locked := LOCK w ds
  let w := locked.1
  let ds := locked.2
  let reload := file_reload o w ds
  if reload.1 ≠ retcode.EXIT_SUCCESS then some (leave retcode.EXIT_FAILURE none w reload.2)
  else
    let ds := reload.2
    if target = NC_DATASTORE.NC_DATASTORE_RUNNING then
      some (leave retcode.EXIT_FAILURE
        (some (nc_err_set (nc_err_new NC_ERR.NC_ERR_OP_FAILED)
          NC_ERR_PARAM.NC_ERR_PARAM_MSG (some "Cannot delete a running datastore."))) w ds)
    else
      match ds.select target with
      | none =>
        some (leave retcode.EXIT_FAILURE
          (some (nc_err_set (nc_err_new NC_ERR.NC_ERR_BAD_ELEM)
            NC_ERR_PARAM.NC_ERR_PARAM_INFO_BADELEM (some "target"))) w ds)
      | some target_ds =>
        if file_ds_access ds target session ≠ retcode.EXIT_SUCCESS then
          some (leave retcode.EXIT_FAILURE (some (nc_err_new NC_ERR.NC_ERR_IN_USE)) w ds)
        else if ds.linked target_ds = false ∧ (ds.childrenOf target_ds).isEmpty = false then
          none
        else
          let ds := ds.assign target_ds (xmlUnlinkNode_first (ds.linked target_ds))
          let ds :=
            if target = NC_DATASTORE.NC_DATASTORE_CANDIDATE then
              xmlSetProp ds target_ds "modified" (some "true")
            else ds
          let sync := file_sync o w ds
          if sync.1 ≠ retcode.EXIT_SUCCESS then
            some (leave retcode.EXIT_FAILURE
              (some (nc_err_set (nc_err_new NC_ERR.NC_ERR_OP_FAILED)
                NC_ERR_PARAM.NC_ERR_PARAM_MSG
                (some "Datastore file synchronisation failed."))) sync.2.1 sync.2.2)
          else some (leave retcode.EXIT_SUCCESS none sync.2.1 sync.2.2)

/-- Function `ncds_file_editconfig`.  `defop` and `errop` are the numeric
values of the default operation and the error option, handed on unread. -/
def ncds_file_editconfig (x : Ext) (o : Oracle) (w : World) (ds : ncds_ds_file)
    (session : Option nc_session) (rpc : Option nc_rpc) (target : NC_DATASTORE)
    (config : String) (defop errop : Nat) : Outcome :=
  let locked := LOCK w ds
  let w := locked.1
  let ds := locked.2
  let reload := file_reload o w ds
  if reload.1 ≠ retcode.EXIT_SUCCESS then leave retcode.EXIT_FAILURE none w reload.2
  else
    let ds := reload.2
    match ds.select target with
    | none =>
      leave retcode.EXIT_FAILURE
        (some (nc_err_set (nc_err_new NC_ERR.NC_ERR_BAD_ELEM)
          NC_ERR_PARAM.NC_ERR_PARAM_INFO_BADELEM (some "target"))) w ds
    | some target_ds =>
      if file_ds_access ds target session ≠ retcode.EXIT_SUCCESS then
        leave retcode.EXIT_FAILURE (some (nc_err_new NC_ERR.NC_ERR_IN_USE)) w ds
      else
        match x.xmlReadMemory config with
        | none => leave retcode.EXIT_FAILURE none w ds
        | some config_doc =>
          let datastore_doc : xmlDoc := { children := xmlDocCopyNode (ds.childrenOf target_ds) }
          let edited := x.edit_config datastore_doc config_doc defop errop
            (rpc.bind (fun r => r.nacm))
          if edited.1 ≠ 0 then leave retcode.EXIT_FAILURE edited.2.2 w ds
          else
            let ds := ds.hang target_ds (xmlDocCopyNode edited.2.1.children)
            let ds :=
              if target = NC_DATASTORE.NC_DATASTORE_CANDIDATE then
                xmlSetProp ds target_ds "modified" (some "true")
              else ds
            let sync := file_sync o w ds
            if sync.1 ≠ retcode.EXIT_SUCCESS then
              leave retcode.EXIT_FAILURE
                (some (nc_err_set (nc_err_new NC_ERR.NC_ERR_OP_FAILED)
                  NC_ERR_PARAM.NC_ERR_PARAM_MSG
                  (some "Datastore file synchronisation failed."))) sync.2.1 sync.2.2
            else leave retcode.EXIT_SUCCESS edited.2.2 sync.2.1 sync.2.2

/-! ## Initialisation, the structure check and the semaphore name -/

/-- The loop of `file_structure_check` over the children of the root; the
three flags are the counters `running`, `candidate` and `startup`. -/
def file_structure_check_loop : List xmlNode → Bool → Bool → Bool → Bool
  | [], running, candidate, startup => candidate && running && startup
  | ds :: next, running, candidate, startup =>
    if ds.type ≠ xmlElementType.XML_ELEMENT_NODE then
      file_structure_check_loop next running candidate startup
    else if ds.name = "candidate" then
      if candidate then false else file_structure_check_loop next running true startup
    else if ds.name = "running" then
      if running then false else file_structure_check_loop next true candidate startup
    else if ds.name = "startup" then
      if startup then false else file_structure_check_loop next running candidate true
    else file_structure_check_loop next running candidate startup

/-- Function `file_structure_check`: `true` is the non-zero result. -/
def file_structure_check (doc : xmlDoc) : Bool :=
  match xmlDocGetRootElement (some doc) with
  | [] => false
  | root :: _ =>
    if root.name ≠ "datastores" then false
    else file_structure_check_loop root.children false false false

/-- The document the XML library reads from the text of the macro
`FILEDSFRAME` with `XML_PARSE_NOBLANKS`: the root `datastores` (its `xmlns`
is a namespace declaration, not an attribute) with the three empty datastore
elements. -/
def FILEDSFRAME : xmlDoc :=
  { children :=
      [xmlNode.mk xmlElementType.XML_ELEMENT_NODE "datastores" "" []
        [xmlNode.mk xmlElementType.XML_ELEMENT_NODE "running" "" [("lock", "")] [],
         xmlNode.mk xmlElementType.XML_ELEMENT_NODE "startup" "" [("lock", "")] [],
         xmlNode.mk xmlElementType.XML_ELEMENT_NODE "candidate" ""
           [("modified", "false"), ("lock", "")] []]] }

/-- Function `file_create_xmlframe`; `ok` says whether `xmlReadDoc` succeeds. -/
def file_create_xmlframe (ok : Bool) : Option xmlDoc :=
  if ok then some FILEDSFRAME else none

/-- Macro `NCDS_LOCK`. -/
def NCDS_LOCK : String := "/NCDS_FLOCK"

/-- One turn of the loop that prepares the semaphore name:
`saux = strchr (sempath, '/')` followed by `*saux = '_'`.  The result `none`
is the `NULL` of `strchr` that ends the loop. -/
def strchr_set : List Char → Option (List Char)
  | [] => none
  | c :: cs => if c = '/' then some ('_' :: cs) else (strchr_set cs).map (fun r => c :: r)

/-- The loop `while ((saux = strchr (sempath, '/')) != NULL) *saux = '_'`. -/
def sempath_loop (sempath : List Char) : List Char :=
  match h : strchr_set sempath with
  | none => sempath
  | some replaced => sempath_loop replaced
termination_by sempath.count '/'
decreasing_by
  induction sempath generalizing replaced with
  | nil => simp [strchr_set] at h
  | cons c cs ih =>
    by_cases hc : c = '/'
    · subst hc
      simp only [strchr_set, if_true, Option.some.injEq] at h
      subst h
      simp
    · simp only [strchr_set, hc, if_false, Option.map_eq_some'] at h
      obtain ⟨r, hr, rfl⟩ := h
      have := ih r hr
      simp only [List.count_cons, beq_iff_eq, hc, if_false]
      simpa using this

/-- The name that `ncds_file_init` hands to `sem_open` for the backing file
`path`: `asprintf ("%s/%s", NCDS_LOCK, path)`, the loop that replaces the
slashes, and the assignment `sempath[0] = '/'`. -/
def sem_name (path : String) : String :=
  String.mk ((sempath_loop (NCDS_LOCK ++ "/" ++ path).data).set 0 '/')

/-- What the system calls of `ncds_file_init` return: the `st_size` that
`stat` reports, whether the `asprintf` of the alternate path succeeds, the
path of the file `mkstemp` creates (`none` when `mkstemp` or `fdopen` fails),
whether `xmlReadDoc` of the frame and the dump of the frame succeed, the
modification time the written file gets, whether the `asprintf` of the
semaphore name and `sem_open` succeed. -/
structure InitOracle where
  st_size : Nat
  asprintf_ok : Bool
  mkstemp : Option String
  frame_ok : Bool
  dump_ok : Bool
  mtime_dump : Int
  sempath_ok : Bool
  sem_open_ok : Bool

/-- What `ncds_file_init` leaves behind: its return value, the world (the
backing file being the file at the path the structure now names), the
datastore structure and the name handed to `sem_open` when that call was reached. -/
structure InitOutcome where
  ret : retcode
  w : World
  ds : ncds_ds_file
  sempath : Option String
  deriving DecidableEq

/-- The end of `ncds_file_init`: find the datastore nodes, clear the `lock`
attributes in the document, build the semaphore name and open the semaphore. -/
def init_finish (i : InitOracle) (w : World) (ds : ncds_ds_file) : InitOutcome :=
  let filled := file_fill_dsnodes ds
  if filled.1 ≠ retcode.EXIT_SUCCESS then
    { ret := retcode.EXIT_FAILURE, w := w, ds := filled.2, sempath := none }
  else
    let ds := filled.2
    let ds := xmlSetProp ds ds.running "lock" (some "")
    let ds := xmlSetProp ds ds.startup "lock" (some "")
    let ds := xmlSetProp ds ds.candidate "lock" (some "")
    if !i.sempath_ok then { ret := retcode.EXIT_FAILURE, w := w, ds := ds, sempath := none }
    else if !i.sem_open_ok then
      { ret := retcode.EXIT_FAILURE, w := w, ds := ds, sempath := some (sem_name ds.path) }
    else { ret := retcode.EXIT_SUCCESS, w := w, ds := ds, sempath := some (sem_name ds.path) }

/-- The creation of the basic structure in `ncds_file_init`: build the frame
and dump it into the file (the result of the dump is not looked at). -/
def init_frame (i : InitOracle) (w : World) (ds : ncds_ds_file) : InitOutcome :=
  match file_create_xmlframe i.frame_ok with
  | none =>
    { ret := retcode.EXIT_FAILURE, w := w, ds := { ds with xml := none }, sempath := none }
  | some doc =>
    init_finish i
      { w with content := if i.dump_ok then some doc else none, st_mtime := some i.mtime_dump }
      { ds with xml := some doc, unparented := [] }

/-- Function `ncds_file_init`; the creation of the basic structure and the
part from `file_fill_dsnodes` on are `init_frame` and `init_finish`.  When
the file holds unknown data an alternate file is created and adopted: the
world then describes that new, empty file. -/
def ncds_file_init (i : InitOracle) (w : World) (ds : ncds_ds_file) : InitOutcome :=
  let ds := { ds with xml := w.content, unparented := [] }
  if (match ds.xml with
      | none => true
      | some doc => !file_structure_check doc) then
    if w.st_mtime.isNone ∨ i.st_size > 0 then
      let ds := { ds with xml := none }
      if !i.asprintf_ok then
        { ret := retcode.EXIT_FAILURE, w := w, ds := ds, sempath := none }
      else
        match i.mkstemp with
        | none => { ret := retcode.EXIT_FAILURE, w := w, ds := ds, sempath := none }
        | some new_path =>
          init_frame i { w with content := none, st_mtime := some i.mtime_dump }
            { ds with path := new_path }
    else init_frame i w ds
  else init_finish i w ds

/-- What `ncds_file_getconfig` leaves behind: the returned string (`none` is
`NULL`), the error, the world and the datastore structure. -/
structure GetconfigOutcome where
  data : Option String
  error : Option nc_err
  w : World
  ds : ncds_ds_file
  deriving DecidableEq

/-- Function `ncds_file_getconfig`.  `xmlNodeDump` is the serialiser of the
XML library for one node, `buffer_ok` says whether `xmlBufferCreate` succeeds. -/
def ncds_file_getconfig (xmlNodeDump : xmlNode → String) (buffer_ok : Bool) (o : Oracle)
    (w : World) (ds : ncds_ds_file) (source : NC_DATASTORE) : GetconfigOutcome :=
  let locked := LOCK w ds
  let w := locked.1
  let ds := locked.2
  let reload := file_reload o w ds
  if reload.1 ≠ retcode.EXIT_SUCCESS then
    { data := none, error := none, w := (UNLOCK w reload.2).1, ds := (UNLOCK w reload.2).2 }
  else
    let ds := reload.2
    match ds.select source with
    | none =>
      { data := none,
        error := some (nc_err_set (nc_err_new NC_ERR.NC_ERR_BAD_ELEM)
          NC_ERR_PARAM.NC_ERR_PARAM_INFO_BADELEM (some "source")),
        w := (UNLOCK w ds).1, ds := (UNLOCK w ds).2 }
    | some target_ds =>
      if !buffer_ok then
        { data := none, error := some (nc_err_new NC_ERR.NC_ERR_OP_FAILED),
          w := (UNLOCK w ds).1, ds := (UNLOCK w ds).2 }
      else
        { data := some (String.join ((ds.childrenOf target_ds).map xmlNodeDump)),
          error := none, w := (UNLOCK w ds).1, ds := (UNLOCK w ds).2 }

/-! ## Vocabulary of the statements -/

/-- The element of a stored datastore in the document of the structure
(`none` for a selector that names no stored datastore). -/
def ncds_ds_file.node (ds : ncds_ds_file) (t : NC_DATASTORE) : Option xmlNode :=
  match ds.select t with
  | some p => ds.deref p
  | none => none

/-- An attribute of the element of a stored datastore, as `xmlGetProp` reads it. -/
def ncds_ds_file.attr (ds : ncds_ds_file) (t : NC_DATASTORE) (name : String) : Option String :=
  xmlGetProp (ds.node t) name

/-- The configuration of a stored datastore: the chain of children of its element. -/
def ncds_ds_file.config (ds : ncds_ds_file) (t : NC_DATASTORE) : List xmlNode :=
  match ds.node t with
  | some n => n.children
  | none => []

/-- The selector names one of the three stored datastores. -/
def NC_DATASTORE.stored (t : NC_DATASTORE) : Prop :=
  t = NC_DATASTORE.NC_DATASTORE_RUNNING ∨ t = NC_DATASTORE.NC_DATASTORE_STARTUP ∨
    t = NC_DATASTORE.NC_DATASTORE_CANDIDATE

/-- The node handles of the structure are the ones `file_fill_dsnodes` finds
in its document: the state every successful initialisation and reload leaves. -/
def ncds_ds_file.filled (ds : ncds_ds_file) : Prop :=
  (file_fill_dsnodes ds).1 = retcode.EXIT_SUCCESS ∧
    (file_fill_dsnodes ds).2.running = ds.running ∧
    (file_fill_dsnodes ds).2.startup = ds.startup ∧
    (file_fill_dsnodes ds).2.candidate = ds.candidate

/-- The reload that opens every operation succeeds. -/
def reloads (o : Oracle) (w : World) (ds : ncds_ds_file) : Prop :=
  (file_reload o (LOCK w ds).1 (LOCK w ds).2).1 = retcode.EXIT_SUCCESS

/-- The datastore structure as an operation sees it once it holds the mutex
and has reloaded the file. -/
def reloaded (o : Oracle) (w : World) (ds : ncds_ds_file) : ncds_ds_file :=
  (file_reload o (LOCK w ds).1 (LOCK w ds).2).2

/-- The synchronisation of an operation succeeds: `ftruncate` and the dump do. -/
def Oracle.syncs (o : Oracle) : Prop :=
  o.ftruncate_ok = true ∧ o.dump_ok = true

/-- The error every operation reports when `file_sync` fails. -/
def sync_failed : nc_err :=
  nc_err_set (nc_err_new NC_ERR.NC_ERR_OP_FAILED) NC_ERR_PARAM.NC_ERR_PARAM_MSG
    (some "Datastore file synchronisation failed.")

/-- The tail shared by the mutating operations: synchronise, report a failed
synchronisation, release the mutex. -/
def sync_and_leave (o : Oracle) (w : World) (ds : ncds_ds_file) (error : Option nc_err) :
    Outcome :=
  if (file_sync o w ds).1 ≠ retcode.EXIT_SUCCESS then
    leave retcode.EXIT_FAILURE (some sync_failed) (file_sync o w ds).2.1 (file_sync o w ds).2.2
  else leave retcode.EXIT_SUCCESS error (file_sync o w ds).2.1 (file_sync o w ds).2.2

/-- The error of a lock request on a candidate that was modified while unlocked. -/
def candidate_modified : nc_err :=
  nc_err_set (nc_err_new NC_ERR.NC_ERR_LOCK_DENIED) NC_ERR_PARAM.NC_ERR_PARAM_MSG
    (some "Candidate datastore not locked but already modified.")

/-- The operation wrote nothing: its document and node handles are those of
the reloaded datastore `ds1`, and the backing file is as it was in `w`. -/
def Outcome.untouched (out : Outcome) (w : World) (ds1 : ncds_ds_file) : Prop :=
  out.ds.xml = ds1.xml ∧ out.ds.running = ds1.running ∧ out.ds.startup = ds1.startup ∧
    out.ds.candidate = ds1.candidate ∧ out.w.content = w.content ∧ out.w.st_mtime = w.st_mtime

/-- The `lock` attribute of datastore `t` shuts the session out: it is
neither the empty string nor the id of the session.  (An absent attribute,
which `xmlGetProp` reports as `NULL`, is neither.) -/
def ncds_ds_file.lockedAgainst (ds : ncds_ds_file) (t : NC_DATASTORE) (session : nc_session) :
    Prop :=
  ds.attr t "lock" ≠ some "" ∧ ds.attr t "lock" ≠ some session.session_id

/-- The outcome is the in-use failure. -/
def Outcome.inUse (out : Outcome) : Prop :=
  out.ret = retcode.EXIT_FAILURE ∧
    out.error = some { kind := NC_ERR.NC_ERR_IN_USE, message := none, sid := none,
                       badelem := none }

/-- The mutex is held on behalf of an operation entered in world `w0`: the
semaphore was waited on once since, and the structure keeps the signal mask
that was in force in `w0`. -/
def held (w0 w : World) (ds : ncds_ds_file) : Prop :=
  w.sem = w0.sem ++ [sem_op.sem_wait] ∧ ds.sigset = w0.sigmask

/-- The mutex was taken and released by an operation entered in world `w0`:
one `sem_wait` followed by one `sem_post` were issued, the signal mask of
`w0` is back in force, and `holding_lock` is clear. -/
def released (w0 w : World) (ds : ncds_ds_file) : Prop :=
  w.sem = w0.sem ++ [sem_op.sem_wait, sem_op.sem_post] ∧ w.sigmask = w0.sigmask ∧
    ds.holding_lock = false

/-- The test of `file_reload` that lets it return without reading the file:
`stat` succeeds and reports an `st_mtime` below `last_access`. -/
def skips (w : World) (ds : ncds_ds_file) : Bool :=
  match w.st_mtime with
  | some st_mtime => decide (st_mtime < ds.last_access)
  | none => false

/-- The path `p` with each `/` replaced by `_`. -/
def underscored (p : String) : String :=
  String.mk (p.data.map (fun c => if c = '/' then '_' else c))

/-- The condition on a parsed document that decides `file_fill_dsnodes`: the
document has a first top-level node and, among the children of that node,
whatever their type, exactly one is named `running`, one `startup` and one
`candidate`.  The name of the top-level node plays no part. -/
def named_once (doc : xmlDoc) : Prop :=
  doc.children ≠ [] ∧ (doc.dsnodes.map xmlNode.name).count "running" = 1 ∧
    (doc.dsnodes.map xmlNode.name).count "startup" = 1 ∧
    (doc.dsnodes.map xmlNode.name).count "candidate" = 1

instance (doc : xmlDoc) : Decidable (named_once doc) := by
  unfold named_once; infer_instance

instance (w0 w : World) (ds : ncds_ds_file) : Decidable (held w0 w ds) := by
  unfold held; infer_instance

instance (w0 w : World) (ds : ncds_ds_file) : Decidable (released w0 w ds) := by
  unfold released; infer_instance

instance (t : NC_DATASTORE) : Decidable t.stored := by
  unfold NC_DATASTORE.stored; infer_instance

instance (ds : ncds_ds_file) : Decidable ds.filled := by
  unfold ncds_ds_file.filled; infer_instance

instance (o : Oracle) (w : World) (ds : ncds_ds_file) : Decidable (reloads o w ds) := by
  unfold reloads; infer_instance

instance (o : Oracle) : Decidable o.syncs := by
  unfold Oracle.syncs; infer_instance

instance (out : Outcome) (w : World) (ds1 : ncds_ds_file) : Decidable (out.untouched w ds1) := by
  unfold Outcome.untouched; infer_instance

instance (ds : ncds_ds_file) (t : NC_DATASTORE) (session : nc_session) :
    Decidable (ds.lockedAgainst t session) := by
  unfold ncds_ds_file.lockedAgainst; infer_instance

instance (out : Outcome) : Decidable out.inUse := by
  unfold Outcome.inUse; infer_instance

/-! ## Concrete states for the examples -/

/-- An element node without text content. -/
def element (name : String) (properties : List (String × String)) (children : List xmlNode) :
    xmlNode :=
  xmlNode.mk xmlElementType.XML_ELEMENT_NODE name "" properties children

/-- A datastore document made of the given `running`, `startup` and `candidate` elements. -/
def frame (running startup candidate : xmlNode) : xmlDoc :=
  { children := [element "datastores" [] [running, startup, candidate]] }

/-- The structure of a process that has opened a file holding the document `doc`. -/
def opened (doc : xmlDoc) : ncds_ds_file :=
  { path := "/tmp/x.xml", xml := some doc, running := some 0, startup := some 1,
    candidate := some 2, last_access := 0, holding_lock := false,
    sigset := sigset_t.blocked [], unparented := [] }

/-- A world whose backing file holds the document `doc`. -/
def onDisk (doc : xmlDoc) : World :=
  { content := some doc, st_mtime := some 0, sigmask := sigset_t.blocked [], sem := [] }

/-- Simple collaborators: the dummy id is "0", every time formats to one
stamp, the string `<foo/>` parses to that one element and nothing else
parses, NACM filters nothing and permits every write, and `edit_config`
succeeds and turns the datastore document into the edit document. -/
def plainExt : Ext :=
  { INTERNAL_DUMMY_ID := "0"
    nc_time2datetime := fun _ => some "2012-12-24T18:00:00Z"
    xmlReadMemory := fun c =>
      if c = "<foo/>" then some { children := [element "foo" [] []] } else none
    nacm_check_data_read := fun doc _ => doc
    edit_replace_nacmcheck := fun _ _ _ => (nacm_verdict.NACM_PERMIT, none)
    edit_config := fun _ config _ _ _ => (0, config, none) }

/-- System calls that all succeed at time 100. -/
def calm : Oracle :=
  { time_reload := 100, time_lock := 100, time_sync := 100, ftruncate_ok := true,
    dump_ok := true, mtime_sync := 100 }

/-- Session `S1`. -/
def S1 : nc_session :=
  { session_id := "S1", username := "alice", hostname := "localhost" }

/-- Session `S2`. -/
def S2 : nc_session :=
  { session_id := "S2", username := "bob", hostname := "localhost" }

/-- The empty frame written by a fresh bootstrap. -/
def emptyFrame : xmlDoc :=
  frame (element "running" [("lock", "")] []) (element "startup" [("lock", "")] [])
    (element "candidate" [("modified", "false"), ("lock", "")] [])

/-- A frame in which session `S1` holds the lock on the candidate. -/
def candidateLockedFrame : xmlDoc :=
  frame (element "running" [("lock", "")] []) (element "startup" [("lock", "")] [])
    (element "candidate" [("modified", "false"), ("lock", "S1"),
      ("locktime", "2012-12-24T18:00:00Z")] [])

/-- A frame whose candidate was edited while unlocked: it holds `<foo/>` and
is marked modified. -/
def candidateModifiedFrame : xmlDoc :=
  frame (element "running" [("lock", "")] []) (element "startup" [("lock", "")] [])
    (element "candidate" [("modified", "true"), ("lock", "")] [element "foo" [] []])

/-- A frame in which running holds `<a/>` and `<b/>`, and `S1` holds the lock
on a candidate that holds `<foo/>`. -/
def twoChildrenFrame : xmlDoc :=
  frame (element "running" [("lock", "")] [element "a" [] [], element "b" [] []])
    (element "startup" [("lock", "")] [])
    (element "candidate" [("modified", "true"), ("lock", "S1"),
      ("locktime", "2012-12-24T18:00:00Z")] [element "foo" [] []])

/-- A frame in which running holds `<x/>` and the unlocked candidate holds
`<a/>` and `<b/>`. -/
def commitFrame : xmlDoc :=
  frame (element "running" [("lock", "")] [element "x" [] []])
    (element "startup" [("lock", "")] [])
    (element "candidate" [("modified", "true"), ("lock", "")]
      [element "a" [] [], element "b" [] []])

/-- A frame in which startup holds `<a/>` and `<b/>`. -/
def startupTwoFrame : xmlDoc :=
  frame (element "running" [("lock", "")] [])
    (element "startup" [("lock", "")] [element "a" [] [], element "b" [] []])
    (element "candidate" [("modified", "false"), ("lock", "")] [])

/-- A frame in which running and candidate are both empty and the unlocked
candidate is marked modified, as after an edit and a delete of the candidate. -/
def emptyModifiedFrame : xmlDoc :=
  frame (element "running" [("lock", "")] []) (element "startup" [("lock", "")] [])
    (element "candidate" [("modified", "true"), ("lock", "")] [])

/-- The structure of a process before `ncds_file_init`: the path is set, the
document and the node handles are not. -/
def unopened : ncds_ds_file :=
  { path := "/tmp/x.xml", xml := none, running := none, startup := none, candidate := none,
    last_access := 0, holding_lock := false, sigset := sigset_t.blocked [], unparented := [] }

/-- System calls of `ncds_file_init` that all succeed, for a file of 300 bytes. -/
def quiet : InitOracle :=
  { st_size := 300, asprintf_ok := true, mkstemp := some "/tmp/x.xml.Ab12Cd", frame_ok := true,
    dump_ok := true, mtime_dump := 100, sempath_ok := true, sem_open_ok := true }

/-- A document whose root is named `store` and holds the three datastore elements. -/
def renamedRootDoc : xmlDoc :=
  { children := [element "store" []
      [element "running" [("lock", "")] [], element "startup" [("lock", "")] [],
       element "candidate" [("modified", "false"), ("lock", "")] []]] }

/-- A structure that holds the mutex, holds the empty frame and was last
synchronised at time 50. -/
def holdingAt50 : ncds_ds_file :=
  { opened emptyFrame with holding_lock := true, last_access := 50 }

/-- A world whose backing file was written at time 50 by another process and
holds the frame in which `S1` has locked the candidate. -/
def writtenAt50 : World :=
  { onDisk candidateLockedFrame with st_mtime := some 50 }

/-- A world whose backing file was last written at time 20. -/
def writtenAt20 : World :=
  { onDisk candidateLockedFrame with st_mtime := some 20 }

/-- A world whose backing file was written at time 60 and holds the document
with the root named `store`. -/
def renamedAt60 : World :=
  { onDisk renamedRootDoc with st_mtime := some 60 }

/-- A frame whose `running` element carries no `lock` attribute. -/
def noLockFrame : xmlDoc :=
  frame (element "running" [] []) (element "startup" [("lock", "")] [])
    (element "candidate" [("modified", "false"), ("lock", "")] [])

/-- System calls that all succeed, with a clock that has moved on when the
synchronisation reads it: the written file gets modification time 99 and
`last_access` becomes 100, so the next reload does not read the file again. -/
def ticking : Oracle :=
  { calm with mtime_sync := 99 }

/-! ## Properties of the XML helpers -/

theorem getAttr_setAttr_same (name value : String) (l : List (String × String)) :
    getAttr name (setAttr name value l) = some value := by
  induction l with
  | nil => simp [setAttr, getAttr]
  | cons kv rest ih =>
    obtain ⟨k, v⟩ := kv
    by_cases h : k = name
    · simp [setAttr, getAttr, h]
    · simp [setAttr, getAttr, h, ih]

theorem getAttr_setAttr_other (name other value : String) (h : other ≠ name)
    (l : List (String × String)) :
    getAttr other (setAttr name value l) = getAttr other l := by
  induction l with
  | nil => simp [setAttr, getAttr, Ne.symm h]
  | cons kv rest ih =>
    obtain ⟨k, v⟩ := kv
    by_cases hk : k = name
    · subst hk
      simp [setAttr, getAttr, Ne.symm h]
    · by_cases ho : k = other
      · subst ho
        simp [setAttr, getAttr, hk]
      · simp [setAttr, getAttr, hk, ho, ih]

@[simp] theorem xmlNode.name_setProperties (n : xmlNode) (p : List (String × String)) :
    (n.setProperties p).name = n.name := by
  cases n; rfl

@[simp] theorem xmlNode.name_setChildren (n : xmlNode) (c : List xmlNode) :
    (n.setChildren c).name = n.name := by
  cases n; rfl

@[simp] theorem xmlNode.children_setProperties (n : xmlNode) (p : List (String × String)) :
    (n.setProperties p).children = n.children := by
  cases n; rfl

@[simp] theorem xmlNode.children_setChildren (n : xmlNode) (c : List xmlNode) :
    (n.setChildren c).children = c := by
  cases n; rfl

@[simp] theorem xmlNode.properties_setProperties (n : xmlNode) (p : List (String × String)) :
    (n.setProperties p).properties = p := by
  cases n; rfl

@[simp] theorem xmlNode.properties_setChildren (n : xmlNode) (c : List xmlNode) :
    (n.setChildren c).properties = n.properties := by
  cases n; rfl

@[simp] theorem xmlNode.name_unlink (b : Bool) (n : xmlNode) :
    (xmlUnlinkNode_first b n).name = n.name := by
  cases b <;> simp [xmlUnlinkNode_first]

@[simp] theorem xmlNode.properties_unlink (b : Bool) (n : xmlNode) :
    (xmlUnlinkNode_first b n).properties = n.properties := by
  cases b <;> simp [xmlUnlinkNode_first]

/-- A linked first child leaves the chain. -/
@[simp] theorem xmlNode.children_unlink_linked (n : xmlNode) :
    (xmlUnlinkNode_first true n).children = n.children.drop 1 := by
  simp [xmlUnlinkNode_first]

/-! ## The node handles found by `file_fill_dsnodes` -/

/-- The loop reads only the names along the chain. -/
theorem fill_loop_names (l l' : List xmlNode) (h : l.map xmlNode.name = l'.map xmlNode.name)
    (i : Nat) (r s c : Option Nat) :
    file_fill_dsnodes_loop l i r s c = file_fill_dsnodes_loop l' i r s c := by
  induction l generalizing l' i r s c with
  | nil =>
    cases l' with
    | nil => rfl
    | cons b t => simp at h
  | cons a t ih =>
    cases l' with
    | nil => simp at h
    | cons b t' =>
      simp only [List.map_cons, List.cons.injEq] at h
      obtain ⟨hab, ht⟩ := h
      simp only [file_fill_dsnodes_loop, hab]
      split_ifs <;> first | rfl | exact ih t' ht _ _ _ _

/-- A handle that the loop returns either was there before or points to a
later node of the searched name. -/
theorem fill_loop_spec (l : List xmlNode) (i : Nat) (r s c r' s' c' : Option Nat)
    (h : file_fill_dsnodes_loop l i r s c = some (r', s', c')) :
    (r' = r ∨ ∃ j, r' = some (i + j) ∧ ∃ n, l[j]? = some n ∧ n.name = "running") ∧
    (s' = s ∨ ∃ j, s' = some (i + j) ∧ ∃ n, l[j]? = some n ∧ n.name = "startup") ∧
    (c' = c ∨ ∃ j, c' = some (i + j) ∧ ∃ n, l[j]? = some n ∧ n.name = "candidate") := by
  induction l generalizing i r s c with
  | nil =>
    simp only [file_fill_dsnodes_loop, Option.some.injEq, Prod.mk.injEq] at h
    obtain ⟨h1, h2, h3⟩ := h
    exact ⟨Or.inl h1.symm, Or.inl h2.symm, Or.inl h3.symm⟩
  | cons a t ih =>
    have shift : ∀ (nm : String) (q : Option Nat),
        (∃ j, q = some (i + 1 + j) ∧ ∃ n, t[j]? = some n ∧ n.name = nm) →
        ∃ j, q = some (i + j) ∧ ∃ n, (a :: t)[j]? = some n ∧ n.name = nm := by
      rintro nm q ⟨j, hq, n, hn, hnm⟩
      exact ⟨j + 1, by rw [hq]; congr 1; omega, n, by simpa using hn, hnm⟩
    have here : ∀ (nm : String), a.name = nm →
        ∃ j, some i = some (i + j) ∧ ∃ n, (a :: t)[j]? = some n ∧ n.name = nm := by
      intro nm hnm
      exact ⟨0, by simp, a, by simp, hnm⟩
    simp only [file_fill_dsnodes_loop] at h
    split_ifs at h with h1 h2 h3 h4 h5 h6
    · obtain ⟨hr, hs, hc⟩ := ih _ _ _ _ h
      refine ⟨Or.inr ?_, hs.imp id (shift _ _), hc.imp id (shift _ _)⟩
      rcases hr with hr | hr
      · rw [hr]; exact here _ h1
      · exact shift _ _ hr
    · obtain ⟨hr, hs, hc⟩ := ih _ _ _ _ h
      refine ⟨hr.imp id (shift _ _), Or.inr ?_, hc.imp id (shift _ _)⟩
      rcases hs with hs | hs
      · rw [hs]; exact here _ h3
      · exact shift _ _ hs
    · obtain ⟨hr, hs, hc⟩ := ih _ _ _ _ h
      refine ⟨hr.imp id (shift _ _), hs.imp id (shift _ _), Or.inr ?_⟩
      rcases hc with hc | hc
      · rw [hc]; exact here _ h5
      · exact shift _ _ hc
    · obtain ⟨hr, hs, hc⟩ := ih _ _ _ _ h
      exact ⟨hr.imp id (shift _ _), hs.imp id (shift _ _), hc.imp id (shift _ _)⟩

/-- The filled state spelled out: the document has a first top-level node,
and the loop over its children returns the three handles of the structure. -/
theorem ncds_ds_file.filled_iff (ds : ncds_ds_file) :
    ds.filled ↔ ∃ doc top rest r s c, ds.xml = some doc ∧ doc.children = top :: rest ∧
      ds.running = some r ∧ ds.startup = some s ∧ ds.candidate = some c ∧
      file_fill_dsnodes_loop top.children 0 none none none = some (some r, some s, some c) := by
  constructor
  · rintro ⟨h1, h2, h3, h4⟩
    unfold file_fill_dsnodes at h1 h2 h3 h4
    cases hx : ds.xml with
    | none => simp [hx] at h1
    | some doc =>
      simp only [hx] at h1 h2 h3 h4
      cases hc : doc.children with
      | nil => simp [hc] at h1
      | cons top rest =>
        have hd : doc.dsnodes = top.children := by simp [xmlDoc.dsnodes, hc]
        simp only [hc, hd, List.isEmpty_cons, Bool.false_eq_true, if_false] at h1 h2 h3 h4
        rcases hl : file_fill_dsnodes_loop top.children 0 none none none with _ | ⟨r, s, c⟩
        · simp [hl] at h1
        · rcases r with _ | r <;> rcases s with _ | s <;> rcases c with _ | c <;>
            simp only [hl, reduceCtorEq] at h1 h2 h3 h4
          exact ⟨doc, top, rest, r, s, c, rfl, hc, h2.symm, h3.symm, h4.symm, hl⟩
  · rintro ⟨doc, top, rest, r, s, c, hx, hc, hr, hs, hcn, hl⟩
    have hd : doc.dsnodes = top.children := by simp [xmlDoc.dsnodes, hc]
    simp [ncds_ds_file.filled, file_fill_dsnodes, hx, hc, hd, hl, hr, hs, hcn]

/-- In the filled state the three handles point to three different nodes,
named `running`, `startup` and `candidate`. -/
theorem ncds_ds_file.filled_nodes (ds : ncds_ds_file) (h : ds.filled) :
    ∃ doc top rest r s c nr ns nc, ds.xml = some doc ∧ doc.children = top :: rest ∧
      ds.running = some r ∧ ds.startup = some s ∧ ds.candidate = some c ∧
      top.children[r]? = some nr ∧ top.children[s]? = some ns ∧ top.children[c]? = some nc ∧
      r ≠ s ∧ r ≠ c ∧ s ≠ c := by
  obtain ⟨doc, top, rest, r, s, c, hx, hc, hr, hs, hcn, hl⟩ := (ds.filled_iff).1 h
  obtain ⟨h1, h2, h3⟩ := fill_loop_spec _ _ _ _ _ _ _ _ hl
  simp only [false_or, zero_add, Option.some.injEq, reduceCtorEq] at h1 h2 h3
  obtain ⟨j1, e1, nr, g1, n1⟩ := h1
  obtain ⟨j2, e2, ns, g2, n2⟩ := h2
  obtain ⟨j3, e3, nc, g3, n3⟩ := h3
  subst e1 e2 e3
  refine ⟨doc, top, rest, r, s, c, nr, ns, nc, hx, hc, hr, hs, hcn, g1, g2, g3, ?_, ?_, ?_⟩
  · rintro rfl
    rw [g1] at g2
    cases g2
    rw [n1] at n2
    exact absurd n2 (by decide)
  · rintro rfl
    rw [g1] at g3
    cases g3
    rw [n1] at n3
    exact absurd n3 (by decide)
  · rintro rfl
    rw [g2] at g3
    cases g3
    rw [n2] at n3
    exact absurd n3 (by decide)

/-! ## Reading and writing through a node handle -/

@[simp] theorem ncds_ds_file.assign_running (ds : ncds_ds_file) (p : Option Nat)
    (f : xmlNode → xmlNode) : (ds.assign p f).running = ds.running := by
  unfold ncds_ds_file.assign; split <;> [split; skip] <;> rfl

@[simp] theorem ncds_ds_file.assign_startup (ds : ncds_ds_file) (p : Option Nat)
    (f : xmlNode → xmlNode) : (ds.assign p f).startup = ds.startup := by
  unfold ncds_ds_file.assign; split <;> [split; skip] <;> rfl

@[simp] theorem ncds_ds_file.assign_candidate (ds : ncds_ds_file) (p : Option Nat)
    (f : xmlNode → xmlNode) : (ds.assign p f).candidate = ds.candidate := by
  unfold ncds_ds_file.assign; split <;> [split; skip] <;> rfl

@[simp] theorem ncds_ds_file.assign_last_access (ds : ncds_ds_file) (p : Option Nat)
    (f : xmlNode → xmlNode) : (ds.assign p f).last_access = ds.last_access := by
  unfold ncds_ds_file.assign; split <;> [split; skip] <;> rfl

@[simp] theorem ncds_ds_file.assign_holding_lock (ds : ncds_ds_file) (p : Option Nat)
    (f : xmlNode → xmlNode) : (ds.assign p f).holding_lock = ds.holding_lock := by
  unfold ncds_ds_file.assign; split <;> [split; skip] <;> rfl

@[simp] theorem ncds_ds_file.assign_sigset (ds : ncds_ds_file) (p : Option Nat)
    (f : xmlNode → xmlNode) : (ds.assign p f).sigset = ds.sigset := by
  unfold ncds_ds_file.assign; split <;> [split; skip] <;> rfl

@[simp] theorem ncds_ds_file.assign_select (ds : ncds_ds_file) (p : Option Nat)
    (f : xmlNode → xmlNode) (t : NC_DATASTORE) : (ds.assign p f).select t = ds.select t := by
  cases t <;> simp [ncds_ds_file.select]

@[simp] theorem ncds_ds_file.hang_xml (ds : ncds_ds_file) (p : Option Nat)
    (copy : List xmlNode) :
    (ds.hang p copy).xml = (ds.assign p (fun n => n.setChildren copy)).xml := rfl

@[simp] theorem ncds_ds_file.hang_running (ds : ncds_ds_file) (p : Option Nat)
    (copy : List xmlNode) : (ds.hang p copy).running = ds.running := by
  simp [ncds_ds_file.hang]

@[simp] theorem ncds_ds_file.hang_startup (ds : ncds_ds_file) (p : Option Nat)
    (copy : List xmlNode) : (ds.hang p copy).startup = ds.startup := by
  simp [ncds_ds_file.hang]

@[simp] theorem ncds_ds_file.hang_candidate (ds : ncds_ds_file) (p : Option Nat)
    (copy : List xmlNode) : (ds.hang p copy).candidate = ds.candidate := by
  simp [ncds_ds_file.hang]

@[simp] theorem ncds_ds_file.hang_last_access (ds : ncds_ds_file) (p : Option Nat)
    (copy : List xmlNode) : (ds.hang p copy).last_access = ds.last_access := by
  simp [ncds_ds_file.hang]

@[simp] theorem ncds_ds_file.hang_holding_lock (ds : ncds_ds_file) (p : Option Nat)
    (copy : List xmlNode) : (ds.hang p copy).holding_lock = ds.holding_lock := by
  simp [ncds_ds_file.hang]

@[simp] theorem ncds_ds_file.hang_sigset (ds : ncds_ds_file) (p : Option Nat)
    (copy : List xmlNode) : (ds.hang p copy).sigset = ds.sigset := by
  simp [ncds_ds_file.hang]

@[simp] theorem ncds_ds_file.hang_select (ds : ncds_ds_file) (p : Option Nat)
    (copy : List xmlNode) (t : NC_DATASTORE) : (ds.hang p copy).select t = ds.select t := by
  cases t <;> simp [ncds_ds_file.select]

theorem map_name_set (l : List xmlNode) (i : Nat) (n m : xmlNode) (h : l[i]? = some n)
    (hm : m.name = n.name) : (l.set i m).map xmlNode.name = l.map xmlNode.name := by
  induction l generalizing i with
  | nil => simp
  | cons a t ih =>
    cases i with
    | zero =>
      simp only [List.getElem?_cons_zero, Option.some.injEq] at h
      subst h
      simp [hm]
    | succ i =>
      simp only [List.getElem?_cons_succ] at h
      simp [ih i h]

/-- Writing through handle `i` and reading through handle `j`. -/
theorem ncds_ds_file.deref_assign (ds : ncds_ds_file) (doc : xmlDoc) (top : xmlNode)
    (rest : List xmlNode) (i j : Nat) (n : xmlNode) (f : xmlNode → xmlNode)
    (hx : ds.xml = some doc) (hc : doc.children = top :: rest)
    (hn : top.children[i]? = some n) :
    (ds.assign (some i) f).deref (some j) =
      if j = i then some (f n) else ds.deref (some j) := by
  have hlen : i < top.children.length := by
    rcases List.getElem?_eq_some.1 hn with ⟨h, _⟩
    exact h
  simp only [ncds_ds_file.assign, ncds_ds_file.deref, hx, xmlDoc.dsnodes, hc, hn,
    xmlDoc.setDsnodes, xmlNode.children_setChildren]
  by_cases hji : j = i
  · subst hji
    simp [hlen]
  · simp [hji, List.getElem?_set_ne (Ne.symm hji)]

/-- A write that keeps the name of the node keeps the structure filled. -/
theorem ncds_ds_file.filled_assign (ds : ncds_ds_file) (h : ds.filled) (p : Option Nat)
    (f : xmlNode → xmlNode) (hf : ∀ m, (f m).name = m.name) : (ds.assign p f).filled := by
  obtain ⟨doc, top, rest, r, s, c, hx, hc, hr, hs, hcn, hl⟩ := (ds.filled_iff).1 h
  cases p with
  | none => simpa [ncds_ds_file.assign, hx] using h
  | some i =>
    cases hn : top.children[i]? with
    | none => simpa [ncds_ds_file.assign, hx, xmlDoc.dsnodes, hc, hn] using h
    | some n =>
      refine (ncds_ds_file.filled_iff _).2
        ⟨doc.setDsnodes (top.children.set i (f n)), top.setChildren (top.children.set i (f n)),
          rest, r, s, c, ?_, ?_, by simpa using hr, by simpa using hs, by simpa using hcn, ?_⟩
      · simp [ncds_ds_file.assign, hx, xmlDoc.dsnodes, hc, hn]
      · simp [xmlDoc.setDsnodes, hc]
      · rw [xmlNode.children_setChildren, ← hl]
        exact fill_loop_names _ _ (map_name_set _ _ _ _ hn (hf n)) _ _ _ _

/-- In the filled state every stored datastore has its element. -/
theorem ncds_ds_file.node_some (ds : ncds_ds_file) (h : ds.filled) (t : NC_DATASTORE)
    (ht : t.stored) : ∃ p n, ds.select t = some (some p) ∧ ds.deref (some p) = some n ∧
      ds.node t = some n := by
  obtain ⟨doc, top, rest, r, s, c, nr, ns, nc, hx, hc, hr, hs, hcn, gr, gs, gc, -, -, -⟩ :=
    ds.filled_nodes h
  have hd : ∀ i, ds.deref (some i) = top.children[i]? := by
    intro i; simp [ncds_ds_file.deref, hx, xmlDoc.dsnodes, hc]
  rcases ht with rfl | rfl | rfl
  · exact ⟨r, nr, by simp [ncds_ds_file.select, hr], by rw [hd, gr],
      by simp [ncds_ds_file.node, ncds_ds_file.select, hr, hd, gr]⟩
  · exact ⟨s, ns, by simp [ncds_ds_file.select, hs], by rw [hd, gs],
      by simp [ncds_ds_file.node, ncds_ds_file.select, hs, hd, gs]⟩
  · exact ⟨c, nc, by simp [ncds_ds_file.select, hcn], by rw [hd, gc],
      by simp [ncds_ds_file.node, ncds_ds_file.select, hcn, hd, gc]⟩

/-- A write through the handle of a stored datastore changes the element of
that datastore and no other. -/
theorem ncds_ds_file.node_assign (ds : ncds_ds_file) (h : ds.filled) (t : NC_DATASTORE)
    (p : Option Nat) (hp : ds.select t = some p) (f : xmlNode → xmlNode) (t' : NC_DATASTORE) :
    (ds.assign p f).node t' = if t' = t then (ds.node t).map f else ds.node t' := by
  obtain ⟨doc, top, rest, r, s, c, nr, ns, nc, hx, hc, hr, hs, hcn, gr, gs, gc, d1, d2, d3⟩ :=
    ds.filled_nodes h
  have hd : ∀ i, ds.deref (some i) = top.children[i]? := by
    intro i; simp [ncds_ds_file.deref, hx, xmlDoc.dsnodes, hc]
  have key : ∀ i j n, top.children[i]? = some n →
      (ds.assign (some i) f).deref (some j) = if j = i then some (f n) else top.children[j]? := by
    intro i j n hn
    rw [ds.deref_assign doc top rest i j n f hx hc hn, hd]
  cases t <;> simp only [ncds_ds_file.select, hr, hs, hcn, Option.some.injEq, reduceCtorEq] at hp <;>
    subst hp <;> cases t' <;>
    simp [ncds_ds_file.node, ncds_ds_file.select, hr, hs, hcn, hd, gr, gs, gc,
      key _ _ _ gr, key _ _ _ gs, key _ _ _ gc, d1, d2, d3, Ne.symm d1, Ne.symm d2, Ne.symm d3]

/-! ## Reload and synchronisation -/

/-- The element of a datastore depends on the document and the handles only. -/
theorem ncds_ds_file.node_congr (ds ds' : ncds_ds_file) (hx : ds'.xml = ds.xml)
    (hr : ds'.running = ds.running) (hs : ds'.startup = ds.startup)
    (hc : ds'.candidate = ds.candidate) (t : NC_DATASTORE) : ds'.node t = ds.node t := by
  cases t <;> simp [ncds_ds_file.node, ncds_ds_file.select, ncds_ds_file.deref, hx, hr, hs, hc]

/-- The filled state depends on the document and the handles only. -/
theorem ncds_ds_file.filled_congr (ds ds' : ncds_ds_file) (h : ds.filled)
    (hx : ds'.xml = ds.xml) (hr : ds'.running = ds.running) (hs : ds'.startup = ds.startup)
    (hc : ds'.candidate = ds.candidate) : ds'.filled := by
  obtain ⟨doc, top, rest, r, s, c, gx, gc, gr, gs, gcn, gl⟩ := (ds.filled_iff).1 h
  exact (ds'.filled_iff).2 ⟨doc, top, rest, r, s, c, by rw [hx, gx], gc, by rw [hr, gr],
    by rw [hs, gs], by rw [hc, gcn], gl⟩

/-- A successful `file_fill_dsnodes` leaves the structure filled and touches
nothing but the handles. -/
theorem file_fill_dsnodes_filled (ds : ncds_ds_file)
    (h : (file_fill_dsnodes ds).1 = retcode.EXIT_SUCCESS) :
    (file_fill_dsnodes ds).2.filled ∧ (file_fill_dsnodes ds).2.xml = ds.xml ∧
      (file_fill_dsnodes ds).2.holding_lock = ds.holding_lock ∧
      (file_fill_dsnodes ds).2.sigset = ds.sigset := by
  unfold file_fill_dsnodes at h ⊢
  cases hx : ds.xml with
  | none => simp [hx] at h
  | some doc =>
    simp only [hx] at h ⊢
    cases hc : doc.children with
    | nil => simp [hc] at h
    | cons top rest =>
      have hd : doc.dsnodes = top.children := by simp [xmlDoc.dsnodes, hc]
      simp only [hc, hd, List.isEmpty_cons, Bool.false_eq_true, if_false] at h ⊢
      rcases hl : file_fill_dsnodes_loop top.children 0 none none none with _ | ⟨r, s, c⟩
      · simp [hl] at h
      · rcases r with _ | r <;> rcases s with _ | s <;> rcases c with _ | c <;>
          simp only [hl, reduceCtorEq] at h
        refine ⟨(ncds_ds_file.filled_iff _).2 ⟨doc, top, rest, r, s, c, rfl, hc, rfl, rfl, rfl, hl⟩,
          rfl, rfl, rfl⟩

/-- On a filled structure `file_fill_dsnodes` finds the handles that are there. -/
theorem file_fill_dsnodes_of_filled (ds : ncds_ds_file) (h : ds.filled) :
    file_fill_dsnodes ds = (retcode.EXIT_SUCCESS, ds) := by
  obtain ⟨doc, top, rest, r, s, c, hx, hc, hr, hs, hcn, hl⟩ := (ds.filled_iff).1 h
  have hd : doc.dsnodes = top.children := by simp [xmlDoc.dsnodes, hc]
  obtain ⟨path, xml, running, startup, candidate, la, hl', ss, up⟩ := ds
  simp only at hx hr hs hcn
  subst hx hr hs hcn
  simp [file_fill_dsnodes, hc, hd, hl]

/-- The two ways a reload succeeds: the file is older than the last access
and the structure stays as it is, or the file parses, `file_fill_dsnodes`
finds the three nodes in the new document, and that document is installed. -/
theorem file_reload_spec (o : Oracle) (w : World) (ds : ncds_ds_file)
    (hh : ds.holding_lock = true) (h : (file_reload o w ds).1 = retcode.EXIT_SUCCESS) :
    (file_reload o w ds).2 = ds ∨
    ∃ doc, w.content = some doc ∧
      (file_fill_dsnodes { ds with xml := some doc }).1 = retcode.EXIT_SUCCESS ∧
      (file_reload o w ds).2 =
        { (file_fill_dsnodes { ds with xml := some doc }).2 with
          last_access := if o.time_reload = -1 then 0 else o.time_reload, unparented := [] } := by
  unfold file_reload at h ⊢
  have hh' : (!ds.holding_lock) = false := by simp [hh]
  simp only [hh', Bool.false_eq_true, if_false] at h ⊢
  by_cases h1 : (match w.st_mtime with
        | some st_mtime => decide (st_mtime < ds.last_access)
        | none => false) = true
  · left
    rw [if_pos h1]
  · rw [if_neg h1] at h ⊢
    cases hcnt : w.content with
    | none => simp [hcnt] at h
    | some doc =>
      simp only [hcnt] at h ⊢
      by_cases h2 : (file_fill_dsnodes { ds with xml := some doc }).1 = retcode.EXIT_SUCCESS
      · right
        refine ⟨doc, rfl, h2, ?_⟩
        simp only [h2, ne_eq, not_true_eq_false, if_false]
      · simp only [h2, ne_eq, not_false_eq_true, if_true, reduceCtorEq] at h

/-- A successful reload of a filled structure leaves it filled and holding the mutex. -/
theorem reloaded_filled (o : Oracle) (w : World) (ds : ncds_ds_file) (h : ds.filled)
    (hr : reloads o w ds) :
    (reloaded o w ds).filled ∧ (reloaded o w ds).holding_lock = true := by
  unfold reloads at hr
  unfold reloaded
  rcases file_reload_spec o _ _ rfl hr with h1 | ⟨doc, -, h2, h3⟩
  · rw [h1]
    exact ⟨ds.filled_congr _ h rfl rfl rfl rfl, rfl⟩
  · rw [h3]
    have h4 := file_fill_dsnodes_filled _ h2
    exact ⟨ncds_ds_file.filled_congr _ _ h4.1 rfl rfl rfl rfl, h4.2.2.1⟩

/-- A reload succeeds when the file parses and `file_fill_dsnodes` finds the
three nodes in the parsed document. -/
theorem file_reload_ok (o : Oracle) (w : World) (ds : ncds_ds_file)
    (hh : ds.holding_lock = true) (doc : xmlDoc) (hc : w.content = some doc)
    (hf : (file_fill_dsnodes { ds with xml := some doc }).1 = retcode.EXIT_SUCCESS) :
    (file_reload o w ds).1 = retcode.EXIT_SUCCESS := by
  unfold file_reload
  have hh' : (!ds.holding_lock) = false := by simp [hh]
  simp only [hh', Bool.false_eq_true, if_false]
  by_cases h1 : (match w.st_mtime with
        | some st_mtime => decide (st_mtime < ds.last_access)
        | none => false) = true
  · rw [if_pos h1]
  · rw [if_neg h1]
    simp only [hc, hf, ne_eq, not_true_eq_false, if_false]

/-- When the file holds the document of a filled structure, the next reload
succeeds and shows the same three datastore elements. -/
theorem reload_of_synced (o : Oracle) (w : World) (ds : ncds_ds_file) (h : ds.filled)
    (hw : w.content = ds.xml) :
    reloads o w ds ∧ (reloaded o w ds).filled ∧ (reloaded o w ds).holding_lock = true ∧
      ∀ t, (reloaded o w ds).node t = ds.node t := by
  obtain ⟨doc, top, rest, r, s, c, hx, -⟩ := (ds.filled_iff).1 h
  have hcontent : (LOCK w ds).1.content = some doc := by rw [← hx, ← hw]; rfl
  have hfill := file_fill_dsnodes_of_filled
    { (LOCK w ds).2 with xml := some doc } (ds.filled_congr _ h hx.symm rfl rfl rfl)
  have hr : reloads o w ds :=
    file_reload_ok o _ _ rfl doc hcontent (by rw [hfill])
  refine ⟨hr, (reloaded_filled o w ds h hr).1, (reloaded_filled o w ds h hr).2, ?_⟩
  intro t
  unfold reloaded
  rcases file_reload_spec o _ _ rfl hr with h1 | ⟨doc', hd, -, h3⟩
  · rw [h1]
    exact ncds_ds_file.node_congr ds _ rfl rfl rfl rfl t
  · have hdd : doc' = doc := by
      rw [hcontent] at hd
      exact (Option.some.inj hd).symm
    subst hdd
    rw [h3]
    have e : (file_fill_dsnodes { (LOCK w ds).2 with xml := some doc' }).2 =
        { (LOCK w ds).2 with xml := some doc' } := by rw [hfill]
    apply ncds_ds_file.node_congr ds
    · show (file_fill_dsnodes { (LOCK w ds).2 with xml := some doc' }).2.xml = ds.xml
      rw [e]; exact hx.symm
    · show (file_fill_dsnodes { (LOCK w ds).2 with xml := some doc' }).2.running = ds.running
      rw [e]; rfl
    · show (file_fill_dsnodes { (LOCK w ds).2 with xml := some doc' }).2.startup = ds.startup
      rw [e]; rfl
    · show (file_fill_dsnodes { (LOCK w ds).2 with xml := some doc' }).2.candidate = ds.candidate
      rw [e]; rfl

/-- A synchronisation that holds the mutex and meets no input-output error
writes the document to the file and changes nothing but `last_access`. -/
theorem file_sync_ok (o : Oracle) (w : World) (ds : ncds_ds_file) (ho : o.syncs)
    (hh : ds.holding_lock = true) (doc : xmlDoc) (hx : ds.xml = some doc) :
    (file_sync o w ds).1 = retcode.EXIT_SUCCESS ∧
      (file_sync o w ds).2.1.content = ds.xml ∧
      (file_sync o w ds).2.1.sigmask = w.sigmask ∧
      (file_sync o w ds).2.1.sem = w.sem ∧
      (file_sync o w ds).2.2.xml = ds.xml ∧
      (file_sync o w ds).2.2.running = ds.running ∧
      (file_sync o w ds).2.2.startup = ds.startup ∧
      (file_sync o w ds).2.2.candidate = ds.candidate ∧
      (file_sync o w ds).2.2.holding_lock = true := by
  obtain ⟨h1, h2⟩ := ho
  unfold file_sync
  simp only [hh, h1, h2, hx, Bool.not_true, Bool.false_eq_true, if_false]
  split_ifs <;> simp [hx, hh]

/-! ## Reading attributes and access -/

theorem ncds_ds_file.select_stored (ds : ncds_ds_file) (t : NC_DATASTORE) (ht : t.stored) :
    ∃ p, ds.select t = some p := by
  rcases ht with rfl | rfl | rfl <;> exact ⟨_, rfl⟩

theorem ncds_ds_file.attr_of_select (ds : ncds_ds_file) (t : NC_DATASTORE) (p : Option Nat)
    (hp : ds.select t = some p) (name : String) :
    xmlGetProp (ds.deref p) name = ds.attr t name := by
  simp [ncds_ds_file.attr, ncds_ds_file.node, hp]

theorem ncds_ds_file.config_of_select (ds : ncds_ds_file) (t : NC_DATASTORE) (p : Option Nat)
    (hp : ds.select t = some p) : ds.childrenOf p = ds.config t := by
  simp [ncds_ds_file.config, ncds_ds_file.childrenOf, ncds_ds_file.node, hp]

/-- Function `file_ds_access` in terms of the `lock` attribute of the target. -/
theorem file_ds_access_eq (ds : ncds_ds_file) (t : NC_DATASTORE) (ht : t.stored)
    (session : Option nc_session) :
    file_ds_access ds t session =
      if ds.attr t "lock" = some "" then retcode.EXIT_SUCCESS
      else match session with
        | some s =>
          if ds.attr t "lock" = some s.session_id then retcode.EXIT_SUCCESS
          else retcode.EXIT_FAILURE
        | none => retcode.EXIT_FAILURE := by
  obtain ⟨p, hp⟩ := ds.select_stored t ht
  simp only [file_ds_access, hp, ds.attr_of_select t p hp]

/-- Leaving an operation keeps the document and the handles. -/
theorem leave_node (ret : retcode) (error : Option nc_err) (w : World) (ds : ncds_ds_file)
    (t : NC_DATASTORE) : (leave ret error w ds).ds.node t = ds.node t :=
  ncds_ds_file.node_congr ds _ rfl rfl rfl rfl t

/-! ## Effect of the writes on attributes and configuration -/

theorem ncds_ds_file.stored_of_select (ds : ncds_ds_file) (t : NC_DATASTORE) (p : Option Nat)
    (hp : ds.select t = some p) : t.stored := by
  cases t <;> simp [ncds_ds_file.select, NC_DATASTORE.stored] at hp ⊢

@[simp] theorem xmlSetProp_select (ds : ncds_ds_file) (p : Option Nat) (name : String)
    (value : Option String) (t : NC_DATASTORE) :
    (xmlSetProp ds p name value).select t = ds.select t := by
  simp [xmlSetProp]

@[simp] theorem xmlSetProp_holding_lock (ds : ncds_ds_file) (p : Option Nat) (name : String)
    (value : Option String) : (xmlSetProp ds p name value).holding_lock = ds.holding_lock := by
  simp [xmlSetProp]

theorem xmlSetProp_filled (ds : ncds_ds_file) (h : ds.filled) (p : Option Nat) (name : String)
    (value : Option String) : (xmlSetProp ds p name value).filled :=
  ds.filled_assign h p _ (fun m => by simp)

theorem xmlSetProp_node_other (ds : ncds_ds_file) (h : ds.filled) (t : NC_DATASTORE)
    (p : Option Nat) (hp : ds.select t = some p) (name : String) (value : Option String)
    (t' : NC_DATASTORE) (ht : t' ≠ t) : (xmlSetProp ds p name value).node t' = ds.node t' := by
  unfold xmlSetProp
  rw [ds.node_assign h t p hp, if_neg ht]

/-- Function `xmlSetProp` through the handle of datastore `t` sets that one
attribute of that one element. -/
theorem xmlSetProp_attr (ds : ncds_ds_file) (h : ds.filled) (t : NC_DATASTORE) (p : Option Nat)
    (hp : ds.select t = some p) (name : String) (value : Option String) (t' : NC_DATASTORE)
    (name' : String) :
    (xmlSetProp ds p name value).attr t' name' =
      if t' = t ∧ name' = name then some (value.getD "") else ds.attr t' name' := by
  obtain ⟨_, n, -, -, hn⟩ := ds.node_some h t (ds.stored_of_select t p hp)
  simp only [ncds_ds_file.attr, xmlSetProp, ds.node_assign h t p hp]
  by_cases ht : t' = t
  · subst ht
    by_cases hname : name' = name
    · subst hname
      simp [hn, xmlGetProp, getAttr_setAttr_same]
    · simp [hn, xmlGetProp, hname, getAttr_setAttr_other _ _ _ hname]
  · simp [ht]

theorem xmlSetProp_config (ds : ncds_ds_file) (h : ds.filled) (t : NC_DATASTORE) (p : Option Nat)
    (hp : ds.select t = some p) (name : String) (value : Option String) (t' : NC_DATASTORE) :
    (xmlSetProp ds p name value).config t' = ds.config t' := by
  obtain ⟨_, n, -, -, hn⟩ := ds.node_some h t (ds.stored_of_select t p hp)
  simp only [ncds_ds_file.config, xmlSetProp, ds.node_assign h t p hp]
  by_cases ht : t' = t
  · subst ht
    simp [hn]
  · simp [ht]

/-- A write of the `children` field through the handle of datastore `t`
replaces that configuration and keeps every attribute. -/
theorem setChildren_config (ds : ncds_ds_file) (h : ds.filled) (t : NC_DATASTORE)
    (p : Option Nat) (hp : ds.select t = some p) (g : List xmlNode → List xmlNode)
    (t' : NC_DATASTORE) :
    (ds.assign p (fun n => n.setChildren (g n.children))).config t' =
      if t' = t then g (ds.config t) else ds.config t' := by
  obtain ⟨_, n, -, -, hn⟩ := ds.node_some h t (ds.stored_of_select t p hp)
  simp only [ncds_ds_file.config, ds.node_assign h t p hp]
  by_cases ht : t' = t
  · subst ht
    simp [hn]
  · simp [ht]

theorem setChildren_attr (ds : ncds_ds_file) (h : ds.filled) (t : NC_DATASTORE)
    (p : Option Nat) (hp : ds.select t = some p) (g : List xmlNode → List xmlNode)
    (t' : NC_DATASTORE) (name : String) :
    (ds.assign p (fun n => n.setChildren (g n.children))).attr t' name = ds.attr t' name := by
  obtain ⟨_, n, -, -, hn⟩ := ds.node_some h t (ds.stored_of_select t p hp)
  simp only [ncds_ds_file.attr, ds.node_assign h t p hp]
  by_cases ht : t' = t
  · subst ht
    simp [hn, xmlGetProp]
  · simp [ht]

theorem setChildren_filled (ds : ncds_ds_file) (h : ds.filled) (p : Option Nat)
    (g : List xmlNode → List xmlNode) :
    (ds.assign p (fun n => n.setChildren (g n.children))).filled :=
  ds.filled_assign h p _ (fun m => by simp)

/-- After a successful synchronisation the operation leaves the datastore
filled, its document being the content of the file, with the datastore
elements it had before the synchronisation. -/
theorem leave_sync (o : Oracle) (w : World) (ds : ncds_ds_file) (ho : o.syncs)
    (hh : ds.holding_lock = true) (hf : ds.filled) (ret : retcode) (error : Option nc_err) :
    (file_sync o w ds).1 = retcode.EXIT_SUCCESS ∧
    (leave ret error (file_sync o w ds).2.1 (file_sync o w ds).2.2).ds.filled ∧
    (leave ret error (file_sync o w ds).2.1 (file_sync o w ds).2.2).w.content =
      (leave ret error (file_sync o w ds).2.1 (file_sync o w ds).2.2).ds.xml ∧
    (leave ret error (file_sync o w ds).2.1 (file_sync o w ds).2.2).ds.xml = ds.xml ∧
    (∀ t, (leave ret error (file_sync o w ds).2.1 (file_sync o w ds).2.2).ds.node t =
      ds.node t) := by
  obtain ⟨doc, -, -, -, -, -, hx, -⟩ := (ds.filled_iff).1 hf
  obtain ⟨h1, h2, -, -, h5, h6, h7, h8, -⟩ := file_sync_ok o w ds ho hh doc hx
  refine ⟨h1, ?_, ?_, h5, ?_⟩
  · exact ds.filled_congr _ hf h5 h6 h7 h8
  · show (file_sync o w ds).2.1.content = (file_sync o w ds).2.2.xml
    rw [h2, h5]
  · intro t
    exact ds.node_congr _ h5 h6 h7 h8 t

theorem ncds_ds_file.config_of_node (ds : ncds_ds_file) (t : NC_DATASTORE) (n : xmlNode)
    (h : ds.node t = some n) : ds.config t = n.children := by
  simp [ncds_ds_file.config, h]

theorem ncds_ds_file.attr_of_node (ds : ncds_ds_file) (t : NC_DATASTORE) (n : xmlNode)
    (h : ds.node t = some n) (name : String) : ds.attr t name = getAttr name n.properties := by
  simp [ncds_ds_file.attr, h, xmlGetProp]

theorem ncds_ds_file.attr_congr (ds ds' : ncds_ds_file) (t : NC_DATASTORE)
    (h : ds'.node t = ds.node t) (name : String) : ds'.attr t name = ds.attr t name := by
  simp only [ncds_ds_file.attr, h]

theorem ncds_ds_file.config_congr (ds ds' : ncds_ds_file) (t : NC_DATASTORE)
    (h : ds'.node t = ds.node t) : ds'.config t = ds.config t := by
  simp only [ncds_ds_file.config, h]

/-- One write through the handle of datastore `t` that keeps the name of the
node: the datastore stays filled, the handles and the mutex flag stay, and the
element of `t` alone changes. -/
theorem assign_step (ds : ncds_ds_file) (h : ds.filled) (t : NC_DATASTORE) (p : Option Nat)
    (hp : ds.select t = some p) (f : xmlNode → xmlNode) (hf : ∀ m, (f m).name = m.name) :
    (ds.assign p f).filled ∧ (ds.assign p f).select t = some p ∧
    (ds.assign p f).holding_lock = ds.holding_lock ∧
    ∀ t', (ds.assign p f).node t' = if t' = t then (ds.node t).map f else ds.node t' :=
  ⟨ds.filled_assign h p f hf, by simpa using hp, by simp, fun t' => ds.node_assign h t p hp f t'⟩

/-- Hanging a copy in as the children of datastore `t`: as `assign_step`, for
the write of the `children` field. -/
theorem hang_step (ds : ncds_ds_file) (h : ds.filled) (t : NC_DATASTORE) (p : Option Nat)
    (hp : ds.select t = some p) (copy : List xmlNode) :
    (ds.hang p copy).filled ∧ (ds.hang p copy).select t = some p ∧
    (ds.hang p copy).holding_lock = ds.holding_lock ∧
    ∀ t', (ds.hang p copy).node t' =
      if t' = t then (ds.node t).map (fun n => n.setChildren copy) else ds.node t' := by
  obtain ⟨fA, pA, hA, nA⟩ := assign_step ds h t p hp (fun n => n.setChildren copy)
    (fun m => by simp)
  refine ⟨ncds_ds_file.filled_congr _ _ fA rfl rfl rfl rfl, ?_, hA, ?_⟩
  · rw [← pA]
    cases t <;> rfl
  · intro t'
    rw [← nA t']
    exact ncds_ds_file.node_congr _ _ rfl rfl rfl rfl t'

theorem xmlSetProp_step (ds : ncds_ds_file) (h : ds.filled) (t : NC_DATASTORE) (p : Option Nat)
    (hp : ds.select t = some p) (name : String) (value : Option String) :
    (xmlSetProp ds p name value).filled ∧ (xmlSetProp ds p name value).select t = some p ∧
    (xmlSetProp ds p name value).holding_lock = ds.holding_lock ∧
    ∀ t', (xmlSetProp ds p name value).node t' =
      if t' = t then
        (ds.node t).map (fun n => n.setProperties (setAttr name (value.getD "") n.properties))
      else ds.node t' :=
  assign_step ds h t p hp _ (fun m => by simp)

/-- A synchronisation can only succeed while the mutex is held and when
`ftruncate` and the dump succeed. -/
theorem file_sync_success (o : Oracle) (w : World) (ds : ncds_ds_file)
    (h : (file_sync o w ds).1 = retcode.EXIT_SUCCESS) : o.syncs ∧ ds.holding_lock = true := by
  unfold file_sync at h
  unfold Oracle.syncs
  cases hh : ds.holding_lock <;> cases hf : o.ftruncate_ok <;> cases hd : o.dump_ok <;>
    cases hx : ds.xml <;> simp [hh, hf, hd, hx] at h ⊢

/-- The conclusions of `leave_sync` from the success of the synchronisation itself. -/
theorem leave_synced (o : Oracle) (w : World) (ds : ncds_ds_file)
    (h : (file_sync o w ds).1 = retcode.EXIT_SUCCESS) (hf : ds.filled) (ret : retcode)
    (error : Option nc_err) :
    (leave ret error (file_sync o w ds).2.1 (file_sync o w ds).2.2).ds.filled ∧
    (leave ret error (file_sync o w ds).2.1 (file_sync o w ds).2.2).w.content =
      (leave ret error (file_sync o w ds).2.1 (file_sync o w ds).2.2).ds.xml ∧
    (∀ t, (leave ret error (file_sync o w ds).2.1 (file_sync o w ds).2.2).ds.node t =
      ds.node t) := by
  obtain ⟨h1, h2⟩ := file_sync_success o w ds h
  obtain ⟨-, s2, s3, -, s5⟩ := leave_sync o w ds h1 h2 hf ret error
  exact ⟨s2, s3, s5⟩

/-- What the writes of `ncds_file_copyconfig` do to a filled datastore: the
target's children become a copy of the first node of the working copy, the
`modified` mark of a candidate target is "false" for a copy from running and
"true" otherwise, and nothing else changes. -/
theorem copyconfig_write_spec (ds : ncds_ds_file) (h : ds.filled) (target source : NC_DATASTORE)
    (p : Option Nat) (hp : ds.select target = some p) (aux_doc : xmlDoc) :
    (copyconfig_write ds p target source aux_doc).filled ∧
    (copyconfig_write ds p target source aux_doc).holding_lock = ds.holding_lock ∧
    (copyconfig_write ds p target source aux_doc).config target = aux_doc.children.take 1 ∧
    (∀ t, t ≠ target → (copyconfig_write ds p target source aux_doc).node t = ds.node t) ∧
    (target = NC_DATASTORE.NC_DATASTORE_CANDIDATE →
      (copyconfig_write ds p target source aux_doc).attr target "modified" =
        some (if source = NC_DATASTORE.NC_DATASTORE_RUNNING then "false" else "true")) ∧
    (∀ name, name ≠ "modified" →
      (copyconfig_write ds p target source aux_doc).attr target name = ds.attr target name) := by
  obtain ⟨_, n, -, -, hn⟩ := ds.node_some h _ (ds.stored_of_select target p hp)
  obtain ⟨fA, pA, hA, nA⟩ := assign_step ds h _ _ hp (xmlUnlinkNode_first (ds.linked p))
    (fun m => by simp)
  obtain ⟨fB, pB, hB, nB⟩ := hang_step _ fA _ _ pA (xmlDocCopyNode aux_doc.children)
  obtain ⟨fC, pC, hC, nC⟩ := xmlSetProp_step _ fB _ _ pB "modified" (some "false")
  obtain ⟨fD, pD, hD, nD⟩ := xmlSetProp_step _ fB _ _ pB "modified" (some "true")
  have hB' := nB target
  simp only [if_true, nA, hn, Option.map_some'] at hB'
  have hC' := nC target
  simp only [if_true, hB', Option.map_some'] at hC'
  have hD' := nD target
  simp only [if_true, hB', Option.map_some'] at hD'
  unfold copyconfig_write
  simp only []
  by_cases ht : target = NC_DATASTORE.NC_DATASTORE_CANDIDATE
  · by_cases hs : source = NC_DATASTORE.NC_DATASTORE_RUNNING
    · simp only [ht, hs, if_true]
      subst ht
      refine ⟨fC, by rw [hC, hB, hA], ?_, ?_, ?_, ?_⟩
      · rw [ncds_ds_file.config_of_node _ _ _ hC']; simp [xmlDocCopyNode]
      · intro t htt; rw [nC, if_neg htt, nB, if_neg htt, nA, if_neg htt]
      · intro _; rw [ncds_ds_file.attr_of_node _ _ _ hC']; simp [getAttr_setAttr_same]
      · intro name hname
        rw [ncds_ds_file.attr_of_node _ _ _ hC', ncds_ds_file.attr_of_node _ _ _ hn]
        simp [getAttr_setAttr_other _ _ _ hname]
    · simp only [ht, hs, if_true, if_false]
      subst ht
      refine ⟨fD, by rw [hD, hB, hA], ?_, ?_, ?_, ?_⟩
      · rw [ncds_ds_file.config_of_node _ _ _ hD']; simp [xmlDocCopyNode]
      · intro t htt; rw [nD, if_neg htt, nB, if_neg htt, nA, if_neg htt]
      · intro _; rw [ncds_ds_file.attr_of_node _ _ _ hD']; simp [getAttr_setAttr_same]
      · intro name hname
        rw [ncds_ds_file.attr_of_node _ _ _ hD', ncds_ds_file.attr_of_node _ _ _ hn]
        simp [getAttr_setAttr_other _ _ _ hname]
  · simp only [ht, if_false]
    refine ⟨fB, by rw [hB, hA], ?_, ?_, ?_, ?_⟩
    · rw [ncds_ds_file.config_of_node _ _ _ hB']; simp [xmlDocCopyNode]
    · intro t htt; rw [nB, if_neg htt, nA, if_neg htt]
    · intro h; exact h.elim
    · intro name _
      rw [ncds_ds_file.attr_of_node _ _ _ hB', ncds_ds_file.attr_of_node _ _ _ hn]
      simp

/-- A write to the children of the target followed by the `modified` mark that
`ncds_file_deleteconfig` and `ncds_file_editconfig` put on a candidate target.
Here `dsA` is the structure after the write to the children, which changed the
element of the target as `f` says: the mark of a candidate target is "true",
every other attribute and every other datastore stay. -/
theorem mark_spec (ds dsA : ncds_ds_file) (h : ds.filled) (target : NC_DATASTORE)
    (p : Option Nat) (hp : ds.select target = some p) (f : xmlNode → xmlNode)
    (hprops : ∀ m, (f m).properties = m.properties)
    (fA : dsA.filled) (pA : dsA.select target = some p)
    (hA : dsA.holding_lock = ds.holding_lock)
    (nA : ∀ t', dsA.node t' = if t' = target then (ds.node target).map f else ds.node t') :
    (if target = NC_DATASTORE.NC_DATASTORE_CANDIDATE then
        xmlSetProp dsA p "modified" (some "true")
      else dsA).filled ∧
    (if target = NC_DATASTORE.NC_DATASTORE_CANDIDATE then
        xmlSetProp dsA p "modified" (some "true")
      else dsA).holding_lock = ds.holding_lock ∧
    (∀ n, ds.node target = some n →
      (if target = NC_DATASTORE.NC_DATASTORE_CANDIDATE then
          xmlSetProp dsA p "modified" (some "true")
        else dsA).config target = (f n).children) ∧
    (∀ t, t ≠ target →
      (if target = NC_DATASTORE.NC_DATASTORE_CANDIDATE then
          xmlSetProp dsA p "modified" (some "true")
        else dsA).node t = ds.node t) ∧
    (target = NC_DATASTORE.NC_DATASTORE_CANDIDATE →
      (if target = NC_DATASTORE.NC_DATASTORE_CANDIDATE then
          xmlSetProp dsA p "modified" (some "true")
        else dsA).attr target "modified" = some "true") ∧
    (∀ name, name ≠ "modified" →
      (if target = NC_DATASTORE.NC_DATASTORE_CANDIDATE then
          xmlSetProp dsA p "modified" (some "true")
        else dsA).attr target name = ds.attr target name) := by
  obtain ⟨_, n, -, -, hn⟩ := ds.node_some h _ (ds.stored_of_select target p hp)
  obtain ⟨fB, pB, hB, nB⟩ := xmlSetProp_step _ fA _ _ pA "modified" (some "true")
  have hA' := nA target
  simp only [if_true, hn, Option.map_some'] at hA'
  have hB' := nB target
  simp only [if_true, hA', Option.map_some'] at hB'
  by_cases ht : target = NC_DATASTORE.NC_DATASTORE_CANDIDATE
  · simp only [ht, if_true]
    subst ht
    refine ⟨fB, by rw [hB, hA], ?_, ?_, ?_, ?_⟩
    · intro m hm
      rw [hn] at hm
      cases hm
      rw [ncds_ds_file.config_of_node _ _ _ hB']; simp
    · intro t htt; rw [nB, if_neg htt, nA, if_neg htt]
    · intro _; rw [ncds_ds_file.attr_of_node _ _ _ hB']; simp [getAttr_setAttr_same]
    · intro name hname'
      rw [ncds_ds_file.attr_of_node _ _ _ hB', ncds_ds_file.attr_of_node _ _ _ hn]
      simp [hprops, getAttr_setAttr_other _ _ _ hname']
  · simp only [ht, if_false]
    refine ⟨fA, hA, ?_, ?_, ?_, ?_⟩
    · intro m hm
      rw [hn] at hm
      cases hm
      rw [ncds_ds_file.config_of_node _ _ _ hA']
    · intro t htt; rw [nA, if_neg htt]
    · intro h; exact h.elim
    · intro name _
      rw [ncds_ds_file.attr_of_node _ _ _ hA', ncds_ds_file.attr_of_node _ _ _ hn, hprops]

/-! ## The paths of `ncds_file_lock` -/

/-- The refusal path of `ncds_file_lock`: the datastore is locked. -/
theorem ncds_file_lock_locked (x : Ext) (o : Oracle) (w : World) (ds : ncds_ds_file)
    (session : nc_session) (target : NC_DATASTORE) (holder : String)
    (hreload : reloads o w ds) (htarget : target.stored)
    (hlock : (reloaded o w ds).attr target "lock" = some holder)
    (hholder : holder ≠ "") (hdummy : holder ≠ x.INTERNAL_DUMMY_ID) :
    ncds_file_lock x o w ds session target =
      leave retcode.EXIT_FAILURE
        (some { kind := NC_ERR.NC_ERR_LOCK_DENIED, message := none, sid := some holder,
                badelem := none })
        (LOCK w ds).1 (reloaded o w ds) := by
  unfold reloads at hreload
  unfold reloaded at hlock ⊢
  simp only [ncds_file_lock]
  generalize file_reload o (LOCK w ds).1 (LOCK w ds).2 = rl at *
  obtain ⟨r1, ds1⟩ := rl
  simp only at hreload hlock ⊢
  subst hreload
  obtain ⟨p, hp⟩ := ds1.select_stored target htarget
  have hacc : file_ds_access ds1 target
      (nc_session_dummy x.INTERNAL_DUMMY_ID session.username session.hostname) =
      retcode.EXIT_FAILURE := by
    rw [file_ds_access_eq _ _ htarget]
    simp [hlock, hholder, hdummy, nc_session_dummy]
  simp only [hp, hacc, ds1.attr_of_select target p hp, hlock, ne_eq, not_true_eq_false,
    if_false, reduceCtorEq, not_false_eq_true, if_true]
  rfl

/-- The refusal path of `ncds_file_lock`: an unlocked candidate that is marked modified. -/
theorem ncds_file_lock_modified (x : Ext) (o : Oracle) (w : World) (ds : ncds_ds_file)
    (session : nc_session) (hreload : reloads o w ds)
    (hlock : (reloaded o w ds).attr NC_DATASTORE.NC_DATASTORE_CANDIDATE "lock" = some "")
    (hmod : (reloaded o w ds).attr NC_DATASTORE.NC_DATASTORE_CANDIDATE "modified" = some "true") :
    ncds_file_lock x o w ds session NC_DATASTORE.NC_DATASTORE_CANDIDATE =
      leave retcode.EXIT_FAILURE (some candidate_modified) (LOCK w ds).1 (reloaded o w ds) := by
  unfold reloads at hreload
  unfold reloaded at hlock hmod ⊢
  simp only [ncds_file_lock]
  generalize file_reload o (LOCK w ds).1 (LOCK w ds).2 = rl at *
  obtain ⟨r1, ds1⟩ := rl
  simp only at hreload hlock hmod ⊢
  subst hreload
  have hp : ds1.select NC_DATASTORE.NC_DATASTORE_CANDIDATE = some ds1.candidate := rfl
  have hacc : file_ds_access ds1 NC_DATASTORE.NC_DATASTORE_CANDIDATE
      (nc_session_dummy x.INTERNAL_DUMMY_ID session.username session.hostname) =
      retcode.EXIT_SUCCESS := by
    rw [file_ds_access_eq _ _ (Or.inr (Or.inr rfl))]
    simp [hlock]
  simp only [hp, hacc, ds1.attr_of_select _ _ hp, hmod, ne_eq, not_true_eq_false,
    if_false, and_self, if_true]
  rfl

/-- The granting path of `ncds_file_lock`: the datastore is unlocked and, if it
is the candidate, not marked modified. -/
theorem ncds_file_lock_granted (x : Ext) (o : Oracle) (w : World) (ds : ncds_ds_file)
    (session : nc_session) (target : NC_DATASTORE) (p : Option Nat)
    (hreload : reloads o w ds) (hp : (reloaded o w ds).select target = some p)
    (hlock : (reloaded o w ds).attr target "lock" = some "")
    (hmod : target = NC_DATASTORE.NC_DATASTORE_CANDIDATE →
      (reloaded o w ds).attr target "modified" ≠ some "true") :
    ncds_file_lock x o w ds session target =
      sync_and_leave o (LOCK w ds).1
        (xmlSetProp (xmlSetProp (reloaded o w ds) p "lock" (some session.session_id)) p
          "locktime" (x.nc_time2datetime o.time_lock)) none := by
  unfold reloads at hreload
  unfold reloaded at hlock hmod hp ⊢
  simp only [ncds_file_lock, sync_and_leave, sync_failed]
  generalize file_reload o (LOCK w ds).1 (LOCK w ds).2 = rl at *
  obtain ⟨r1, ds1⟩ := rl
  simp only at hreload hlock hmod hp ⊢
  subst hreload
  have hacc : file_ds_access ds1 target
      (nc_session_dummy x.INTERNAL_DUMMY_ID session.username session.hostname) =
      retcode.EXIT_SUCCESS := by
    rw [file_ds_access_eq _ _ (ds1.stored_of_select target p hp)]
    simp [hlock]
  have hm : ¬ (target = NC_DATASTORE.NC_DATASTORE_CANDIDATE ∧
      xmlGetProp (ds1.deref p) "modified" = some "true") := by
    rw [ds1.attr_of_select target p hp]
    exact fun h => hmod h.1 h.2
  simp only [hp, hacc, hm, ne_eq, not_true_eq_false, if_false]

/-- The answering path of `ncds_file_lockinfo`: the `lock` attribute is there. -/
theorem ncds_file_lockinfo_present (o : Oracle) (w : World) (ds : ncds_ds_file)
    (target : NC_DATASTORE) (sid : String) (hreload : reloads o w ds)
    (htarget : target.stored) (hlock : (reloaded o w ds).attr target "lock" = some sid) :
    ncds_file_lockinfo o w ds target =
      some { info := some (if sid.length = 0 then { type := target, sid := none, time := none }
                else { type := target, sid := some sid,
                       time := (reloaded o w ds).attr target "locktime" }),
             w := (UNLOCK (LOCK w ds).1 (reloaded o w ds)).1,
             ds := (UNLOCK (LOCK w ds).1 (reloaded o w ds)).2 } := by
  unfold reloads at hreload
  unfold reloaded at hlock ⊢
  simp only [ncds_file_lockinfo]
  generalize file_reload o (LOCK w ds).1 (LOCK w ds).2 = rl at *
  obtain ⟨r1, ds1⟩ := rl
  simp only at hreload hlock ⊢
  subst hreload
  obtain ⟨p, hp⟩ := ds1.select_stored target htarget
  simp only [hp, ds1.attr_of_select target p hp, hlock, ne_eq, not_true_eq_false, if_false]

theorem String.length_ne_zero_of_ne_empty (s : String) (h : s ≠ "") : s.length ≠ 0 := by
  intro h0
  apply h
  cases s with
  | mk data =>
    have : data = [] := List.length_eq_zero.1 h0
    subst this
    rfl

/-- A lock request on the candidate right after an operation that left the
file in step with a filled datastore whose candidate is unlocked and not
marked modified: the request is not refused as already modified, and it
succeeds when its synchronisation does. -/
theorem ncds_file_lock_after (x : Ext) (o : Oracle) (w : World) (ds : ncds_ds_file)
    (session : nc_session) (hf : ds.filled) (hw : w.content = ds.xml)
    (hlock : ds.attr NC_DATASTORE.NC_DATASTORE_CANDIDATE "lock" = some "")
    (hmod : ds.attr NC_DATASTORE.NC_DATASTORE_CANDIDATE "modified" ≠ some "true") :
    (ncds_file_lock x o w ds session NC_DATASTORE.NC_DATASTORE_CANDIDATE).error ≠
      some { kind := NC_ERR.NC_ERR_LOCK_DENIED,
             message := some "Candidate datastore not locked but already modified.",
             sid := none, badelem := none } ∧
    (o.syncs →
      (ncds_file_lock x o w ds session NC_DATASTORE.NC_DATASTORE_CANDIDATE).ret =
        retcode.EXIT_SUCCESS) := by
  obtain ⟨r1, r2, r3, r4⟩ := reload_of_synced o w ds hf hw
  have m1 : (reloaded o w ds).attr NC_DATASTORE.NC_DATASTORE_CANDIDATE "lock" = some "" := by
    rw [ncds_ds_file.attr_congr _ _ _ (r4 _)]; exact hlock
  have m2 : NC_DATASTORE.NC_DATASTORE_CANDIDATE = NC_DATASTORE.NC_DATASTORE_CANDIDATE →
      (reloaded o w ds).attr NC_DATASTORE.NC_DATASTORE_CANDIDATE "modified" ≠ some "true" := by
    intro _
    rw [ncds_ds_file.attr_congr _ _ _ (r4 _)]; exact hmod
  rw [ncds_file_lock_granted x o w ds session NC_DATASTORE.NC_DATASTORE_CANDIDATE
    (reloaded o w ds).candidate r1 rfl m1 m2]
  constructor
  · unfold sync_and_leave
    split_ifs <;> simp [leave, sync_failed, nc_err_set, nc_err_new]
  · intro hsync
    have hhB : (xmlSetProp (xmlSetProp (reloaded o w ds) (reloaded o w ds).candidate "lock"
        (some session.session_id)) (reloaded o w ds).candidate "locktime"
        (x.nc_time2datetime o.time_lock)).holding_lock = true := by simpa using r3
    have s1 := (leave_sync o (LOCK w ds).1 _ hsync hhB
      (xmlSetProp_filled _ (xmlSetProp_filled _ r2 _ _ _) _ _ _) retcode.EXIT_SUCCESS none).1
    simp only [sync_and_leave, s1, ne_eq, not_true_eq_false, if_false]
    rfl

/-! ## The paths of `ncds_file_unlock` -/

/-- The refusal paths of `ncds_file_unlock`: unless the `lock` attribute holds
the id of the calling session, and that id is neither empty nor the dummy
id, the call fails with operation-failed and writes nothing. -/
theorem ncds_file_unlock_refused (x : Ext) (o : Oracle) (w : World) (ds : ncds_ds_file)
    (session : nc_session) (target : NC_DATASTORE)
    (hreload : reloads o w ds) (htarget : target.stored)
    (hlock : ¬ ((reloaded o w ds).attr target "lock" = some session.session_id ∧
      session.session_id ≠ "" ∧ session.session_id ≠ x.INTERNAL_DUMMY_ID)) :
    ncds_file_unlock x o w ds session target =
      leave retcode.EXIT_FAILURE
        (some { kind := NC_ERR.NC_ERR_OP_FAILED,
                message := some
                  (if (reloaded o w ds).attr target "lock" = some "" ∨
                      (reloaded o w ds).attr target "lock" = some x.INTERNAL_DUMMY_ID then
                    "Target datastore is not locked."
                  else "Target datastore is locked by another session."),
                sid := none, badelem := none })
        (LOCK w ds).1 (reloaded o w ds) := by
  unfold reloads at hreload
  unfold reloaded at hlock ⊢
  simp only [ncds_file_unlock]
  generalize file_reload o (LOCK w ds).1 (LOCK w ds).2 = rl at *
  obtain ⟨r1, ds1⟩ := rl
  simp only at hreload hlock ⊢
  subst hreload
  obtain ⟨p, hp⟩ := ds1.select_stored target htarget
  simp only [hp, file_ds_access_eq _ _ htarget, nc_session_dummy, ne_eq, not_true_eq_false,
    if_false]
  by_cases h1 : ds1.attr target "lock" = some ""
  · simp [h1, nc_err_set, nc_err_new]
  · by_cases h2 : ds1.attr target "lock" = some x.INTERNAL_DUMMY_ID
    · simp [h1, h2, nc_err_set, nc_err_new]
    · by_cases h3 : ds1.attr target "lock" = some session.session_id
      · exfalso
        apply hlock
        refine ⟨h3, ?_, ?_⟩
        · intro h; apply h1; rw [h3, h]
        · intro h; apply h2; rw [h3, h]
      · simp [h1, h2, h3, nc_err_set, nc_err_new]

/-- The releasing path of `ncds_file_unlock`: the `lock` attribute holds the id
of the calling session.  The candidate is first reset from running. -/
theorem ncds_file_unlock_granted (x : Ext) (o : Oracle) (w : World) (ds : ncds_ds_file)
    (session : nc_session) (target : NC_DATASTORE) (p : Option Nat)
    (hreload : reloads o w ds) (hp : (reloaded o w ds).select target = some p)
    (hlock : (reloaded o w ds).attr target "lock" = some session.session_id)
    (hsid : session.session_id ≠ "") (hdummy : session.session_id ≠ x.INTERNAL_DUMMY_ID) :
    ncds_file_unlock x o w ds session target =
      sync_and_leave o (LOCK w ds).1
        (xmlSetProp (xmlSetProp
          (if target = NC_DATASTORE.NC_DATASTORE_CANDIDATE then
            xmlSetProp
              (((reloaded o w ds).assign (reloaded o w ds).candidate
                  (xmlUnlinkNode_first ((reloaded o w ds).linked (reloaded o w ds).candidate))).hang
                (reloaded o w ds).candidate
                (xmlDocCopyNode
                  (((reloaded o w ds).assign (reloaded o w ds).candidate
                    (xmlUnlinkNode_first
                      ((reloaded o w ds).linked (reloaded o w ds).candidate))).childrenOf
                    (reloaded o w ds).running)))
              p "modified" (some "false")
          else reloaded o w ds) p "lock" (some "")) p "locktime" (some "")) none := by
  unfold reloads at hreload
  unfold reloaded at hlock hp ⊢
  simp only [ncds_file_unlock, sync_and_leave, sync_failed]
  generalize file_reload o (LOCK w ds).1 (LOCK w ds).2 = rl at *
  obtain ⟨r1, ds1⟩ := rl
  simp only at hreload hlock hp ⊢
  subst hreload
  have htarget := ds1.stored_of_select target p hp
  have h1 : ¬ (some session.session_id = some "") := by simpa using hsid
  have h2 : ¬ (some session.session_id = some x.INTERNAL_DUMMY_ID) := by simpa using hdummy
  simp only [hp, file_ds_access_eq _ _ htarget, nc_session_dummy, hlock, h1, h2, ne_eq,
    not_true_eq_false, if_false, if_true, reduceCtorEq, ncds_ds_file.assign_candidate,
    ncds_ds_file.assign_running]

/-- What a successful `ncds_file_unlock` of the candidate does: the candidate
gets a copy of the FIRST child of running as its only child, `modified`
becomes "false", `lock` and `locktime` become empty, running and startup are
untouched, and the file holds the new document. -/
theorem ncds_file_unlock_candidate (x : Ext) (o : Oracle) (w : World) (ds : ncds_ds_file)
    (session : nc_session) (hfilled : ds.filled) (hreload : reloads o w ds)
    (hlock : (reloaded o w ds).attr NC_DATASTORE.NC_DATASTORE_CANDIDATE "lock" =
      some session.session_id)
    (hsid : session.session_id ≠ "") (hdummy : session.session_id ≠ x.INTERNAL_DUMMY_ID)
    (hsync : o.syncs) :
    (ncds_file_unlock x o w ds session NC_DATASTORE.NC_DATASTORE_CANDIDATE).ret =
      retcode.EXIT_SUCCESS ∧
    (ncds_file_unlock x o w ds session NC_DATASTORE.NC_DATASTORE_CANDIDATE).ds.config
        NC_DATASTORE.NC_DATASTORE_CANDIDATE =
      ((reloaded o w ds).config NC_DATASTORE.NC_DATASTORE_RUNNING).take 1 ∧
    (ncds_file_unlock x o w ds session NC_DATASTORE.NC_DATASTORE_CANDIDATE).ds.attr
        NC_DATASTORE.NC_DATASTORE_CANDIDATE "modified" = some "false" ∧
    (ncds_file_unlock x o w ds session NC_DATASTORE.NC_DATASTORE_CANDIDATE).ds.attr
        NC_DATASTORE.NC_DATASTORE_CANDIDATE "lock" = some "" ∧
    (ncds_file_unlock x o w ds session NC_DATASTORE.NC_DATASTORE_CANDIDATE).ds.attr
        NC_DATASTORE.NC_DATASTORE_CANDIDATE "locktime" = some "" ∧
    (∀ t, t ≠ NC_DATASTORE.NC_DATASTORE_CANDIDATE →
      (ncds_file_unlock x o w ds session NC_DATASTORE.NC_DATASTORE_CANDIDATE).ds.node t =
        (reloaded o w ds).node t) ∧
    (ncds_file_unlock x o w ds session NC_DATASTORE.NC_DATASTORE_CANDIDATE).w.content =
      (ncds_file_unlock x o w ds session NC_DATASTORE.NC_DATASTORE_CANDIDATE).ds.xml ∧
    (ncds_file_unlock x o w ds session NC_DATASTORE.NC_DATASTORE_CANDIDATE).ds.filled := by
  obtain ⟨hf1, hh1⟩ := reloaded_filled o w ds hfilled hreload
  have hp : (reloaded o w ds).select NC_DATASTORE.NC_DATASTORE_CANDIDATE =
      some (reloaded o w ds).candidate := rfl
  rw [ncds_file_unlock_granted x o w ds session _ _ hreload hp hlock hsid hdummy]
  simp only [if_true]
  generalize reloaded o w ds = ds1 at *
  obtain ⟨_, n, -, -, hn⟩ := ds1.node_some hf1 _ (Or.inr (Or.inr rfl))
  obtain ⟨fA, pA, hA, nA⟩ := assign_step ds1 hf1 _ _ hp
    (xmlUnlinkNode_first (ds1.linked ds1.candidate)) (fun m => by simp)
  have hcopy : (ds1.assign ds1.candidate
      (xmlUnlinkNode_first (ds1.linked ds1.candidate))).childrenOf ds1.running =
      ds1.config NC_DATASTORE.NC_DATASTORE_RUNNING := by
    have e : (ds1.assign ds1.candidate (xmlUnlinkNode_first (ds1.linked ds1.candidate))).select
        NC_DATASTORE.NC_DATASTORE_RUNNING = some ds1.running := by simp [ncds_ds_file.select]
    rw [ncds_ds_file.config_of_select _ _ _ e]
    simp only [ncds_ds_file.config, nA, reduceCtorEq, if_false]
  rw [hcopy]
  obtain ⟨fB, pB, hB, nB⟩ := hang_step _ fA _ _ pA
    (xmlDocCopyNode (ds1.config NC_DATASTORE.NC_DATASTORE_RUNNING))
  obtain ⟨fC, pC, hC, nC⟩ := xmlSetProp_step _ fB _ _ pB "modified" (some "false")
  obtain ⟨fD, pD, hD, nD⟩ := xmlSetProp_step _ fC _ _ pC "lock" (some "")
  obtain ⟨fE, pE, hE, nE⟩ := xmlSetProp_step _ fD _ _ pD "locktime" (some "")
  obtain ⟨s1, s2, s3, -, s5⟩ := leave_sync o (LOCK w ds).1 _ hsync
    (by rw [hE, hD, hC, hB, hA]; exact hh1) fE retcode.EXIT_SUCCESS none
  simp only [sync_and_leave, s1, ne_eq, not_true_eq_false, if_false]
  have hcand := nE NC_DATASTORE.NC_DATASTORE_CANDIDATE
  simp only [if_true, nD, nC, nB, nA, hn, Option.map_some'] at hcand
  have hfin := (s5 NC_DATASTORE.NC_DATASTORE_CANDIDATE).trans hcand
  refine ⟨rfl, ?_, ?_, ?_, ?_, ?_, s3, s2⟩
  · rw [ncds_ds_file.config_of_node _ _ _ hfin]
    simp [xmlDocCopyNode]
  · rw [ncds_ds_file.attr_of_node _ _ _ hfin]
    simp [getAttr_setAttr_same, getAttr_setAttr_other]
  · rw [ncds_ds_file.attr_of_node _ _ _ hfin]
    simp [getAttr_setAttr_same, getAttr_setAttr_other]
  · rw [ncds_ds_file.attr_of_node _ _ _ hfin]
    simp [getAttr_setAttr_same]
  · intro t ht
    rw [s5, nE, if_neg ht, nD, if_neg ht, nC, if_neg ht, nB, if_neg ht, nA, if_neg ht]

/-- The one way `ncds_file_unlock` returns success on a stored target: the
reload succeeds, the `lock` attribute holds the id of the session, and the
synchronisation succeeds. -/
theorem ncds_file_unlock_success (x : Ext) (o : Oracle) (w : World) (ds : ncds_ds_file)
    (session : nc_session) (target : NC_DATASTORE) (htarget : target.stored)
    (h : (ncds_file_unlock x o w ds session target).ret = retcode.EXIT_SUCCESS) :
    reloads o w ds ∧ (reloaded o w ds).attr target "lock" = some session.session_id ∧
      session.session_id ≠ "" ∧ session.session_id ≠ x.INTERNAL_DUMMY_ID ∧ o.syncs := by
  have hreload : reloads o w ds := by
    by_contra hr
    unfold reloads at hr
    simp [ncds_file_unlock, hr, leave] at h
  have hcond : (reloaded o w ds).attr target "lock" = some session.session_id ∧
      session.session_id ≠ "" ∧ session.session_id ≠ x.INTERNAL_DUMMY_ID := by
    by_contra hc
    rw [ncds_file_unlock_refused x o w ds session target hreload htarget hc] at h
    simp [leave] at h
  obtain ⟨p, hp⟩ := (reloaded o w ds).select_stored target htarget
  rw [ncds_file_unlock_granted x o w ds session target p hreload hp hcond.1 hcond.2.1
    hcond.2.2] at h
  refine ⟨hreload, hcond.1, hcond.2.1, hcond.2.2, ?_⟩
  unfold sync_and_leave at h
  generalize xmlSetProp (xmlSetProp _ p "lock" (some "")) p "locktime" (some "") = dsW at h
  by_cases hs : (file_sync o (LOCK w ds).1 dsW).1 = retcode.EXIT_SUCCESS
  · exact (file_sync_success _ _ _ hs).1
  · simp [hs, leave] at h

/-! ## The paths of `ncds_file_copyconfig` -/

theorem file_ds_access_some (ds : ncds_ds_file) (t : NC_DATASTORE) (ht : t.stored)
    (session : nc_session) :
    file_ds_access ds t (some session) ≠ retcode.EXIT_SUCCESS ↔ ds.lockedAgainst t session := by
  rw [file_ds_access_eq _ _ ht]
  unfold ncds_ds_file.lockedAgainst
  by_cases h1 : ds.attr t "lock" = some ""
  · simp [h1]
  · by_cases h2 : ds.attr t "lock" = some session.session_id
    · simp [h1, h2]
    · simp [h1, h2]

/-- The in-use paths of `ncds_file_copyconfig`: the target, or on the commit
path the candidate, is locked against the session. -/
theorem ncds_file_copyconfig_in_use (x : Ext) (o : Oracle) (w : World) (ds : ncds_ds_file)
    (session : nc_session) (rpc : Option nc_rpc) (target source : NC_DATASTORE)
    (config : Option String) (hreload : reloads o w ds) (htarget : target.stored)
    (h : (reloaded o w ds).lockedAgainst target session ∨
      (source = NC_DATASTORE.NC_DATASTORE_CANDIDATE ∧
        target = NC_DATASTORE.NC_DATASTORE_RUNNING ∧
        (reloaded o w ds).lockedAgainst NC_DATASTORE.NC_DATASTORE_CANDIDATE session)) :
    ncds_file_copyconfig x o w ds (some session) rpc target source config =
      leave retcode.EXIT_FAILURE (some (nc_err_new NC_ERR.NC_ERR_IN_USE)) (LOCK w ds).1
        (reloaded o w ds) := by
  unfold reloads at hreload
  unfold reloaded at h ⊢
  simp only [ncds_file_copyconfig]
  generalize file_reload o (LOCK w ds).1 (LOCK w ds).2 = rl at *
  obtain ⟨r1, ds1⟩ := rl
  simp only at hreload h ⊢
  subst hreload
  obtain ⟨p, hp⟩ := ds1.select_stored target htarget
  simp only [hp, ne_eq, not_true_eq_false, if_false]
  by_cases h1 : file_ds_access ds1 target (some session) = retcode.EXIT_SUCCESS
  · have h1' : ¬ ds1.lockedAgainst target session :=
      fun hl => (file_ds_access_some ds1 target htarget session).2 hl h1
    rcases h with h | ⟨hs, ht, hc⟩
    · exact absurd h h1'
    · subst hs
      have h2 := (file_ds_access_some ds1 _ (Or.inr (Or.inr rfl)) session).2 hc
      simp only [h1, not_true_eq_false, if_false, ht, true_and, h2, not_false_eq_true, if_true,
        ite_self]
  · simp only [h1, not_false_eq_true, if_true]

/-- Past the access checks `ncds_file_copyconfig` never reports in-use. -/
theorem ncds_file_copyconfig_not_in_use (x : Ext) (o : Oracle) (w : World) (ds : ncds_ds_file)
    (session : nc_session) (rpc : Option nc_rpc) (target source : NC_DATASTORE)
    (config : Option String) (hreload : reloads o w ds) (htarget : target.stored)
    (h1 : ¬ (reloaded o w ds).lockedAgainst target session)
    (h2 : ¬ (source = NC_DATASTORE.NC_DATASTORE_CANDIDATE ∧
        target = NC_DATASTORE.NC_DATASTORE_RUNNING ∧
        (reloaded o w ds).lockedAgainst NC_DATASTORE.NC_DATASTORE_CANDIDATE session)) :
    ¬ (ncds_file_copyconfig x o w ds (some session) rpc target source config).inUse := by
  unfold reloads at hreload
  unfold reloaded at h1 h2
  simp only [ncds_file_copyconfig, Outcome.inUse]
  generalize file_reload o (LOCK w ds).1 (LOCK w ds).2 = rl at *
  obtain ⟨r1, ds1⟩ := rl
  simp only at hreload h1 h2 ⊢
  subst hreload
  obtain ⟨p, hp⟩ := ds1.select_stored target htarget
  have a1 : file_ds_access ds1 target (some session) = retcode.EXIT_SUCCESS := by
    by_contra hc
    exact h1 ((file_ds_access_some ds1 target htarget session).1 hc)
  have a2 : ¬ (source = NC_DATASTORE.NC_DATASTORE_CANDIDATE ∧
      target = NC_DATASTORE.NC_DATASTORE_RUNNING ∧
      file_ds_access ds1 source (some session) ≠ retcode.EXIT_SUCCESS) := by
    rintro ⟨hs, ht, hc⟩
    subst hs
    exact h2 ⟨rfl, ht, (file_ds_access_some ds1 _ (Or.inr (Or.inr rfl)) session).1 hc⟩
  simp only [hp, a1, a2, ne_eq, not_true_eq_false, if_false]
  split
  · simp [leave, nc_err_set, nc_err_new]
  · generalize copyconfig_nacm x rpc target source _ _ = ck
    generalize file_sync o (LOCK w ds).1 _ = sy
    split_ifs <;> simp [leave, nc_err_set, nc_err_new]

/-- The one way `ncds_file_copyconfig` returns success: the reload succeeds,
the writes are made for some working copy and the synchronisation succeeds. -/
theorem ncds_file_copyconfig_success (x : Ext) (o : Oracle) (w : World) (ds : ncds_ds_file)
    (session : Option nc_session) (rpc : Option nc_rpc) (target source : NC_DATASTORE)
    (config : Option String)
    (h : (ncds_file_copyconfig x o w ds session rpc target source config).ret =
      retcode.EXIT_SUCCESS) :
    reloads o w ds ∧ ∃ p aux error, (reloaded o w ds).select target = some p ∧
      (file_sync o (LOCK w ds).1
        (copyconfig_write (reloaded o w ds) p target source aux)).1 = retcode.EXIT_SUCCESS ∧
      ncds_file_copyconfig x o w ds session rpc target source config =
        leave retcode.EXIT_SUCCESS error
          (file_sync o (LOCK w ds).1
            (copyconfig_write (reloaded o w ds) p target source aux)).2.1
          (file_sync o (LOCK w ds).1
            (copyconfig_write (reloaded o w ds) p target source aux)).2.2 := by
  unfold reloads reloaded
  simp only [ncds_file_copyconfig] at h ⊢
  generalize file_reload o (LOCK w ds).1 (LOCK w ds).2 = rl at *
  obtain ⟨r1, ds1⟩ := rl
  simp only at h ⊢
  by_cases hr : r1 = retcode.EXIT_SUCCESS
  swap
  · simp [hr, leave] at h
  subst hr
  refine ⟨rfl, ?_⟩
  simp only [ne_eq, not_true_eq_false, if_false] at h ⊢
  cases hp : ds1.select target with
  | none => simp [hp, leave] at h
  | some p =>
    simp only [hp] at h ⊢
    by_cases a1 : file_ds_access ds1 target session = retcode.EXIT_SUCCESS
    swap
    · simp [a1, leave] at h
    simp only [a1, not_true_eq_false, if_false] at h ⊢
    by_cases a2 : source = NC_DATASTORE.NC_DATASTORE_CANDIDATE ∧
        target = NC_DATASTORE.NC_DATASTORE_RUNNING ∧
        ¬ file_ds_access ds1 source session = retcode.EXIT_SUCCESS
    · rw [if_pos a2] at h
      simp [leave] at h
    rw [if_neg a2] at h ⊢
    cases hsel : copyconfig_source x ds1 source config with
    | error e => simp [hsel, leave] at h
    | ok source_ds =>
      simp only [hsel] at h ⊢
      by_cases hE : source_ds.isEmpty = true ∧ (ds1.childrenOf p).isEmpty = true
      · simp [hE, leave] at h
      simp only [hE, if_false] at h ⊢
      generalize copyconfig_nacm x rpc target source _ _ = ck at h ⊢
      by_cases hv : ck.2.1 = nacm_verdict.NACM_PERMIT
      swap
      · simp [hv, leave] at h
      simp only [hv, not_true_eq_false, if_false] at h ⊢
      by_cases hs : (file_sync o (LOCK w ds).1
          (copyconfig_write ds1 p target source ck.1)).1 = retcode.EXIT_SUCCESS
      swap
      · simp [hs, leave] at h
      refine ⟨p, ck.1, ck.2.2, rfl, hs, ?_⟩
      simp only [hs, not_true_eq_false, if_false]

/-- The copying path of `ncds_file_copyconfig` between stored datastores
without a NACM context: the session has access, and source and target are
not both empty. -/
theorem ncds_file_copyconfig_stored (x : Ext) (o : Oracle) (w : World) (ds : ncds_ds_file)
    (session : nc_session) (rpc : Option nc_rpc) (target source : NC_DATASTORE)
    (config : Option String) (p : Option Nat) (hreload : reloads o w ds)
    (hp : (reloaded o w ds).select target = some p) (hsource : source.stored)
    (h1 : ¬ (reloaded o w ds).lockedAgainst target session)
    (h2 : ¬ (source = NC_DATASTORE.NC_DATASTORE_CANDIDATE ∧
        target = NC_DATASTORE.NC_DATASTORE_RUNNING ∧
        (reloaded o w ds).lockedAgainst NC_DATASTORE.NC_DATASTORE_CANDIDATE session))
    (hnacm : rpc.bind (fun r => r.nacm) = none)
    (hne : ¬ ((reloaded o w ds).config source = [] ∧ (reloaded o w ds).config target = [])) :
    ncds_file_copyconfig x o w ds (some session) rpc target source config =
      sync_and_leave o (LOCK w ds).1
        (copyconfig_write (reloaded o w ds) p target source
          { children := ((reloaded o w ds).config source).take 1 }) none := by
  unfold reloads at hreload
  unfold reloaded at h1 h2 hp hne ⊢
  simp only [ncds_file_copyconfig, sync_and_leave, sync_failed]
  generalize file_reload o (LOCK w ds).1 (LOCK w ds).2 = rl at *
  obtain ⟨r1, ds1⟩ := rl
  simp only at hreload h1 h2 hp hne ⊢
  subst hreload
  have htarget := ds1.stored_of_select target p hp
  have a1 : file_ds_access ds1 target (some session) = retcode.EXIT_SUCCESS := by
    by_contra hc
    exact h1 ((file_ds_access_some ds1 target htarget session).1 hc)
  have a2 : ¬ (source = NC_DATASTORE.NC_DATASTORE_CANDIDATE ∧
      target = NC_DATASTORE.NC_DATASTORE_RUNNING ∧
      file_ds_access ds1 source (some session) ≠ retcode.EXIT_SUCCESS) := by
    rintro ⟨hs, ht, hc⟩
    subst hs
    exact h2 ⟨rfl, ht, (file_ds_access_some ds1 _ (Or.inr (Or.inr rfl)) session).1 hc⟩
  have hsel : copyconfig_source x ds1 source config = .ok (ds1.config source) := by
    rcases hsource with rfl | rfl | rfl <;>
      simp only [copyconfig_source] <;> congr 1
  have hE : ¬ ((ds1.config source).isEmpty = true ∧ (ds1.childrenOf p).isEmpty = true) := by
    rw [ds1.config_of_select target p hp]
    simpa [List.isEmpty_iff] using hne
  have hck : copyconfig_nacm x rpc target source (ds1.childrenOf p)
      { children := xmlDocCopyNode (ds1.config source) } =
      ({ children := xmlDocCopyNode (ds1.config source) }, nacm_verdict.NACM_PERMIT, none) := by
    simp only [copyconfig_nacm, hnacm]
  simp only [hp, a1, a2, hsel, hE, hck, ne_eq, not_true_eq_false, if_false]
  rfl

/-- The copying path of `ncds_file_copyconfig` without a NACM context, for
any source that the `switch (source)` accepts: the session has access, and
source and target are not both empty. -/
theorem ncds_file_copyconfig_copies (x : Ext) (o : Oracle) (w : World) (ds : ncds_ds_file)
    (session : nc_session) (rpc : Option nc_rpc) (target source : NC_DATASTORE)
    (config : Option String) (p : Option Nat) (src : List xmlNode) (hreload : reloads o w ds)
    (hp : (reloaded o w ds).select target = some p)
    (hsel : copyconfig_source x (reloaded o w ds) source config = .ok src)
    (h1 : ¬ (reloaded o w ds).lockedAgainst target session)
    (h2 : ¬ (source = NC_DATASTORE.NC_DATASTORE_CANDIDATE ∧
        target = NC_DATASTORE.NC_DATASTORE_RUNNING ∧
        (reloaded o w ds).lockedAgainst NC_DATASTORE.NC_DATASTORE_CANDIDATE session))
    (hnacm : rpc.bind (fun r => r.nacm) = none)
    (hne : ¬ (src = [] ∧ (reloaded o w ds).config target = [])) :
    ncds_file_copyconfig x o w ds (some session) rpc target source config =
      sync_and_leave o (LOCK w ds).1
        (copyconfig_write (reloaded o w ds) p target source { children := src.take 1 })
        none := by
  unfold reloads at hreload
  unfold reloaded at h1 h2 hp hne hsel ⊢
  simp only [ncds_file_copyconfig, sync_and_leave, sync_failed]
  generalize file_reload o (LOCK w ds).1 (LOCK w ds).2 = rl at *
  obtain ⟨r1, ds1⟩ := rl
  simp only at hreload h1 h2 hp hne hsel ⊢
  subst hreload
  have htarget := ds1.stored_of_select target p hp
  have a1 : file_ds_access ds1 target (some session) = retcode.EXIT_SUCCESS := by
    by_contra hc
    exact h1 ((file_ds_access_some ds1 target htarget session).1 hc)
  have a2 : ¬ (source = NC_DATASTORE.NC_DATASTORE_CANDIDATE ∧
      target = NC_DATASTORE.NC_DATASTORE_RUNNING ∧
      file_ds_access ds1 source (some session) ≠ retcode.EXIT_SUCCESS) := by
    rintro ⟨hs, ht, hc⟩
    subst hs
    exact h2 ⟨rfl, ht, (file_ds_access_some ds1 _ (Or.inr (Or.inr rfl)) session).1 hc⟩
  have hE : ¬ (src.isEmpty = true ∧ (ds1.childrenOf p).isEmpty = true) := by
    rw [ds1.config_of_select target p hp]
    simpa [List.isEmpty_iff] using hne
  have hck : copyconfig_nacm x rpc target source (ds1.childrenOf p)
      { children := xmlDocCopyNode src } =
      ({ children := xmlDocCopyNode src }, nacm_verdict.NACM_PERMIT, none) := by
    simp only [copyconfig_nacm, hnacm]
  simp only [hp, a1, a2, hsel, hE, hck, ne_eq, not_true_eq_false, if_false]
  rfl

/-- The not-applicable path of `ncds_file_copyconfig` between stored
datastores: the session has access, and source and target are both empty. -/
theorem ncds_file_copyconfig_not_applicable (x : Ext) (o : Oracle) (w : World)
    (ds : ncds_ds_file) (session : nc_session) (rpc : Option nc_rpc)
    (target source : NC_DATASTORE) (config : Option String) (hreload : reloads o w ds)
    (htarget : target.stored) (hsource : source.stored)
    (h1 : ¬ (reloaded o w ds).lockedAgainst target session)
    (h2 : ¬ (source = NC_DATASTORE.NC_DATASTORE_CANDIDATE ∧
        target = NC_DATASTORE.NC_DATASTORE_RUNNING ∧
        (reloaded o w ds).lockedAgainst NC_DATASTORE.NC_DATASTORE_CANDIDATE session))
    (he : (reloaded o w ds).config source = [] ∧ (reloaded o w ds).config target = []) :
    ncds_file_copyconfig x o w ds (some session) rpc target source config =
      leave retcode.EXIT_RPC_NOT_APPLICABLE none (LOCK w ds).1 (reloaded o w ds) := by
  unfold reloads at hreload
  unfold reloaded at h1 h2 he ⊢
  simp only [ncds_file_copyconfig]
  generalize file_reload o (LOCK w ds).1 (LOCK w ds).2 = rl at *
  obtain ⟨r1, ds1⟩ := rl
  simp only at hreload h1 h2 he ⊢
  subst hreload
  obtain ⟨p, hp⟩ := ds1.select_stored target htarget
  have a1 : file_ds_access ds1 target (some session) = retcode.EXIT_SUCCESS := by
    by_contra hc
    exact h1 ((file_ds_access_some ds1 target htarget session).1 hc)
  have a2 : ¬ (source = NC_DATASTORE.NC_DATASTORE_CANDIDATE ∧
      target = NC_DATASTORE.NC_DATASTORE_RUNNING ∧
      file_ds_access ds1 source (some session) ≠ retcode.EXIT_SUCCESS) := by
    rintro ⟨hs, ht, hc⟩
    subst hs
    exact h2 ⟨rfl, ht, (file_ds_access_some ds1 _ (Or.inr (Or.inr rfl)) session).1 hc⟩
  have hsel : copyconfig_source x ds1 source config = .ok (ds1.config source) := by
    rcases hsource with rfl | rfl | rfl <;>
      simp only [copyconfig_source] <;> congr 1
  have hE : (ds1.config source).isEmpty = true ∧ (ds1.childrenOf p).isEmpty = true := by
    rw [ds1.config_of_select target p hp]
    simpa [List.isEmpty_iff] using he
  simp only [hp, a1, a2, hsel, hE, ne_eq, not_true_eq_false, if_false, and_self, if_true]

/-! ## The paths of `ncds_file_deleteconfig` and `ncds_file_editconfig` -/

/-- The one way `ncds_file_deleteconfig` returns success: the target is not
running, the reload succeeds, the first child of the target is unlinked, a
candidate target is marked modified, and the synchronisation succeeds. -/
theorem ncds_file_deleteconfig_success (o : Oracle) (w : World) (ds : ncds_ds_file)
    (session : Option nc_session) (target : NC_DATASTORE) (out : Outcome)
    (hout : ncds_file_deleteconfig o w ds session target = some out)
    (h : out.ret = retcode.EXIT_SUCCESS) :
    reloads o w ds ∧ target ≠ NC_DATASTORE.NC_DATASTORE_RUNNING ∧
    ∃ p, (reloaded o w ds).select target = some p ∧
      (file_sync o (LOCK w ds).1
        (if target = NC_DATASTORE.NC_DATASTORE_CANDIDATE then
          xmlSetProp ((reloaded o w ds).assign p
            (xmlUnlinkNode_first ((reloaded o w ds).linked p))) p "modified" (some "true")
        else (reloaded o w ds).assign p
          (xmlUnlinkNode_first ((reloaded o w ds).linked p)))).1 = retcode.EXIT_SUCCESS ∧
      out =
        leave retcode.EXIT_SUCCESS none
          (file_sync o (LOCK w ds).1
            (if target = NC_DATASTORE.NC_DATASTORE_CANDIDATE then
              xmlSetProp ((reloaded o w ds).assign p
                (xmlUnlinkNode_first ((reloaded o w ds).linked p))) p "modified" (some "true")
            else (reloaded o w ds).assign p
              (xmlUnlinkNode_first ((reloaded o w ds).linked p)))).2.1
          (file_sync o (LOCK w ds).1
            (if target = NC_DATASTORE.NC_DATASTORE_CANDIDATE then
              xmlSetProp ((reloaded o w ds).assign p
                (xmlUnlinkNode_first ((reloaded o w ds).linked p))) p "modified" (some "true")
            else (reloaded o w ds).assign p
              (xmlUnlinkNode_first ((reloaded o w ds).linked p)))).2.2 := by
  unfold reloads reloaded
  simp only [ncds_file_deleteconfig] at hout
  generalize file_reload o (LOCK w ds).1 (LOCK w ds).2 = rl at *
  obtain ⟨r1, ds1⟩ := rl
  simp only at hout ⊢
  by_cases hr : r1 = retcode.EXIT_SUCCESS
  swap
  · simp only [hr, ne_eq, not_false_eq_true, if_true, Option.some.injEq] at hout
    subst hout
    simp [leave] at h
  subst hr
  by_cases ht : target = NC_DATASTORE.NC_DATASTORE_RUNNING
  · simp only [ht, ne_eq, not_true_eq_false, if_false, if_true, Option.some.injEq] at hout
    subst hout
    simp [leave] at h
  refine ⟨rfl, ht, ?_⟩
  simp only [ne_eq, not_true_eq_false, if_false, ht] at hout
  cases hp : ds1.select target with
  | none =>
    simp only [hp, Option.some.injEq] at hout
    subst hout
    simp [leave] at h
  | some p =>
    simp only [hp] at hout
    by_cases a1 : file_ds_access ds1 target session = retcode.EXIT_SUCCESS
    swap
    · simp only [a1, not_false_eq_true, if_true, Option.some.injEq] at hout
      subst hout
      simp [leave] at h
    simp only [a1, not_true_eq_false, if_false] at hout
    by_cases hd : ds1.linked p = false ∧ (ds1.childrenOf p).isEmpty = false
    · rw [if_pos hd] at hout
      cases hout
    rw [if_neg hd] at hout
    refine ⟨p, rfl, ?_⟩
    generalize (if target = NC_DATASTORE.NC_DATASTORE_CANDIDATE then
        xmlSetProp (ds1.assign p (xmlUnlinkNode_first (ds1.linked p))) p "modified" (some "true")
      else ds1.assign p (xmlUnlinkNode_first (ds1.linked p))) = dsW at hout ⊢
    by_cases hs : (file_sync o (LOCK w ds).1 dsW).1 = retcode.EXIT_SUCCESS
    swap
    · simp only [hs, not_false_eq_true, if_true, Option.some.injEq] at hout
      subst hout
      simp [leave] at h
    simp only [hs, not_true_eq_false, if_false, Option.some.injEq] at hout
    exact ⟨hs, hout.symm⟩

/-- The successful path of `ncds_file_deleteconfig`: the target is startup or
the candidate, the session has access, the first child of the target (if
there is one) has its `parent` link, and the synchronisation succeeds. -/
theorem ncds_file_deleteconfig_ok (o : Oracle) (w : World) (ds : ncds_ds_file)
    (session : Option nc_session) (target : NC_DATASTORE) (p : Option Nat)
    (hreload : reloads o w ds) (ht : target ≠ NC_DATASTORE.NC_DATASTORE_RUNNING)
    (hp : (reloaded o w ds).select target = some p)
    (ha : file_ds_access (reloaded o w ds) target session = retcode.EXIT_SUCCESS)
    (hl : (reloaded o w ds).linked p = true ∨ (reloaded o w ds).childrenOf p = []) :
    ncds_file_deleteconfig o w ds session target =
      some (sync_and_leave o (LOCK w ds).1
        (if target = NC_DATASTORE.NC_DATASTORE_CANDIDATE then
          xmlSetProp ((reloaded o w ds).assign p
            (xmlUnlinkNode_first ((reloaded o w ds).linked p))) p "modified" (some "true")
        else (reloaded o w ds).assign p
          (xmlUnlinkNode_first ((reloaded o w ds).linked p))) none) := by
  unfold reloads at hreload
  unfold reloaded at hp ha hl ⊢
  simp only [ncds_file_deleteconfig, sync_and_leave, sync_failed]
  generalize file_reload o (LOCK w ds).1 (LOCK w ds).2 = rl at *
  obtain ⟨r1, ds1⟩ := rl
  simp only at hreload hp ha hl ⊢
  subst hreload
  have hd : ¬ (ds1.linked p = false ∧ (ds1.childrenOf p).isEmpty = false) := by
    rintro ⟨h1, h2⟩
    rcases hl with hl | hl
    · rw [hl] at h1
      cases h1
    · rw [hl] at h2
      cases h2
  simp only [ne_eq, not_true_eq_false, if_false, ht, hp, ha]
  rw [if_neg hd]
  split_ifs <;> rfl

/-- The one way `ncds_file_editconfig` returns success: the reload succeeds,
the target gets a copy of the first node of the edited document as its
children, a candidate target is marked modified, and the synchronisation
succeeds. -/
theorem ncds_file_editconfig_success (x : Ext) (o : Oracle) (w : World) (ds : ncds_ds_file)
    (session : Option nc_session) (rpc : Option nc_rpc) (target : NC_DATASTORE)
    (config : String) (defop errop : Nat)
    (h : (ncds_file_editconfig x o w ds session rpc target config defop errop).ret =
      retcode.EXIT_SUCCESS) :
    reloads o w ds ∧
    ∃ p edited error, (reloaded o w ds).select target = some p ∧
      (file_sync o (LOCK w ds).1
        (if target = NC_DATASTORE.NC_DATASTORE_CANDIDATE then
          xmlSetProp ((reloaded o w ds).hang p edited) p "modified" (some "true")
        else (reloaded o w ds).hang p edited)).1 = retcode.EXIT_SUCCESS ∧
      ncds_file_editconfig x o w ds session rpc target config defop errop =
        leave retcode.EXIT_SUCCESS error
          (file_sync o (LOCK w ds).1
            (if target = NC_DATASTORE.NC_DATASTORE_CANDIDATE then
              xmlSetProp ((reloaded o w ds).hang p edited) p "modified" (some "true")
            else (reloaded o w ds).hang p edited)).2.1
          (file_sync o (LOCK w ds).1
            (if target = NC_DATASTORE.NC_DATASTORE_CANDIDATE then
              xmlSetProp ((reloaded o w ds).hang p edited) p "modified" (some "true")
            else (reloaded o w ds).hang p edited)).2.2 := by
  unfold reloads reloaded
  simp only [ncds_file_editconfig] at h ⊢
  generalize file_reload o (LOCK w ds).1 (LOCK w ds).2 = rl at *
  obtain ⟨r1, ds1⟩ := rl
  simp only at h ⊢
  by_cases hr : r1 = retcode.EXIT_SUCCESS
  swap
  · simp [hr, leave] at h
  subst hr
  refine ⟨rfl, ?_⟩
  simp only [ne_eq, not_true_eq_false, if_false] at h ⊢
  cases hp : ds1.select target with
  | none => simp [hp, leave] at h
  | some p =>
    simp only [hp] at h ⊢
    by_cases a1 : file_ds_access ds1 target session = retcode.EXIT_SUCCESS
    swap
    · simp [a1, leave] at h
    simp only [a1, not_true_eq_false, if_false] at h ⊢
    cases hcfg : x.xmlReadMemory config with
    | none => simp [hcfg, leave] at h
    | some config_doc =>
      simp only [hcfg] at h ⊢
      generalize x.edit_config _ config_doc defop errop _ = ed at h ⊢
      by_cases he : ed.1 = 0
      swap
      · simp [he, leave] at h
      simp only [he, not_true_eq_false, if_false] at h ⊢
      refine ⟨p, xmlDocCopyNode ed.2.1.children, ed.2.2, rfl, ?_⟩
      generalize (if target = NC_DATASTORE.NC_DATASTORE_CANDIDATE then
          xmlSetProp (ds1.hang p (xmlDocCopyNode ed.2.1.children)) p "modified" (some "true")
        else ds1.hang p (xmlDocCopyNode ed.2.1.children)) = dsW at h ⊢
      by_cases hs : (file_sync o (LOCK w ds).1 dsW).1 = retcode.EXIT_SUCCESS
      swap
      · simp [hs, leave] at h
      exact ⟨hs, by simp only [hs, not_true_eq_false, if_false]⟩

/-- The successful path of `ncds_file_editconfig`: the session has access, the
edit document parses and `edit_config` reports no error. -/
theorem ncds_file_editconfig_ok (x : Ext) (o : Oracle) (w : World) (ds : ncds_ds_file)
    (session : Option nc_session) (rpc : Option nc_rpc) (target : NC_DATASTORE)
    (config : String) (defop errop : Nat) (p : Option Nat) (config_doc : xmlDoc)
    (hreload : reloads o w ds) (hp : (reloaded o w ds).select target = some p)
    (ha : file_ds_access (reloaded o w ds) target session = retcode.EXIT_SUCCESS)
    (hcfg : x.xmlReadMemory config = some config_doc)
    (he : (x.edit_config { children := xmlDocCopyNode ((reloaded o w ds).childrenOf p) }
      config_doc defop errop (rpc.bind (fun r => r.nacm))).1 = 0) :
    ncds_file_editconfig x o w ds session rpc target config defop errop =
      sync_and_leave o (LOCK w ds).1
        (if target = NC_DATASTORE.NC_DATASTORE_CANDIDATE then
          xmlSetProp ((reloaded o w ds).hang p
            (xmlDocCopyNode (x.edit_config
              { children := xmlDocCopyNode ((reloaded o w ds).childrenOf p) }
              config_doc defop errop (rpc.bind (fun r => r.nacm))).2.1.children)) p
            "modified" (some "true")
        else (reloaded o w ds).hang p
          (xmlDocCopyNode (x.edit_config
            { children := xmlDocCopyNode ((reloaded o w ds).childrenOf p) }
            config_doc defop errop (rpc.bind (fun r => r.nacm))).2.1.children))
        (x.edit_config { children := xmlDocCopyNode ((reloaded o w ds).childrenOf p) }
          config_doc defop errop (rpc.bind (fun r => r.nacm))).2.2 := by
  unfold reloads at hreload
  unfold reloaded at hp ha he ⊢
  simp only [ncds_file_editconfig, sync_and_leave, sync_failed]
  generalize file_reload o (LOCK w ds).1 (LOCK w ds).2 = rl at *
  obtain ⟨r1, ds1⟩ := rl
  simp only at hreload hp ha he ⊢
  subst hreload
  simp only [ne_eq, not_true_eq_false, if_false, hp, ha, hcfg]
  generalize x.edit_config _ config_doc defop errop _ = ed at he ⊢
  simp only [he, not_true_eq_false, if_false]

/-- The delete after a copy, with and without a parse in between.  `S1` copies
startup, which holds `<a/>` and `<b/>`, into the candidate.  When the next
reload is skipped, the candidate still holds the copy that was hung in without
a `parent` link, and the delete frees it while it stays linked.  When the next
reload reads the file again, the child has its link, and the delete succeeds
and leaves the candidate empty. -/
theorem deleteconfig_after_copy :
    (ncds_file_copyconfig plainExt ticking (onDisk startupTwoFrame) (opened startupTwoFrame)
      (some S1) none NC_DATASTORE.NC_DATASTORE_CANDIDATE NC_DATASTORE.NC_DATASTORE_STARTUP
      none).ret = retcode.EXIT_SUCCESS ∧
    skips
      (ncds_file_copyconfig plainExt ticking (onDisk startupTwoFrame) (opened startupTwoFrame)
        (some S1) none NC_DATASTORE.NC_DATASTORE_CANDIDATE NC_DATASTORE.NC_DATASTORE_STARTUP
        none).w
      (ncds_file_copyconfig plainExt ticking (onDisk startupTwoFrame) (opened startupTwoFrame)
        (some S1) none NC_DATASTORE.NC_DATASTORE_CANDIDATE NC_DATASTORE.NC_DATASTORE_STARTUP
        none).ds = true ∧
    ncds_file_deleteconfig ticking
      (ncds_file_copyconfig plainExt ticking (onDisk startupTwoFrame) (opened startupTwoFrame)
        (some S1) none NC_DATASTORE.NC_DATASTORE_CANDIDATE NC_DATASTORE.NC_DATASTORE_STARTUP
        none).w
      (ncds_file_copyconfig plainExt ticking (onDisk startupTwoFrame) (opened startupTwoFrame)
        (some S1) none NC_DATASTORE.NC_DATASTORE_CANDIDATE NC_DATASTORE.NC_DATASTORE_STARTUP
        none).ds
      (some S1) NC_DATASTORE.NC_DATASTORE_CANDIDATE = none ∧
    skips
      (ncds_file_copyconfig plainExt calm (onDisk startupTwoFrame) (opened startupTwoFrame)
        (some S1) none NC_DATASTORE.NC_DATASTORE_CANDIDATE NC_DATASTORE.NC_DATASTORE_STARTUP
        none).w
      (ncds_file_copyconfig plainExt calm (onDisk startupTwoFrame) (opened startupTwoFrame)
        (some S1) none NC_DATASTORE.NC_DATASTORE_CANDIDATE NC_DATASTORE.NC_DATASTORE_STARTUP
        none).ds = false ∧
    (ncds_file_deleteconfig calm
      (ncds_file_copyconfig plainExt calm (onDisk startupTwoFrame) (opened startupTwoFrame)
        (some S1) none NC_DATASTORE.NC_DATASTORE_CANDIDATE NC_DATASTORE.NC_DATASTORE_STARTUP
        none).w
      (ncds_file_copyconfig plainExt calm (onDisk startupTwoFrame) (opened startupTwoFrame)
        (some S1) none NC_DATASTORE.NC_DATASTORE_CANDIDATE NC_DATASTORE.NC_DATASTORE_STARTUP
        none).ds
      (some S1) NC_DATASTORE.NC_DATASTORE_CANDIDATE).map
        (fun out => (out.ret, out.ds.config NC_DATASTORE.NC_DATASTORE_CANDIDATE)) =
      some (retcode.EXIT_SUCCESS, []) := by
  decide

/-! ## Initialisation -/

/-- On a file that parses and passes `file_structure_check`, `ncds_file_init`
writes nothing: the file is the same before and after. -/
theorem ncds_file_init_keeps_file (i : InitOracle) (w : World) (ds : ncds_ds_file)
    (doc : xmlDoc) (hc : w.content = some doc) (hs : file_structure_check doc = true) :
    (ncds_file_init i w ds).w = w := by
  simp only [ncds_file_init, hc, hs, Bool.not_true, Bool.false_eq_true, if_false, init_finish]
  split_ifs <;> rfl

/-! ## The semaphore name -/

theorem strchr_set_none (s : List Char) (h : strchr_set s = none) :
    s.map (fun c => if c = '/' then '_' else c) = s := by
  induction s with
  | nil => rfl
  | cons c cs ih =>
    by_cases hc : c = '/'
    · simp [strchr_set, hc] at h
    · simp only [strchr_set, hc, if_false, Option.map_eq_none'] at h
      simp [hc, ih h]

theorem strchr_set_some (s r : List Char) (h : strchr_set s = some r) :
    r.map (fun c => if c = '/' then '_' else c) = s.map (fun c => if c = '/' then '_' else c) ∧
      r.count '/' < s.count '/' := by
  induction s generalizing r with
  | nil => simp [strchr_set] at h
  | cons c cs ih =>
    by_cases hc : c = '/'
    · subst hc
      simp only [strchr_set, if_true, Option.some.injEq] at h
      subst h
      simp
    · simp only [strchr_set, hc, if_false, Option.map_eq_some'] at h
      obtain ⟨r', hr, rfl⟩ := h
      obtain ⟨h1, h2⟩ := ih r' hr
      refine ⟨by simp [h1], ?_⟩
      simp only [List.count_cons, beq_iff_eq, hc, if_false]
      simpa using h2

theorem sempath_loop_count (n : Nat) : ∀ s : List Char, s.count '/' = n →
    sempath_loop s = s.map (fun c => if c = '/' then '_' else c) := by
  induction n using Nat.strong_induction_on with
  | _ n ih =>
    intro s hn
    rw [sempath_loop]
    split
    · rename_i h
      exact (strchr_set_none s h).symm
    · rename_i r h
      obtain ⟨h1, h2⟩ := strchr_set_some s r h
      rw [ih _ (hn ▸ h2) r rfl, h1]

/-- The loop ends with every slash replaced. -/
theorem sempath_loop_eq (s : List Char) :
    sempath_loop s = s.map (fun c => if c = '/' then '_' else c) :=
  sempath_loop_count _ s rfl

/-- The semaphore name spelled out: the prefix `/NCDS_FLOCK_` followed by the
path with its slashes replaced. -/
theorem sem_name_eq (path : String) : sem_name path = "/NCDS_FLOCK_" ++ underscored path := by
  unfold sem_name underscored
  rw [sempath_loop_eq]
  apply String.ext
  simp [NCDS_LOCK]

/-- The semaphore name that a successful `ncds_file_init` opens is the name
built from the path the structure holds afterwards. -/
theorem ncds_file_init_sempath (i : InitOracle) (w : World) (ds : ncds_ds_file)
    (h : (ncds_file_init i w ds).ret = retcode.EXIT_SUCCESS) :
    (ncds_file_init i w ds).sempath = some (sem_name (ncds_file_init i w ds).ds.path) := by
  have fin : ∀ w' ds', (init_finish i w' ds').ret = retcode.EXIT_SUCCESS →
      (init_finish i w' ds').sempath = some (sem_name (init_finish i w' ds').ds.path) := by
    intro w' ds' h'
    unfold init_finish at h' ⊢
    simp only at h' ⊢
    split_ifs at h' ⊢
    rfl
  have frm : ∀ w' ds', (init_frame i w' ds').ret = retcode.EXIT_SUCCESS →
      (init_frame i w' ds').sempath = some (sem_name (init_frame i w' ds').ds.path) := by
    intro w' ds' h'
    unfold init_frame at h' ⊢
    rcases hf : file_create_xmlframe i.frame_ok with _ | doc
    · rw [hf] at h'
      simp at h'
    · rw [hf] at h'
      exact fin _ _ h'
  unfold ncds_file_init at h ⊢
  simp only at h ⊢
  by_cases c1 : (match w.content with
      | none => true
      | some doc => !file_structure_check doc) = true
  · rw [if_pos c1] at h ⊢
    by_cases c2 : w.st_mtime.isNone ∨ i.st_size > 0
    · rw [if_pos c2] at h ⊢
      by_cases c3 : (!i.asprintf_ok) = true
      · rw [if_pos c3] at h
        simp at h
      · rw [if_neg c3] at h ⊢
        rcases hm : i.mkstemp with _ | new_path
        · rw [hm] at h
          simp at h
        · rw [hm] at h
          exact frm _ _ h
    · rw [if_neg c2] at h ⊢
      exact frm _ _ h
  · rw [if_neg c1] at h ⊢
    exact fin _ _ h

/-- The loop of `file_fill_dsnodes` counts names: it jumps to `invalid_ds`
when one of the three names occurs twice, the handle carried in counting as
an occurrence, and otherwise a handle is set exactly when its name occurred. -/
theorem fill_loop_counts (l : List xmlNode) : ∀ (i : Nat) (r s c : Option Nat),
    match file_fill_dsnodes_loop l i r s c with
    | none =>
      2 ≤ (l.map xmlNode.name).count "running" + (if r.isSome then 1 else 0) ∨
      2 ≤ (l.map xmlNode.name).count "startup" + (if s.isSome then 1 else 0) ∨
      2 ≤ (l.map xmlNode.name).count "candidate" + (if c.isSome then 1 else 0)
    | some (r', s', c') =>
      ((l.map xmlNode.name).count "running" + (if r.isSome then 1 else 0) =
        if r'.isSome then 1 else 0) ∧
      ((l.map xmlNode.name).count "startup" + (if s.isSome then 1 else 0) =
        if s'.isSome then 1 else 0) ∧
      ((l.map xmlNode.name).count "candidate" + (if c.isSome then 1 else 0) =
        if c'.isSome then 1 else 0) := by
  induction l with
  | nil =>
    intro i r s c
    simp [file_fill_dsnodes_loop]
  | cons a t ih =>
    intro i r s c
    simp only [file_fill_dsnodes_loop, List.map_cons, List.count_cons, beq_iff_eq]
    by_cases h1 : a.name = "running"
    · have h2 : a.name ≠ "startup" := by rw [h1]; decide
      have h3 : a.name ≠ "candidate" := by rw [h1]; decide
      simp only [h1, h2, h3, if_true, if_false]
      cases r with
      | some x => simp
      | none =>
        have := ih (i + 1) (some i) s c
        revert this
        cases file_fill_dsnodes_loop t (i + 1) (some i) s c with
        | none => simp
        | some p => obtain ⟨r', s', c'⟩ := p; simp
    · by_cases h2 : a.name = "startup"
      · have h3 : a.name ≠ "candidate" := by rw [h2]; decide
        simp only [h1, h2, h3, if_true, if_false]
        cases s with
        | some x => simp
        | none =>
          have := ih (i + 1) r (some i) c
          revert this
          cases file_fill_dsnodes_loop t (i + 1) r (some i) c with
          | none => simp
          | some p => obtain ⟨r', s', c'⟩ := p; simp
      · by_cases h3 : a.name = "candidate"
        · simp only [h1, h2, h3, if_true, if_false]
          cases c with
          | some x => simp
          | none =>
            have := ih (i + 1) r s (some i)
            revert this
            cases file_fill_dsnodes_loop t (i + 1) r s (some i) with
            | none => simp
            | some p => obtain ⟨r', s', c'⟩ := p; simp
        · simp only [h1, h2, h3, if_false]
          exact ih (i + 1) r s c

/-- The function `file_fill_dsnodes` succeeds exactly on a structure whose
document names each of the three datastores once below its first top-level node. -/
theorem file_fill_dsnodes_iff (ds : ncds_ds_file) :
    (file_fill_dsnodes ds).1 = retcode.EXIT_SUCCESS ↔ ∃ doc, ds.xml = some doc ∧ named_once doc := by
  unfold file_fill_dsnodes named_once
  cases hx : ds.xml with
  | none => simp
  | some doc =>
    simp only [Option.some.injEq, exists_eq_left']
    cases hc : doc.children with
    | nil => simp
    | cons top rest =>
      simp only [List.isEmpty_cons, Bool.false_eq_true, if_false, ne_eq, reduceCtorEq,
        not_false_eq_true, true_and]
      have := fill_loop_counts doc.dsnodes 0 none none none
      revert this
      rcases file_fill_dsnodes_loop doc.dsnodes 0 none none none with _ | ⟨r, s, c⟩
      · simp; omega
      · rcases r with _ | r <;> rcases s with _ | s <;> rcases c with _ | c <;> simp <;> omega

/-! ## The two branches of `file_reload` -/

/-- A reload that holds the mutex and finds the file older than the last
access returns at once and leaves the structure as it is. -/
theorem file_reload_skip (o : Oracle) (w : World) (ds : ncds_ds_file)
    (hh : ds.holding_lock = true) (hs : skips w ds = true) :
    file_reload o w ds = (retcode.EXIT_SUCCESS, ds) := by
  unfold file_reload
  have hh' : (!ds.holding_lock) = false := by simp [hh]
  unfold skips at hs
  simp only [hh', Bool.false_eq_true, if_false]
  rw [if_pos hs]

/-- A reload that holds the mutex and does not find the file older than the
last access reads it: without a parsed document, or when `file_fill_dsnodes`
fails on the parsed document, it fails and leaves the structure as it is;
otherwise it installs the parsed document and the time of the call. -/
theorem file_reload_reread (o : Oracle) (w : World) (ds : ncds_ds_file)
    (hh : ds.holding_lock = true) (hs : skips w ds = false) :
    file_reload o w ds =
      match w.content with
      | none => (retcode.EXIT_FAILURE, ds)
      | some doc =>
        if (file_fill_dsnodes { ds with xml := some doc }).1 = retcode.EXIT_SUCCESS then
          (retcode.EXIT_SUCCESS,
            { (file_fill_dsnodes { ds with xml := some doc }).2 with
              last_access := if o.time_reload = -1 then 0 else o.time_reload,
              unparented := [] })
        else (retcode.EXIT_FAILURE, ds) := by
  unfold file_reload
  have hh' : (!ds.holding_lock) = false := by simp [hh]
  unfold skips at hs
  have hs' : ¬ (match w.st_mtime with
        | some st_mtime => decide (st_mtime < ds.last_access)
        | none => false) = true := by rw [hs]; decide
  simp only [hh', Bool.false_eq_true, if_false]
  rw [if_neg hs']
  cases w.content with
  | none => rfl
  | some doc =>
    simp only
    by_cases h2 : (file_fill_dsnodes { ds with xml := some doc }).1 = retcode.EXIT_SUCCESS
    · rw [if_pos h2]
      simp only [h2, ne_eq, not_true_eq_false, if_false]
    · rw [if_neg h2]
      simp only [h2, ne_eq, not_false_eq_true, if_true]

/-- The test on the modification time, spelled out for a file that `stat` finds. -/
theorem skips_iff (w : World) (ds : ncds_ds_file) (m : Int) (hm : w.st_mtime = some m) :
    skips w ds = true ↔ m < ds.last_access := by
  unfold skips
  rw [hm]
  simp

/-! ## The mutex around the operations -/

@[simp] theorem xmlSetProp_sigset (ds : ncds_ds_file) (p : Option Nat) (name : String)
    (value : Option String) : (xmlSetProp ds p name value).sigset = ds.sigset := by
  simp [xmlSetProp]

@[simp] theorem copyconfig_write_sigset (ds : ncds_ds_file) (p : Option Nat)
    (target source : NC_DATASTORE) (aux_doc : xmlDoc) :
    (copyconfig_write ds p target source aux_doc).sigset = ds.sigset := by
  unfold copyconfig_write
  simp only
  split_ifs <;> simp

/-- The function `file_fill_dsnodes` does not touch the saved signal mask. -/
theorem file_fill_dsnodes_sigset (ds : ncds_ds_file) :
    (file_fill_dsnodes ds).2.sigset = ds.sigset := by
  unfold file_fill_dsnodes
  split
  · rfl
  · split_ifs
    · rfl
    · split <;> rfl

/-- The function `file_reload` does not touch the saved signal mask. -/
@[simp] theorem file_reload_sigset (o : Oracle) (w : World) (ds : ncds_ds_file) :
    (file_reload o w ds).2.sigset = ds.sigset := by
  unfold file_reload
  simp only
  split_ifs <;> (try split) <;> (try split_ifs) <;>
    first | rfl | exact file_fill_dsnodes_sigset _

/-- The function `file_sync` touches neither the semaphore, nor the signal
mask in force, nor the saved one. -/
theorem file_sync_mutex (o : Oracle) (w : World) (ds : ncds_ds_file) :
    (file_sync o w ds).2.1.sem = w.sem ∧ (file_sync o w ds).2.1.sigmask = w.sigmask ∧
      (file_sync o w ds).2.2.sigset = ds.sigset := by
  unfold file_sync
  split_ifs <;> (try split) <;> exact ⟨rfl, rfl, rfl⟩

/-- After `LOCK` and the reload the mutex is held. -/
theorem held_reload (o : Oracle) (w : World) (ds : ncds_ds_file) :
    held w (LOCK w ds).1 (file_reload o (LOCK w ds).1 (LOCK w ds).2).2 := by
  unfold held
  rw [file_reload_sigset]
  exact ⟨rfl, rfl⟩

theorem held_congr (w0 w : World) (ds ds' : ncds_ds_file) (h : held w0 w ds)
    (hs : ds'.sigset = ds.sigset) : held w0 w ds' :=
  ⟨h.1, hs.trans h.2⟩

/-- The mutex stays held over a synchronisation. -/
theorem held_sync (o : Oracle) (w0 w : World) (ds : ncds_ds_file) (h : held w0 w ds) :
    held w0 (file_sync o w ds).2.1 (file_sync o w ds).2.2 := by
  obtain ⟨h1, h2, h3⟩ := file_sync_mutex o w ds
  exact ⟨h1.trans h.1, h3.trans h.2⟩

/-- The macro `UNLOCK` releases a held mutex. -/
theorem released_UNLOCK (w0 w : World) (ds : ncds_ds_file) (h : held w0 w ds) :
    released w0 (UNLOCK w ds).1 (UNLOCK w ds).2 := by
  obtain ⟨h1, h2⟩ := h
  refine ⟨?_, h2, rfl⟩
  show w.sem ++ [sem_op.sem_post] = _
  rw [h1]
  simp

/-- Leaving an operation releases a held mutex. -/
theorem released_leave (w0 w : World) (ds : ncds_ds_file) (h : held w0 w ds) (ret : retcode)
    (error : Option nc_err) : released w0 (leave ret error w ds).w (leave ret error w ds).ds :=
  released_UNLOCK w0 w ds h

/-- Every exit of `ncds_file_lock` releases the mutex. -/
theorem ncds_file_lock_released (x : Ext) (o : Oracle) (w : World) (ds : ncds_ds_file)
    (session : nc_session) (target : NC_DATASTORE) :
    released w (ncds_file_lock x o w ds session target).w
      (ncds_file_lock x o w ds session target).ds := by
  have h0 := held_reload o w ds
  unfold ncds_file_lock
  simp only
  generalize file_reload o (LOCK w ds).1 (LOCK w ds).2 = rl at *
  generalize (LOCK w ds).1 = w1 at *
  obtain ⟨r1, ds1⟩ := rl
  simp only at h0 ⊢
  repeat' first | split_ifs | split
  all_goals
    first
    | exact released_leave _ _ _ h0 _ _
    | exact released_leave _ _ _ (held_sync _ _ _ _ (held_congr _ _ ds1 _ h0 (by simp))) _ _

/-- Every exit of `ncds_file_unlock` releases the mutex. -/
theorem ncds_file_unlock_released (x : Ext) (o : Oracle) (w : World) (ds : ncds_ds_file)
    (session : nc_session) (target : NC_DATASTORE) :
    released w (ncds_file_unlock x o w ds session target).w
      (ncds_file_unlock x o w ds session target).ds := by
  have h0 := held_reload o w ds
  unfold ncds_file_unlock
  simp only
  generalize file_reload o (LOCK w ds).1 (LOCK w ds).2 = rl at *
  generalize (LOCK w ds).1 = w1 at *
  obtain ⟨r1, ds1⟩ := rl
  simp only at h0 ⊢
  repeat' first | split_ifs | split
  all_goals
    first
    | exact released_leave _ _ _ h0 _ _
    | exact released_leave _ _ _ (held_sync _ _ _ _ (held_congr _ _ ds1 _ h0 (by simp))) _ _

/-- Every exit of `ncds_file_deleteconfig` releases the mutex. -/
theorem ncds_file_deleteconfig_released (o : Oracle) (w : World) (ds : ncds_ds_file)
    (session : Option nc_session) (target : NC_DATASTORE) (out : Outcome)
    (h : ncds_file_deleteconfig o w ds session target = some out) :
    released w out.w out.ds := by
  have h0 := held_reload o w ds
  unfold ncds_file_deleteconfig at h
  simp only at h
  generalize file_reload o (LOCK w ds).1 (LOCK w ds).2 = rl at *
  generalize (LOCK w ds).1 = w1 at *
  obtain ⟨r1, ds1⟩ := rl
  simp only at h0 h
  repeat' first | split_ifs at h | split at h
  all_goals
    first
    | (cases h; done)
    | (cases h; exact released_leave _ _ _ h0 _ _)
    | (cases h
       exact released_leave _ _ _ (held_sync _ _ _ _ (held_congr _ _ ds1 _ h0 (by simp))) _ _)

/-- The call of `ncds_file_deleteconfig` frees a child that stays linked
exactly when the reload succeeds, the target is startup or the candidate, the
session has access, and the target has a child without a `parent` link; in
every other case the function returns. -/
theorem ncds_file_deleteconfig_none_iff (o : Oracle) (w : World) (ds : ncds_ds_file)
    (session : Option nc_session) (target : NC_DATASTORE) :
    ncds_file_deleteconfig o w ds session target = none ↔
      reloads o w ds ∧ target ≠ NC_DATASTORE.NC_DATASTORE_RUNNING ∧
      ∃ p, (reloaded o w ds).select target = some p ∧
        file_ds_access (reloaded o w ds) target session = retcode.EXIT_SUCCESS ∧
        (reloaded o w ds).linked p = false ∧ (reloaded o w ds).childrenOf p ≠ [] := by
  unfold ncds_file_deleteconfig reloads reloaded
  simp only
  generalize file_reload o (LOCK w ds).1 (LOCK w ds).2 = rl
  generalize (LOCK w ds).1 = w1
  obtain ⟨r1, ds1⟩ := rl
  simp only
  by_cases c1 : r1 = retcode.EXIT_SUCCESS
  swap
  · simp [c1]
  by_cases c2 : target = NC_DATASTORE.NC_DATASTORE_RUNNING
  · simp [c1, c2]
  simp only [c1, c2, ne_eq, not_true_eq_false, if_false, not_false_eq_true, true_and]
  rcases hp : ds1.select target with _ | p
  · simp
  · simp only [Option.some.injEq, exists_eq_left']
    by_cases c3 : file_ds_access ds1 target session = retcode.EXIT_SUCCESS
    swap
    · simp [c3]
    simp only [c3, not_true_eq_false, if_false, true_and]
    by_cases c4 : ds1.linked p = false ∧ (ds1.childrenOf p).isEmpty = false
    · rw [if_pos c4]
      simpa [List.isEmpty_iff] using c4
    · rw [if_neg c4]
      have : ¬ (ds1.linked p = false ∧ ¬ ds1.childrenOf p = []) := by
        simpa [List.isEmpty_iff] using c4
      split_ifs <;> simpa using this

/-- Every exit of `ncds_file_editconfig` releases the mutex. -/
theorem ncds_file_editconfig_released (x : Ext) (o : Oracle) (w : World) (ds : ncds_ds_file)
    (session : Option nc_session) (rpc : Option nc_rpc) (target : NC_DATASTORE)
    (config : String) (defop errop : Nat) :
    released w (ncds_file_editconfig x o w ds session rpc target config defop errop).w
      (ncds_file_editconfig x o w ds session rpc target config defop errop).ds := by
  have h0 := held_reload o w ds
  unfold ncds_file_editconfig
  simp only
  generalize file_reload o (LOCK w ds).1 (LOCK w ds).2 = rl at *
  generalize (LOCK w ds).1 = w1 at *
  obtain ⟨r1, ds1⟩ := rl
  simp only at h0 ⊢
  repeat' first | split_ifs | split
  all_goals
    first
    | exact released_leave _ _ _ h0 _ _
    | exact released_leave _ _ _ (held_sync _ _ _ _ (held_congr _ _ ds1 _ h0 (by simp))) _ _

/-- Every exit of `ncds_file_getconfig` releases the mutex. -/
theorem ncds_file_getconfig_released (xmlNodeDump : xmlNode → String) (buffer_ok : Bool)
    (o : Oracle) (w : World) (ds : ncds_ds_file) (source : NC_DATASTORE) :
    released w (ncds_file_getconfig xmlNodeDump buffer_ok o w ds source).w
      (ncds_file_getconfig xmlNodeDump buffer_ok o w ds source).ds := by
  have h0 := held_reload o w ds
  unfold ncds_file_getconfig
  simp only
  generalize file_reload o (LOCK w ds).1 (LOCK w ds).2 = rl at *
  generalize (LOCK w ds).1 = w1 at *
  obtain ⟨r1, ds1⟩ := rl
  simp only at h0 ⊢
  repeat' first | split_ifs | split
  all_goals exact released_UNLOCK _ _ _ h0

/-- Every exit of `ncds_file_lockinfo` releases the mutex. -/
theorem ncds_file_lockinfo_released (o : Oracle) (w : World) (ds : ncds_ds_file)
    (target : NC_DATASTORE) (out : LockinfoOutcome)
    (h : ncds_file_lockinfo o w ds target = some out) : released w out.w out.ds := by
  have h0 := held_reload o w ds
  unfold ncds_file_lockinfo at h
  simp only at h
  generalize file_reload o (LOCK w ds).1 (LOCK w ds).2 = rl at *
  generalize (LOCK w ds).1 = w1 at *
  obtain ⟨r1, ds1⟩ := rl
  simp only at h0 h
  repeat' first | split_ifs at h | split at h
  all_goals cases h <;> exact released_UNLOCK _ _ _ h0

/-- Every exit of `ncds_file_copyconfig` releases the mutex. -/
theorem ncds_file_copyconfig_released (x : Ext) (o : Oracle) (w : World) (ds : ncds_ds_file)
    (session : Option nc_session) (rpc : Option nc_rpc) (target source : NC_DATASTORE)
    (config : Option String) :
    released w (ncds_file_copyconfig x o w ds session rpc target source config).w
      (ncds_file_copyconfig x o w ds session rpc target source config).ds := by
  have h0 := held_reload o w ds
  unfold ncds_file_copyconfig
  simp only
  generalize file_reload o (LOCK w ds).1 (LOCK w ds).2 = rl at *
  generalize (LOCK w ds).1 = w1 at *
  obtain ⟨r1, ds1⟩ := rl
  simp only at h0 ⊢
  by_cases c1 : r1 ≠ retcode.EXIT_SUCCESS
  · rw [if_pos c1]
    exact released_leave _ _ _ h0 _ _
  · rw [if_neg c1]
    rcases ds1.select target with _ | target_ds
    · exact released_leave _ _ _ h0 _ _
    · simp only
      by_cases c2 : file_ds_access ds1 target session ≠ retcode.EXIT_SUCCESS
      · rw [if_pos c2]
        exact released_leave _ _ _ h0 _ _
      · rw [if_neg c2]
        by_cases c3 : source = NC_DATASTORE.NC_DATASTORE_CANDIDATE ∧
            target = NC_DATASTORE.NC_DATASTORE_RUNNING ∧
            file_ds_access ds1 source session ≠ retcode.EXIT_SUCCESS
        · rw [if_pos c3]
          exact released_leave _ _ _ h0 _ _
        · rw [if_neg c3]
          rcases copyconfig_source x ds1 source config with badelem | source_ds
          · exact released_leave _ _ _ h0 _ _
          · simp only
            by_cases c4 : source_ds.isEmpty ∧ (ds1.childrenOf target_ds).isEmpty
            · rw [if_pos c4]
              exact released_leave _ _ _ h0 _ _
            · rw [if_neg c4]
              generalize copyconfig_nacm x rpc target source _ _ = ck
              by_cases c5 : ck.2.1 ≠ nacm_verdict.NACM_PERMIT
              · rw [if_pos c5]
                exact released_leave _ _ _ h0 _ _
              · rw [if_neg c5]
                have h1 : held w w1 (copyconfig_write ds1 target_ds target source ck.1) :=
                  held_congr _ _ ds1 _ h0 (by simp)
                have h2 := held_sync o _ _ _ h1
                split_ifs <;> exact released_leave _ _ _ h2 _ _

/-- The call of `ncds_file_lockinfo` runs into `strlen (NULL)` exactly when the
reload succeeds, the target is a stored datastore and its element carries no
`lock` attribute; in every other case the function returns. -/
theorem ncds_file_lockinfo_none_iff (o : Oracle) (w : World) (ds : ncds_ds_file)
    (target : NC_DATASTORE) :
    ncds_file_lockinfo o w ds target = none ↔
      reloads o w ds ∧ target.stored ∧ (reloaded o w ds).attr target "lock" = none := by
  unfold ncds_file_lockinfo reloads reloaded ncds_ds_file.attr ncds_ds_file.node
    NC_DATASTORE.stored
  simp only
  generalize file_reload o (LOCK w ds).1 (LOCK w ds).2 = rl
  generalize (LOCK w ds).1 = w1
  obtain ⟨r1, ds1⟩ := rl
  simp only
  by_cases c1 : r1 = retcode.EXIT_SUCCESS
  · simp only [c1, ne_eq, not_true_eq_false, if_false, true_and]
    cases target <;> simp [ncds_ds_file.select] <;> split <;> simp_all
  · simp [c1]

/-- After a reload that read the file again every child has its `parent`
link: the document is a newly parsed one. -/
theorem reloaded_linked (o : Oracle) (w : World) (ds : ncds_ds_file) (hr : reloads o w ds)
    (hs : skips w ds = false) (p : Option Nat) : (reloaded o w ds).linked p = true := by
  unfold reloads at hr
  unfold reloaded
  have hs' : skips (LOCK w ds).1 (LOCK w ds).2 = false := hs
  rw [file_reload_reread o _ _ rfl hs'] at hr ⊢
  cases hc : (LOCK w ds).1.content with
  | none =>
    rw [hc] at hr
    cases hr
  | some doc =>
    rw [hc] at hr
    simp only at hr ⊢
    by_cases hf : (file_fill_dsnodes { (LOCK w ds).2 with xml := some doc }).1 =
        retcode.EXIT_SUCCESS
    · rw [if_pos hf]
      cases p <;> rfl
    · rw [if_neg hf] at hr
      cases hr

/-! ## Claims -/

/-- The granting path of `ncds_file_lock` in full.  On a filled datastore
structure, for a stored target whose `lock` attribute is the empty string (and
which, if it is the candidate, is not marked modified), a session with a
non-empty id and a synchronisation that succeeds: `ncds_file_lock` returns
success; the target's `lock` becomes the session id and its `locktime` the
stamp that `nc_time2datetime` returns, which is the empty string when the
formatter returns `NULL`; the elements of the other two datastores, the
children of all three and every other attribute of the target stay as they
were; the file holds the new document; and `ncds_file_lockinfo` called next
on the target returns that session id together with that stamp. -/
theorem lock_grants (x : Ext) (o : Oracle) (w : World) (ds : ncds_ds_file)
    (session : nc_session) (target : NC_DATASTORE)
    (hfilled : ds.filled) (hreload : reloads o w ds) (htarget : target.stored)
    (hlock : (reloaded o w ds).attr target "lock" = some "")
    (hmod : target = NC_DATASTORE.NC_DATASTORE_CANDIDATE →
      (reloaded o w ds).attr target "modified" ≠ some "true")
    (hsid : session.session_id ≠ "") (hsync : o.syncs) :
    (ncds_file_lock x o w ds session target).ret = retcode.EXIT_SUCCESS ∧
    (ncds_file_lock x o w ds session target).ds.attr target "lock" = some session.session_id ∧
    (ncds_file_lock x o w ds session target).ds.attr target "locktime" =
      some ((x.nc_time2datetime o.time_lock).getD "") ∧
    (∀ t, t ≠ target →
      (ncds_file_lock x o w ds session target).ds.node t = (reloaded o w ds).node t) ∧
    (∀ t, (ncds_file_lock x o w ds session target).ds.config t = (reloaded o w ds).config t) ∧
    (∀ name, name ≠ "lock" → name ≠ "locktime" →
      (ncds_file_lock x o w ds session target).ds.attr target name =
        (reloaded o w ds).attr target name) ∧
    (ncds_file_lock x o w ds session target).w.content =
      (ncds_file_lock x o w ds session target).ds.xml ∧
    ∀ o', (ncds_file_lockinfo o' (ncds_file_lock x o w ds session target).w
        (ncds_file_lock x o w ds session target).ds target).map (fun r => r.info) =
      some (some { type := target, sid := some session.session_id,
                   time := some ((x.nc_time2datetime o.time_lock).getD "") }) := by
  obtain ⟨hf1, hh1⟩ := reloaded_filled o w ds hfilled hreload
  obtain ⟨p, hp⟩ := (reloaded o w ds).select_stored target htarget
  have hgr := ncds_file_lock_granted x o w ds session target p hreload hp hlock hmod
  have hfA := xmlSetProp_filled _ hf1 p "lock" (some session.session_id)
  have hpA : (xmlSetProp (reloaded o w ds) p "lock" (some session.session_id)).select target =
      some p := by simpa using hp
  have hfB := xmlSetProp_filled _ hfA p "locktime" (x.nc_time2datetime o.time_lock)
  have hhB : (xmlSetProp (xmlSetProp (reloaded o w ds) p "lock" (some session.session_id)) p
      "locktime" (x.nc_time2datetime o.time_lock)).holding_lock = true := by simpa using hh1
  obtain ⟨s1, s2, s3, -, s5⟩ :=
    leave_sync o (LOCK w ds).1 _ hsync hhB hfB retcode.EXIT_SUCCESS none
  have hout : ncds_file_lock x o w ds session target =
      leave retcode.EXIT_SUCCESS none
        (file_sync o (LOCK w ds).1 (xmlSetProp (xmlSetProp (reloaded o w ds) p "lock"
          (some session.session_id)) p "locktime" (x.nc_time2datetime o.time_lock))).2.1
        (file_sync o (LOCK w ds).1 (xmlSetProp (xmlSetProp (reloaded o w ds) p "lock"
          (some session.session_id)) p "locktime" (x.nc_time2datetime o.time_lock))).2.2 := by
    rw [hgr]
    simp only [sync_and_leave, s1, ne_eq, not_true_eq_false, if_false]
  have hattr : ∀ t name, (ncds_file_lock x o w ds session target).ds.attr t name =
      if t = target ∧ name = "locktime" then some ((x.nc_time2datetime o.time_lock).getD "")
      else if t = target ∧ name = "lock" then some session.session_id
      else (reloaded o w ds).attr t name := by
    intro t name
    rw [hout]
    simp only [ncds_ds_file.attr, s5]
    have := xmlSetProp_attr _ hfA target p hpA "locktime" (x.nc_time2datetime o.time_lock) t name
    simp only [ncds_ds_file.attr] at this
    rw [this]
    have := xmlSetProp_attr _ hf1 target p hp "lock" (some session.session_id) t name
    simp only [ncds_ds_file.attr] at this
    rw [this]
    rfl
  have hconfig : ∀ t, (ncds_file_lock x o w ds session target).ds.config t =
      (reloaded o w ds).config t := by
    intro t
    rw [hout]
    simp only [ncds_ds_file.config, s5]
    have := xmlSetProp_config _ hfA target p hpA "locktime" (x.nc_time2datetime o.time_lock) t
    simp only [ncds_ds_file.config] at this
    rw [this]
    exact xmlSetProp_config _ hf1 target p hp "lock" (some session.session_id) t
  have hnode : ∀ t, t ≠ target →
      (ncds_file_lock x o w ds session target).ds.node t = (reloaded o w ds).node t := by
    intro t ht
    rw [hout, s5, xmlSetProp_node_other _ hfA target p hpA _ _ t ht,
      xmlSetProp_node_other _ hf1 target p hp _ _ t ht]
  have hlk := hattr target "lock"
  simp only [true_and, reduceCtorEq, String.reduceEq, if_false, if_true] at hlk
  have hlt := hattr target "locktime"
  simp only [true_and, if_true] at hlt
  refine ⟨by rw [hout]; rfl, hlk, hlt, hnode, hconfig, ?_, by rw [hout]; exact s3, ?_⟩
  · intro name h1 h2
    rw [hattr]
    simp [h1, h2]
  · intro o'
    have hf2 : (ncds_file_lock x o w ds session target).ds.filled := by rw [hout]; exact s2
    have hw2 : (ncds_file_lock x o w ds session target).w.content =
        (ncds_file_lock x o w ds session target).ds.xml := by rw [hout]; exact s3
    obtain ⟨r1, -, -, r4⟩ := reload_of_synced o' _ _ hf2 hw2
    have hlk2 : (reloaded o' (ncds_file_lock x o w ds session target).w
        (ncds_file_lock x o w ds session target).ds).attr target "lock" =
        some session.session_id := by
      simp only [ncds_ds_file.attr, r4]
      exact hlk
    have hlt2 : (reloaded o' (ncds_file_lock x o w ds session target).w
        (ncds_file_lock x o w ds session target).ds).attr target "locktime" =
        some ((x.nc_time2datetime o.time_lock).getD "") := by
      simp only [ncds_ds_file.attr, r4]
      exact hlt
    rw [ncds_file_lockinfo_present o' _ _ target session.session_id r1 htarget hlk2, hlt2]
    simp [String.length_ne_zero_of_ne_empty _ hsid]

/-- C2: a lock request on a stored datastore whose `lock` attribute holds a
non-empty value other than the reserved dummy id is refused for every
session, the holder included: the call fails with lock-denied, the error
carries the value of the `lock` attribute as session id, and the document,
the node handles and the backing file stay as they were after the reload. -/
theorem lock_denied_when_locked (x : Ext) (o : Oracle) (w : World) (ds : ncds_ds_file)
    (session : nc_session) (target : NC_DATASTORE) (holder : String)
    (hreload : reloads o w ds) (htarget : target.stored)
    (hlock : (reloaded o w ds).attr target "lock" = some holder)
    (hholder : holder ≠ "") (hdummy : holder ≠ x.INTERNAL_DUMMY_ID) :
    (ncds_file_lock x o w ds session target).ret = retcode.EXIT_FAILURE ∧
    (ncds_file_lock x o w ds session target).error =
      some { kind := NC_ERR.NC_ERR_LOCK_DENIED, message := none, sid := some holder,
             badelem := none } ∧
    (ncds_file_lock x o w ds session target).ds.xml = (reloaded o w ds).xml ∧
    (ncds_file_lock x o w ds session target).ds.running = (reloaded o w ds).running ∧
    (ncds_file_lock x o w ds session target).ds.startup = (reloaded o w ds).startup ∧
    (ncds_file_lock x o w ds session target).ds.candidate = (reloaded o w ds).candidate ∧
    (ncds_file_lock x o w ds session target).w.content = w.content ∧
    (ncds_file_lock x o w ds session target).w.st_mtime = w.st_mtime := by
  rw [ncds_file_lock_locked x o w ds session target holder hreload htarget hlock hholder hdummy]
  exact ⟨rfl, rfl, rfl, rfl, rfl, rfl, rfl, rfl⟩

/-- C3: when the candidate's `lock` attribute is empty, a lock request on the
candidate by any session (a) fails with lock-denied and the message
"Candidate datastore not locked but already modified." and leaves the
document, the handles and the file untouched if `modified` is "true";
(b) is not refused if `modified` is "false" or absent: the only error it can
then report is the failed synchronisation, and it returns success whenever
the synchronisation succeeds. -/
theorem lock_candidate_modified (x : Ext) (o : Oracle) (w : World) (ds : ncds_ds_file)
    (session : nc_session) (hfilled : ds.filled) (hreload : reloads o w ds)
    (hlock : (reloaded o w ds).attr NC_DATASTORE.NC_DATASTORE_CANDIDATE "lock" = some "") :
    ((reloaded o w ds).attr NC_DATASTORE.NC_DATASTORE_CANDIDATE "modified" = some "true" →
      (ncds_file_lock x o w ds session NC_DATASTORE.NC_DATASTORE_CANDIDATE).ret =
        retcode.EXIT_FAILURE ∧
      (ncds_file_lock x o w ds session NC_DATASTORE.NC_DATASTORE_CANDIDATE).error =
        some { kind := NC_ERR.NC_ERR_LOCK_DENIED,
               message := some "Candidate datastore not locked but already modified.",
               sid := none, badelem := none } ∧
      (ncds_file_lock x o w ds session NC_DATASTORE.NC_DATASTORE_CANDIDATE).ds.xml =
        (reloaded o w ds).xml ∧
      (ncds_file_lock x o w ds session NC_DATASTORE.NC_DATASTORE_CANDIDATE).ds.running =
        (reloaded o w ds).running ∧
      (ncds_file_lock x o w ds session NC_DATASTORE.NC_DATASTORE_CANDIDATE).ds.startup =
        (reloaded o w ds).startup ∧
      (ncds_file_lock x o w ds session NC_DATASTORE.NC_DATASTORE_CANDIDATE).ds.candidate =
        (reloaded o w ds).candidate ∧
      (ncds_file_lock x o w ds session NC_DATASTORE.NC_DATASTORE_CANDIDATE).w.content =
        w.content ∧
      (ncds_file_lock x o w ds session NC_DATASTORE.NC_DATASTORE_CANDIDATE).w.st_mtime =
        w.st_mtime) ∧
    ((reloaded o w ds).attr NC_DATASTORE.NC_DATASTORE_CANDIDATE "modified" = some "false" ∨
        (reloaded o w ds).attr NC_DATASTORE.NC_DATASTORE_CANDIDATE "modified" = none →
      ((ncds_file_lock x o w ds session NC_DATASTORE.NC_DATASTORE_CANDIDATE).error = none ∨
        (ncds_file_lock x o w ds session NC_DATASTORE.NC_DATASTORE_CANDIDATE).error =
          some { kind := NC_ERR.NC_ERR_OP_FAILED,
                 message := some "Datastore file synchronisation failed.",
                 sid := none, badelem := none }) ∧
      (o.syncs →
        (ncds_file_lock x o w ds session NC_DATASTORE.NC_DATASTORE_CANDIDATE).ret =
          retcode.EXIT_SUCCESS)) := by
  constructor
  · intro hmod
    rw [ncds_file_lock_modified x o w ds session hreload hlock hmod]
    exact ⟨rfl, rfl, rfl, rfl, rfl, rfl, rfl, rfl⟩
  · intro hmod
    obtain ⟨hf1, hh1⟩ := reloaded_filled o w ds hfilled hreload
    have hne : NC_DATASTORE.NC_DATASTORE_CANDIDATE = NC_DATASTORE.NC_DATASTORE_CANDIDATE →
        (reloaded o w ds).attr NC_DATASTORE.NC_DATASTORE_CANDIDATE "modified" ≠ some "true" := by
      intro _ h
      rcases hmod with h' | h' <;> rw [h'] at h <;> simp at h
    rw [ncds_file_lock_granted x o w ds session NC_DATASTORE.NC_DATASTORE_CANDIDATE
      (reloaded o w ds).candidate hreload rfl hlock hne]
    constructor
    · unfold sync_and_leave
      split_ifs
      · right; rfl
      · left; rfl
    · intro hsync
      have hhB : (xmlSetProp (xmlSetProp (reloaded o w ds) (reloaded o w ds).candidate "lock"
          (some session.session_id)) (reloaded o w ds).candidate "locktime"
          (x.nc_time2datetime o.time_lock)).holding_lock = true := by simpa using hh1
      have s1 := (leave_sync o (LOCK w ds).1 _ hsync hhB
        (xmlSetProp_filled _ (xmlSetProp_filled _ hf1 _ _ _) _ _ _) retcode.EXIT_SUCCESS none).1
      simp only [sync_and_leave, s1, ne_eq, not_true_eq_false, if_false]
      rfl

/-- C4: for a stored target, `ncds_file_unlock` (a) fails with
operation-failed "Target datastore is not locked." when the `lock` attribute
is empty, (b) fails with operation-failed when the attribute holds a
non-empty value other than the id of the calling session, in both cases
writing nothing (document, handles and file stay as they were, so holder,
locktime, candidate children and modified flag are untouched), and
(c) returns success only if the `lock` attribute equals the session id. -/
theorem unlock_refused (x : Ext) (o : Oracle) (w : World) (ds : ncds_ds_file)
    (session : nc_session) (target : NC_DATASTORE)
    (hreload : reloads o w ds) (htarget : target.stored) :
    ((reloaded o w ds).attr target "lock" = some "" →
      (ncds_file_unlock x o w ds session target).ret = retcode.EXIT_FAILURE ∧
      (ncds_file_unlock x o w ds session target).error =
        some { kind := NC_ERR.NC_ERR_OP_FAILED,
               message := some "Target datastore is not locked.",
               sid := none, badelem := none } ∧
      (ncds_file_unlock x o w ds session target).untouched w (reloaded o w ds)) ∧
    (∀ holder, (reloaded o w ds).attr target "lock" = some holder → holder ≠ "" →
        holder ≠ session.session_id →
      (ncds_file_unlock x o w ds session target).ret = retcode.EXIT_FAILURE ∧
      (ncds_file_unlock x o w ds session target).error =
        some { kind := NC_ERR.NC_ERR_OP_FAILED,
               message := some (if holder = x.INTERNAL_DUMMY_ID then
                   "Target datastore is not locked."
                 else "Target datastore is locked by another session."),
               sid := none, badelem := none } ∧
      (ncds_file_unlock x o w ds session target).untouched w (reloaded o w ds)) ∧
    ((ncds_file_unlock x o w ds session target).ret = retcode.EXIT_SUCCESS →
      (reloaded o w ds).attr target "lock" = some session.session_id) := by
  refine ⟨?_, ?_, ?_⟩
  · intro h
    have hn : ¬ ((reloaded o w ds).attr target "lock" = some session.session_id ∧
        session.session_id ≠ "" ∧ session.session_id ≠ x.INTERNAL_DUMMY_ID) := by
      rintro ⟨h1, h2, -⟩
      rw [h] at h1
      exact h2 (Option.some.inj h1).symm
    rw [ncds_file_unlock_refused x o w ds session target hreload htarget hn]
    refine ⟨rfl, ?_, rfl, rfl, rfl, rfl, rfl, rfl⟩
    simp [leave, h]
  · intro holder h h1 h2
    have hn : ¬ ((reloaded o w ds).attr target "lock" = some session.session_id ∧
        session.session_id ≠ "" ∧ session.session_id ≠ x.INTERNAL_DUMMY_ID) := by
      rintro ⟨h3, -, -⟩
      rw [h] at h3
      exact h2 (Option.some.inj h3)
    rw [ncds_file_unlock_refused x o w ds session target hreload htarget hn]
    refine ⟨rfl, ?_, rfl, rfl, rfl, rfl, rfl, rfl⟩
    simp [leave, h, h1]
  · intro hret
    by_contra hne
    have hn : ¬ ((reloaded o w ds).attr target "lock" = some session.session_id ∧
        session.session_id ≠ "" ∧ session.session_id ≠ x.INTERNAL_DUMMY_ID) :=
      fun h => hne h.1
    rw [ncds_file_unlock_refused x o w ds session target hreload htarget hn] at hret
    exact absurd hret (by simp [leave])

/-- C5, the code at a running datastore with two children: `S1` holds the
candidate and unlocks it with success, after which running still holds
`<a/>` and `<b/>` while the candidate holds `<a/>` alone, so the candidate is
not a copy of running. -/
theorem unlock_candidate_drops_siblings :
    (ncds_file_unlock plainExt calm (onDisk twoChildrenFrame) (opened twoChildrenFrame) S1
      NC_DATASTORE.NC_DATASTORE_CANDIDATE).ret = retcode.EXIT_SUCCESS ∧
    (ncds_file_unlock plainExt calm (onDisk twoChildrenFrame) (opened twoChildrenFrame) S1
      NC_DATASTORE.NC_DATASTORE_CANDIDATE).ds.config NC_DATASTORE.NC_DATASTORE_RUNNING =
      [element "a" [] [], element "b" [] []] ∧
    (ncds_file_unlock plainExt calm (onDisk twoChildrenFrame) (opened twoChildrenFrame) S1
      NC_DATASTORE.NC_DATASTORE_CANDIDATE).ds.config NC_DATASTORE.NC_DATASTORE_CANDIDATE =
      [element "a" [] []] ∧
    (ncds_file_unlock plainExt calm (onDisk twoChildrenFrame) (opened twoChildrenFrame) S1
      NC_DATASTORE.NC_DATASTORE_CANDIDATE).ds.config NC_DATASTORE.NC_DATASTORE_CANDIDATE ≠
    (ncds_file_unlock plainExt calm (onDisk twoChildrenFrame) (opened twoChildrenFrame) S1
      NC_DATASTORE.NC_DATASTORE_CANDIDATE).ds.config NC_DATASTORE.NC_DATASTORE_RUNNING :=
  ⟨rfl, rfl, rfl, fun h => absurd (congrArg List.length h) (by decide)⟩

/-- C7: for a stored target, any source and any session, once the reload has
succeeded `ncds_file_copyconfig` fails with in-use exactly when the target's
`lock` is neither empty nor the session's id, or the call is the commit
(source candidate, target running) and the candidate's `lock` is neither
empty nor the session's id; the in-use failure writes nothing; and off the
commit path the lock on the source plays no part. -/
theorem copyconfig_in_use_iff (x : Ext) (o : Oracle) (w : World) (ds : ncds_ds_file)
    (session : nc_session) (rpc : Option nc_rpc) (target source : NC_DATASTORE)
    (config : Option String) (hreload : reloads o w ds) (htarget : target.stored) :
    ((ncds_file_copyconfig x o w ds (some session) rpc target source config).inUse ↔
      ((reloaded o w ds).lockedAgainst target session ∨
        (source = NC_DATASTORE.NC_DATASTORE_CANDIDATE ∧
          target = NC_DATASTORE.NC_DATASTORE_RUNNING ∧
          (reloaded o w ds).lockedAgainst NC_DATASTORE.NC_DATASTORE_CANDIDATE session))) ∧
    ((ncds_file_copyconfig x o w ds (some session) rpc target source config).inUse →
      (ncds_file_copyconfig x o w ds (some session) rpc target source config).untouched w
        (reloaded o w ds)) ∧
    (¬ (source = NC_DATASTORE.NC_DATASTORE_CANDIDATE ∧
        target = NC_DATASTORE.NC_DATASTORE_RUNNING) →
      ((ncds_file_copyconfig x o w ds (some session) rpc target source config).inUse ↔
        (reloaded o w ds).lockedAgainst target session)) := by
  have key : (ncds_file_copyconfig x o w ds (some session) rpc target source config).inUse ↔
      ((reloaded o w ds).lockedAgainst target session ∨
        (source = NC_DATASTORE.NC_DATASTORE_CANDIDATE ∧
          target = NC_DATASTORE.NC_DATASTORE_RUNNING ∧
          (reloaded o w ds).lockedAgainst NC_DATASTORE.NC_DATASTORE_CANDIDATE session)) := by
    constructor
    · intro h
      by_contra hc
      exact ncds_file_copyconfig_not_in_use x o w ds session rpc target source config hreload
        htarget (fun h1 => hc (Or.inl h1)) (fun h2 => hc (Or.inr h2)) h
    · intro h
      rw [ncds_file_copyconfig_in_use x o w ds session rpc target source config hreload
        htarget h]
      exact ⟨rfl, rfl⟩
  refine ⟨key, ?_, ?_⟩
  · intro h
    rw [ncds_file_copyconfig_in_use x o w ds session rpc target source config hreload
      htarget (key.1 h)]
    exact ⟨rfl, rfl, rfl, rfl, rfl, rfl⟩
  · intro hnc
    rw [key]
    constructor
    · rintro (h | ⟨h1, h2, -⟩)
      · exact h
      · exact absurd ⟨h1, h2⟩ hnc
    · exact Or.inl

/-- C8, candidate modified law.  On a filled datastore:

* after a successful `ncds_file_unlock` of the candidate and after a
  successful `ncds_file_copyconfig` from running into the candidate the
  `modified` attribute of the candidate is "false";
* after a successful copy into the candidate from any other source (startup,
  the candidate itself, an inline configuration), a successful
  `ncds_file_deleteconfig` of the candidate and a successful
  `ncds_file_editconfig` of the candidate it is "true";
* in each case the file holds the document with that mark;
* and these calls do succeed: when the reload and the synchronisation succeed,
  the unlock by the holder of the lock succeeds, the copy into a candidate the
  session has access to succeeds for every source the `switch (source)`
  accepts unless source and candidate are both empty (no NACM context), the
  delete of a candidate the session has access to succeeds when the first
  child, if any, has its `parent` link, and the edit of a candidate the
  session has access to succeeds when the edit document parses and
  `edit_config` reports no error. -/
theorem candidate_modified_law (x : Ext) (o : Oracle) (w : World) (ds : ncds_ds_file)
    (hfilled : ds.filled) :
    (∀ session,
      (ncds_file_unlock x o w ds session NC_DATASTORE.NC_DATASTORE_CANDIDATE).ret =
        retcode.EXIT_SUCCESS →
      (ncds_file_unlock x o w ds session NC_DATASTORE.NC_DATASTORE_CANDIDATE).ds.attr
          NC_DATASTORE.NC_DATASTORE_CANDIDATE "modified" = some "false" ∧
      (ncds_file_unlock x o w ds session NC_DATASTORE.NC_DATASTORE_CANDIDATE).w.content =
        (ncds_file_unlock x o w ds session NC_DATASTORE.NC_DATASTORE_CANDIDATE).ds.xml) ∧
    (∀ session rpc config,
      (ncds_file_copyconfig x o w ds session rpc NC_DATASTORE.NC_DATASTORE_CANDIDATE
        NC_DATASTORE.NC_DATASTORE_RUNNING config).ret = retcode.EXIT_SUCCESS →
      (ncds_file_copyconfig x o w ds session rpc NC_DATASTORE.NC_DATASTORE_CANDIDATE
        NC_DATASTORE.NC_DATASTORE_RUNNING config).ds.attr
          NC_DATASTORE.NC_DATASTORE_CANDIDATE "modified" = some "false" ∧
      (ncds_file_copyconfig x o w ds session rpc NC_DATASTORE.NC_DATASTORE_CANDIDATE
        NC_DATASTORE.NC_DATASTORE_RUNNING config).w.content =
        (ncds_file_copyconfig x o w ds session rpc NC_DATASTORE.NC_DATASTORE_CANDIDATE
          NC_DATASTORE.NC_DATASTORE_RUNNING config).ds.xml) ∧
    (∀ session rpc source config, source ≠ NC_DATASTORE.NC_DATASTORE_RUNNING →
      (ncds_file_copyconfig x o w ds session rpc NC_DATASTORE.NC_DATASTORE_CANDIDATE
        source config).ret = retcode.EXIT_SUCCESS →
      (ncds_file_copyconfig x o w ds session rpc NC_DATASTORE.NC_DATASTORE_CANDIDATE
        source config).ds.attr NC_DATASTORE.NC_DATASTORE_CANDIDATE "modified" = some "true" ∧
      (ncds_file_copyconfig x o w ds session rpc NC_DATASTORE.NC_DATASTORE_CANDIDATE
        source config).w.content =
        (ncds_file_copyconfig x o w ds session rpc NC_DATASTORE.NC_DATASTORE_CANDIDATE
          source config).ds.xml) ∧
    (∀ session out,
      ncds_file_deleteconfig o w ds session NC_DATASTORE.NC_DATASTORE_CANDIDATE = some out →
      out.ret = retcode.EXIT_SUCCESS →
      out.ds.attr NC_DATASTORE.NC_DATASTORE_CANDIDATE "modified" = some "true" ∧
      out.w.content = out.ds.xml) ∧
    (∀ session rpc config defop errop,
      (ncds_file_editconfig x o w ds session rpc NC_DATASTORE.NC_DATASTORE_CANDIDATE config
        defop errop).ret = retcode.EXIT_SUCCESS →
      (ncds_file_editconfig x o w ds session rpc NC_DATASTORE.NC_DATASTORE_CANDIDATE config
        defop errop).ds.attr NC_DATASTORE.NC_DATASTORE_CANDIDATE "modified" = some "true" ∧
      (ncds_file_editconfig x o w ds session rpc NC_DATASTORE.NC_DATASTORE_CANDIDATE config
        defop errop).w.content =
        (ncds_file_editconfig x o w ds session rpc NC_DATASTORE.NC_DATASTORE_CANDIDATE config
          defop errop).ds.xml) ∧
    (reloads o w ds → o.syncs →
      (∀ session : nc_session,
        (reloaded o w ds).attr NC_DATASTORE.NC_DATASTORE_CANDIDATE "lock" =
          some session.session_id →
        session.session_id ≠ "" → session.session_id ≠ x.INTERNAL_DUMMY_ID →
        (ncds_file_unlock x o w ds session NC_DATASTORE.NC_DATASTORE_CANDIDATE).ret =
          retcode.EXIT_SUCCESS) ∧
      (∀ (session : nc_session) rpc source config src,
        ¬ (reloaded o w ds).lockedAgainst NC_DATASTORE.NC_DATASTORE_CANDIDATE session →
        rpc.bind (fun r => r.nacm) = none →
        copyconfig_source x (reloaded o w ds) source config = .ok src →
        ¬ (src = [] ∧ (reloaded o w ds).config NC_DATASTORE.NC_DATASTORE_CANDIDATE = []) →
        (ncds_file_copyconfig x o w ds (some session) rpc NC_DATASTORE.NC_DATASTORE_CANDIDATE
          source config).ret = retcode.EXIT_SUCCESS) ∧
      (∀ session : nc_session,
        ¬ (reloaded o w ds).lockedAgainst NC_DATASTORE.NC_DATASTORE_CANDIDATE session →
        ((reloaded o w ds).linked (reloaded o w ds).candidate = true ∨
          (reloaded o w ds).config NC_DATASTORE.NC_DATASTORE_CANDIDATE = []) →
        ∃ out, ncds_file_deleteconfig o w ds (some session)
            NC_DATASTORE.NC_DATASTORE_CANDIDATE = some out ∧
          out.ret = retcode.EXIT_SUCCESS) ∧
      (∀ (session : nc_session) rpc config defop errop config_doc,
        ¬ (reloaded o w ds).lockedAgainst NC_DATASTORE.NC_DATASTORE_CANDIDATE session →
        x.xmlReadMemory config = some config_doc →
        (x.edit_config
          { children :=
              xmlDocCopyNode ((reloaded o w ds).config NC_DATASTORE.NC_DATASTORE_CANDIDATE) }
          config_doc defop errop (rpc.bind (fun r => r.nacm))).1 = 0 →
        (ncds_file_editconfig x o w ds (some session) rpc NC_DATASTORE.NC_DATASTORE_CANDIDATE
          config defop errop).ret = retcode.EXIT_SUCCESS)) := by
  have copy : ∀ session rpc source config,
      (ncds_file_copyconfig x o w ds session rpc NC_DATASTORE.NC_DATASTORE_CANDIDATE
        source config).ret = retcode.EXIT_SUCCESS →
      (ncds_file_copyconfig x o w ds session rpc NC_DATASTORE.NC_DATASTORE_CANDIDATE
        source config).ds.attr NC_DATASTORE.NC_DATASTORE_CANDIDATE "modified" =
        some (if source = NC_DATASTORE.NC_DATASTORE_RUNNING then "false" else "true") ∧
      (ncds_file_copyconfig x o w ds session rpc NC_DATASTORE.NC_DATASTORE_CANDIDATE
        source config).w.content =
        (ncds_file_copyconfig x o w ds session rpc NC_DATASTORE.NC_DATASTORE_CANDIDATE
          source config).ds.xml := by
    intro session rpc source config h
    obtain ⟨hr, p, aux, err, hp, hs, he⟩ :=
      ncds_file_copyconfig_success x o w ds session rpc _ source config h
    obtain ⟨hf1, -⟩ := reloaded_filled o w ds hfilled hr
    obtain ⟨c1, -, -, -, c5, -⟩ := copyconfig_write_spec _ hf1 _ source p hp aux
    obtain ⟨-, s3, s5⟩ := leave_synced o _ _ hs c1 retcode.EXIT_SUCCESS err
    rw [he]
    refine ⟨?_, s3⟩
    rw [ncds_ds_file.attr_congr _ _ _ (s5 _)]
    exact c5 rfl
  have hsel : ∀ ds1 : ncds_ds_file,
      ds1.select NC_DATASTORE.NC_DATASTORE_CANDIDATE = some ds1.candidate := fun _ => rfl
  have access : ∀ (ds1 : ncds_ds_file) (session : nc_session),
      ¬ ds1.lockedAgainst NC_DATASTORE.NC_DATASTORE_CANDIDATE session →
      file_ds_access ds1 NC_DATASTORE.NC_DATASTORE_CANDIDATE (some session) =
        retcode.EXIT_SUCCESS := by
    intro ds1 session hacc
    by_contra hc
    exact hacc ((file_ds_access_some ds1 _ (Or.inr (Or.inr rfl)) session).1 hc)
  refine ⟨?_, ?_, ?_, ?_, ?_, ?_⟩
  · intro session h
    obtain ⟨hr, hl, h1, h2, hs⟩ :=
      ncds_file_unlock_success x o w ds session _ (Or.inr (Or.inr rfl)) h
    obtain ⟨-, -, u3, -, -, -, u7, -⟩ :=
      ncds_file_unlock_candidate x o w ds session hfilled hr hl h1 h2 hs
    exact ⟨u3, u7⟩
  · intro session rpc config h
    simpa using copy session rpc _ config h
  · intro session rpc source config hsrc h
    simpa [hsrc] using copy session rpc source config h
  · intro session out hout h
    obtain ⟨hr, -, p, hp, hs, he⟩ := ncds_file_deleteconfig_success o w ds session _ out hout h
    obtain ⟨hf1, -⟩ := reloaded_filled o w ds hfilled hr
    obtain ⟨fA, pA, hA, nA⟩ := assign_step _ hf1 _ p hp
      (xmlUnlinkNode_first ((reloaded o w ds).linked p)) (fun m => by simp)
    obtain ⟨c1, -, -, -, c5, -⟩ := mark_spec _ _ hf1 _ p hp _ (fun m => by simp) fA pA hA nA
    obtain ⟨-, s3, s5⟩ := leave_synced o _ _ hs c1 retcode.EXIT_SUCCESS none
    rw [he]
    refine ⟨?_, s3⟩
    rw [ncds_ds_file.attr_congr _ _ _ (s5 _)]
    exact c5 rfl
  · intro session rpc config defop errop h
    obtain ⟨hr, p, edited, err, hp, hs, he⟩ :=
      ncds_file_editconfig_success x o w ds session rpc _ config defop errop h
    obtain ⟨hf1, -⟩ := reloaded_filled o w ds hfilled hr
    obtain ⟨fA, pA, hA, nA⟩ := hang_step _ hf1 _ p hp edited
    obtain ⟨c1, -, -, -, c5, -⟩ := mark_spec _ _ hf1 _ p hp _ (fun m => by simp) fA pA hA nA
    obtain ⟨-, s3, s5⟩ := leave_synced o _ _ hs c1 retcode.EXIT_SUCCESS err
    rw [he]
    refine ⟨?_, s3⟩
    rw [ncds_ds_file.attr_congr _ _ _ (s5 _)]
    exact c5 rfl
  · intro hr hsync
    obtain ⟨hf1, hh1⟩ := reloaded_filled o w ds hfilled hr
    refine ⟨?_, ?_, ?_, ?_⟩
    · intro session hl h1 h2
      exact (ncds_file_unlock_candidate x o w ds session hfilled hr hl h1 h2 hsync).1
    · intro session rpc source config src hacc hnacm hsrc hne
      rw [ncds_file_copyconfig_copies x o w ds session rpc _ source config _ src hr (hsel _)
        hsrc hacc (by rintro ⟨-, h, -⟩; cases h) hnacm hne]
      obtain ⟨c1, c2, -⟩ := copyconfig_write_spec _ hf1 NC_DATASTORE.NC_DATASTORE_CANDIDATE
        source _ (hsel _) { children := src.take 1 }
      obtain ⟨s1, -⟩ := leave_sync o (LOCK w ds).1 _ hsync (by rw [c2]; exact hh1) c1
        retcode.EXIT_SUCCESS none
      unfold sync_and_leave
      rw [if_neg (fun h => h s1)]
      rfl
    · intro session hacc hl
      have hl' : (reloaded o w ds).linked (reloaded o w ds).candidate = true ∨
          (reloaded o w ds).childrenOf (reloaded o w ds).candidate = [] := by
        rw [(reloaded o w ds).config_of_select _ _ (hsel _)]
        exact hl
      refine ⟨_, ncds_file_deleteconfig_ok o w ds (some session) _ _ hr (by decide) (hsel _)
        (access _ session hacc) hl', ?_⟩
      obtain ⟨fA, pA, hA, nA⟩ := assign_step _ hf1 _ _ (hsel (reloaded o w ds))
        (xmlUnlinkNode_first ((reloaded o w ds).linked (reloaded o w ds).candidate))
        (fun m => by simp)
      obtain ⟨c1, c2, -⟩ := mark_spec _ _ hf1 _ _ (hsel _) _ (fun m => by simp) fA pA hA nA
      obtain ⟨s1, -⟩ := leave_sync o (LOCK w ds).1 _ hsync (by rw [c2]; exact hh1) c1
        retcode.EXIT_SUCCESS none
      unfold sync_and_leave
      rw [if_neg (fun h => h s1)]
      rfl
    · intro session rpc config defop errop config_doc hacc hcfg he
      rw [← (reloaded o w ds).config_of_select _ _ (hsel _)] at he
      rw [ncds_file_editconfig_ok x o w ds (some session) rpc _ config defop errop _ config_doc
        hr (hsel _) (access _ session hacc) hcfg he]
      obtain ⟨fA, pA, hA, nA⟩ := hang_step _ hf1 _ _ (hsel (reloaded o w ds))
        (xmlDocCopyNode (x.edit_config
          { children := xmlDocCopyNode
              ((reloaded o w ds).childrenOf (reloaded o w ds).candidate) }
          config_doc defop errop (rpc.bind (fun r => r.nacm))).2.1.children)
      obtain ⟨c1, c2, -⟩ := mark_spec _ _ hf1 _ _ (hsel _) _ (fun m => by simp) fA pA hA nA
      obtain ⟨s1, -⟩ := leave_sync o (LOCK w ds).1 _ hsync (by rw [c2]; exact hh1) c1
        retcode.EXIT_SUCCESS none
      unfold sync_and_leave
      rw [if_neg (fun h => h s1)]
      rfl

/-- C6, the code at a commit of a candidate with two children: the copy from
the candidate into running returns success, the candidate still holds `<a/>`
and `<b/>`, and running holds `<a/>` alone, so running's children are not
the children the source had before the call. -/
theorem commit_drops_siblings :
    (opened commitFrame).config NC_DATASTORE.NC_DATASTORE_CANDIDATE =
      [element "a" [] [], element "b" [] []] ∧
    (ncds_file_copyconfig plainExt calm (onDisk commitFrame) (opened commitFrame) (some S1) none
      NC_DATASTORE.NC_DATASTORE_RUNNING NC_DATASTORE.NC_DATASTORE_CANDIDATE none).ret =
      retcode.EXIT_SUCCESS ∧
    (ncds_file_copyconfig plainExt calm (onDisk commitFrame) (opened commitFrame) (some S1) none
      NC_DATASTORE.NC_DATASTORE_RUNNING NC_DATASTORE.NC_DATASTORE_CANDIDATE none).ds.config
        NC_DATASTORE.NC_DATASTORE_CANDIDATE = [element "a" [] [], element "b" [] []] ∧
    (ncds_file_copyconfig plainExt calm (onDisk commitFrame) (opened commitFrame) (some S1) none
      NC_DATASTORE.NC_DATASTORE_RUNNING NC_DATASTORE.NC_DATASTORE_CANDIDATE none).ds.config
        NC_DATASTORE.NC_DATASTORE_RUNNING = [element "a" [] []] ∧
    (ncds_file_copyconfig plainExt calm (onDisk commitFrame) (opened commitFrame) (some S1) none
      NC_DATASTORE.NC_DATASTORE_RUNNING NC_DATASTORE.NC_DATASTORE_CANDIDATE none).ds.config
        NC_DATASTORE.NC_DATASTORE_RUNNING ≠
      (opened commitFrame).config NC_DATASTORE.NC_DATASTORE_CANDIDATE :=
  ⟨rfl, rfl, rfl, rfl, fun h => absurd (congrArg List.length h) (by decide)⟩

/-- C10, the code at a startup datastore with two children: the delete
returns success and startup still holds `<b/>`. -/
theorem deleteconfig_leaves_siblings :
    (opened startupTwoFrame).config NC_DATASTORE.NC_DATASTORE_STARTUP =
      [element "a" [] [], element "b" [] []] ∧
    (ncds_file_deleteconfig calm (onDisk startupTwoFrame) (opened startupTwoFrame) (some S1)
      NC_DATASTORE.NC_DATASTORE_STARTUP).map (fun out => out.ret) =
      some retcode.EXIT_SUCCESS ∧
    (ncds_file_deleteconfig calm (onDisk startupTwoFrame) (opened startupTwoFrame) (some S1)
      NC_DATASTORE.NC_DATASTORE_STARTUP).map
        (fun out => out.ds.config NC_DATASTORE.NC_DATASTORE_STARTUP) =
      some [element "b" [] []] ∧
    (ncds_file_deleteconfig calm (onDisk startupTwoFrame) (opened startupTwoFrame) (some S1)
      NC_DATASTORE.NC_DATASTORE_STARTUP).map
        (fun out => out.ds.config NC_DATASTORE.NC_DATASTORE_STARTUP) ≠ some [] := by
  decide

/-- C9 fails when running and candidate are both empty: with the unlocked
candidate marked modified, the copy from running into the candidate by `S1`
returns not-applicable, the mark stays "true", and the lock request that
follows is refused as already modified. -/
theorem copy_from_running_keeps_mark_when_empty :
    (opened emptyModifiedFrame).attr NC_DATASTORE.NC_DATASTORE_CANDIDATE "lock" = some "" ∧
    (opened emptyModifiedFrame).attr NC_DATASTORE.NC_DATASTORE_CANDIDATE "modified" =
      some "true" ∧
    (ncds_file_copyconfig plainExt calm (onDisk emptyModifiedFrame) (opened emptyModifiedFrame)
      (some S1) none NC_DATASTORE.NC_DATASTORE_CANDIDATE NC_DATASTORE.NC_DATASTORE_RUNNING
      none).ret = retcode.EXIT_RPC_NOT_APPLICABLE ∧
    (ncds_file_copyconfig plainExt calm (onDisk emptyModifiedFrame) (opened emptyModifiedFrame)
      (some S1) none NC_DATASTORE.NC_DATASTORE_CANDIDATE NC_DATASTORE.NC_DATASTORE_RUNNING
      none).ds.attr NC_DATASTORE.NC_DATASTORE_CANDIDATE "modified" = some "true" ∧
    (ncds_file_lock plainExt calm
      (ncds_file_copyconfig plainExt calm (onDisk emptyModifiedFrame)
        (opened emptyModifiedFrame) (some S1) none NC_DATASTORE.NC_DATASTORE_CANDIDATE
        NC_DATASTORE.NC_DATASTORE_RUNNING none).w
      (ncds_file_copyconfig plainExt calm (onDisk emptyModifiedFrame)
        (opened emptyModifiedFrame) (some S1) none NC_DATASTORE.NC_DATASTORE_CANDIDATE
        NC_DATASTORE.NC_DATASTORE_RUNNING none).ds
      S1 NC_DATASTORE.NC_DATASTORE_CANDIDATE).error =
      some { kind := NC_ERR.NC_ERR_LOCK_DENIED,
             message := some "Candidate datastore not locked but already modified.",
             sid := none, badelem := none } := by
  decide

/-- C9 as amended: on a filled datastore whose candidate is unlocked and
marked modified, (a) every `ncds_file_copyconfig` from running into the
candidate that returns success leaves the mark "false", after which a lock
request on the candidate by any session is not refused as already modified
and succeeds when its synchronisation does; (b) the copy returns success
whenever running or the candidate holds a child, no NACM context is attached
and the synchronisation succeeds; (c) when both are empty the copy returns
not-applicable and the mark stays "true". -/
theorem copy_from_running_resets_mark (x : Ext) (o : Oracle) (w : World) (ds : ncds_ds_file)
    (session : nc_session) (rpc : Option nc_rpc) (config : Option String)
    (hfilled : ds.filled) (hreload : reloads o w ds)
    (hlock : (reloaded o w ds).attr NC_DATASTORE.NC_DATASTORE_CANDIDATE "lock" = some "")
    (hmod : (reloaded o w ds).attr NC_DATASTORE.NC_DATASTORE_CANDIDATE "modified" =
      some "true") :
    ((ncds_file_copyconfig x o w ds (some session) rpc NC_DATASTORE.NC_DATASTORE_CANDIDATE
        NC_DATASTORE.NC_DATASTORE_RUNNING config).ret = retcode.EXIT_SUCCESS →
      (ncds_file_copyconfig x o w ds (some session) rpc NC_DATASTORE.NC_DATASTORE_CANDIDATE
        NC_DATASTORE.NC_DATASTORE_RUNNING config).ds.attr
          NC_DATASTORE.NC_DATASTORE_CANDIDATE "modified" = some "false" ∧
      ∀ (x' : Ext) (o' : Oracle) (session' : nc_session),
        (ncds_file_lock x' o'
          (ncds_file_copyconfig x o w ds (some session) rpc NC_DATASTORE.NC_DATASTORE_CANDIDATE
            NC_DATASTORE.NC_DATASTORE_RUNNING config).w
          (ncds_file_copyconfig x o w ds (some session) rpc NC_DATASTORE.NC_DATASTORE_CANDIDATE
            NC_DATASTORE.NC_DATASTORE_RUNNING config).ds
          session' NC_DATASTORE.NC_DATASTORE_CANDIDATE).error ≠
          some { kind := NC_ERR.NC_ERR_LOCK_DENIED,
                 message := some "Candidate datastore not locked but already modified.",
                 sid := none, badelem := none } ∧
        (o'.syncs →
          (ncds_file_lock x' o'
            (ncds_file_copyconfig x o w ds (some session) rpc
              NC_DATASTORE.NC_DATASTORE_CANDIDATE NC_DATASTORE.NC_DATASTORE_RUNNING config).w
            (ncds_file_copyconfig x o w ds (some session) rpc
              NC_DATASTORE.NC_DATASTORE_CANDIDATE NC_DATASTORE.NC_DATASTORE_RUNNING config).ds
            session' NC_DATASTORE.NC_DATASTORE_CANDIDATE).ret = retcode.EXIT_SUCCESS)) ∧
    (¬ ((reloaded o w ds).config NC_DATASTORE.NC_DATASTORE_RUNNING = [] ∧
        (reloaded o w ds).config NC_DATASTORE.NC_DATASTORE_CANDIDATE = []) →
      rpc.bind (fun r => r.nacm) = none → o.syncs →
      (ncds_file_copyconfig x o w ds (some session) rpc NC_DATASTORE.NC_DATASTORE_CANDIDATE
        NC_DATASTORE.NC_DATASTORE_RUNNING config).ret = retcode.EXIT_SUCCESS) ∧
    ((reloaded o w ds).config NC_DATASTORE.NC_DATASTORE_RUNNING = [] ∧
        (reloaded o w ds).config NC_DATASTORE.NC_DATASTORE_CANDIDATE = [] →
      (ncds_file_copyconfig x o w ds (some session) rpc NC_DATASTORE.NC_DATASTORE_CANDIDATE
        NC_DATASTORE.NC_DATASTORE_RUNNING config).ret = retcode.EXIT_RPC_NOT_APPLICABLE ∧
      (ncds_file_copyconfig x o w ds (some session) rpc NC_DATASTORE.NC_DATASTORE_CANDIDATE
        NC_DATASTORE.NC_DATASTORE_RUNNING config).ds.attr
          NC_DATASTORE.NC_DATASTORE_CANDIDATE "modified" = some "true") := by
  obtain ⟨hf1, hh1⟩ := reloaded_filled o w ds hfilled hreload
  have hacc : ¬ (reloaded o w ds).lockedAgainst NC_DATASTORE.NC_DATASTORE_CANDIDATE session :=
    fun h => h.1 hlock
  have hcommit : ¬ (NC_DATASTORE.NC_DATASTORE_RUNNING = NC_DATASTORE.NC_DATASTORE_CANDIDATE ∧
      NC_DATASTORE.NC_DATASTORE_CANDIDATE = NC_DATASTORE.NC_DATASTORE_RUNNING ∧
      (reloaded o w ds).lockedAgainst NC_DATASTORE.NC_DATASTORE_CANDIDATE session) := by
    rintro ⟨h, -⟩
    cases h
  refine ⟨?_, ?_, ?_⟩
  · intro h
    obtain ⟨-, p, aux, err, hp, hs, he⟩ :=
      ncds_file_copyconfig_success x o w ds (some session) rpc _ _ config h
    obtain ⟨c1, -, -, -, c5, c6⟩ := copyconfig_write_spec _ hf1 _
      NC_DATASTORE.NC_DATASTORE_RUNNING p hp aux
    obtain ⟨s2, s3, s5⟩ := leave_synced o _ _ hs c1 retcode.EXIT_SUCCESS err
    rw [he]
    have hm : ∀ ds' : ncds_ds_file, ds'.node NC_DATASTORE.NC_DATASTORE_CANDIDATE =
        (leave retcode.EXIT_SUCCESS err
          (file_sync o (LOCK w ds).1 (copyconfig_write (reloaded o w ds) p
            NC_DATASTORE.NC_DATASTORE_CANDIDATE NC_DATASTORE.NC_DATASTORE_RUNNING aux)).2.1
          (file_sync o (LOCK w ds).1 (copyconfig_write (reloaded o w ds) p
            NC_DATASTORE.NC_DATASTORE_CANDIDATE NC_DATASTORE.NC_DATASTORE_RUNNING aux)).2.2).ds.node
          NC_DATASTORE.NC_DATASTORE_CANDIDATE →
        ds'.attr NC_DATASTORE.NC_DATASTORE_CANDIDATE "modified" = some "false" ∧
        ds'.attr NC_DATASTORE.NC_DATASTORE_CANDIDATE "lock" = some "" := by
      intro ds' hd
      have hnode := hd.trans (s5 _)
      rw [ncds_ds_file.attr_congr _ _ _ hnode, ncds_ds_file.attr_congr _ _ _ hnode]
      exact ⟨by simpa using c5 rfl, by rw [c6 "lock" (by decide)]; exact hlock⟩
    refine ⟨(hm _ rfl).1, ?_⟩
    intro x' o' session'
    exact ncds_file_lock_after x' o' _ _ session' s2 s3 (hm _ rfl).2
      (fun hc => absurd ((hm _ rfl).1.symm.trans hc) (by simp))
  · intro hne hnacm hsync
    rw [ncds_file_copyconfig_stored x o w ds session rpc NC_DATASTORE.NC_DATASTORE_CANDIDATE
      NC_DATASTORE.NC_DATASTORE_RUNNING config (reloaded o w ds).candidate hreload rfl
      (Or.inl rfl) hacc hcommit hnacm hne]
    obtain ⟨c1, c2, -⟩ := copyconfig_write_spec _ hf1 NC_DATASTORE.NC_DATASTORE_CANDIDATE
      NC_DATASTORE.NC_DATASTORE_RUNNING (reloaded o w ds).candidate rfl
      { children := ((reloaded o w ds).config NC_DATASTORE.NC_DATASTORE_RUNNING).take 1 }
    have s1 := (leave_sync o (LOCK w ds).1 _ hsync (by rw [c2]; exact hh1) c1
      retcode.EXIT_SUCCESS none).1
    simp only [sync_and_leave, s1, ne_eq, not_true_eq_false, if_false]
    rfl
  · intro he
    rw [ncds_file_copyconfig_not_applicable x o w ds session rpc _ _ config hreload
      (Or.inr (Or.inr rfl)) (Or.inl rfl) hacc hcommit he]
    refine ⟨rfl, ?_⟩
    rw [ncds_ds_file.attr_congr _ _ _ (leave_node _ _ _ _ _)]
    exact hmod

/-- C11: `ncds_file_deleteconfig` of the running datastore returns, and fails,
for every datastore structure, world and session, whatever the `lock`
attribute of running holds: it returns failure and writes nothing (document, node handles
and backing file stay as the reload left them), and once the reload has
succeeded the error is operation-failed with the message
"Cannot delete a running datastore." -/
theorem deleteconfig_running_refused (o : Oracle) (w : World) (ds : ncds_ds_file)
    (session : Option nc_session) :
    ∃ out, ncds_file_deleteconfig o w ds session NC_DATASTORE.NC_DATASTORE_RUNNING = some out ∧
      out.ret = retcode.EXIT_FAILURE ∧
      out.untouched w (reloaded o w ds) ∧
      (reloads o w ds →
        out.error =
          some { kind := NC_ERR.NC_ERR_OP_FAILED,
                 message := some "Cannot delete a running datastore.",
                 sid := none, badelem := none }) := by
  unfold reloads reloaded
  simp only [ncds_file_deleteconfig, ne_eq, if_true]
  by_cases hr : (file_reload o (LOCK w ds).1 (LOCK w ds).2).1 = retcode.EXIT_SUCCESS
  · simp only [hr, not_true_eq_false, if_false]
    exact ⟨_, rfl, rfl, ⟨rfl, rfl, rfl, rfl, rfl, rfl⟩, fun _ => rfl⟩
  · simp only [hr, not_false_eq_true, if_true]
    exact ⟨_, rfl, rfl, ⟨rfl, rfl, rfl, rfl, rfl, rfl⟩, fun h => absurd h (by simp)⟩

/-- C12, the code at a file with a stale lock: the file holds the frame in
which `S1` has locked the candidate.  `ncds_file_init` succeeds and clears
the three `lock` attributes in the document of the structure, but the file
still holds the lock of `S1`; the reload of the first operation reads it
back, and the lock request of `S2` on the candidate is refused with `S1` as
the holder. -/
theorem init_leaves_stale_lock_in_file :
    (ncds_file_init quiet (onDisk candidateLockedFrame) unopened).ret = retcode.EXIT_SUCCESS ∧
    (ncds_file_init quiet (onDisk candidateLockedFrame) unopened).ds.attr
      NC_DATASTORE.NC_DATASTORE_RUNNING "lock" = some "" ∧
    (ncds_file_init quiet (onDisk candidateLockedFrame) unopened).ds.attr
      NC_DATASTORE.NC_DATASTORE_STARTUP "lock" = some "" ∧
    (ncds_file_init quiet (onDisk candidateLockedFrame) unopened).ds.attr
      NC_DATASTORE.NC_DATASTORE_CANDIDATE "lock" = some "" ∧
    (ncds_file_init quiet (onDisk candidateLockedFrame) unopened).w.content =
      some candidateLockedFrame ∧
    (reloaded calm (ncds_file_init quiet (onDisk candidateLockedFrame) unopened).w
      (ncds_file_init quiet (onDisk candidateLockedFrame) unopened).ds).attr
      NC_DATASTORE.NC_DATASTORE_CANDIDATE "lock" = some "S1" ∧
    (ncds_file_lock plainExt calm (ncds_file_init quiet (onDisk candidateLockedFrame) unopened).w
      (ncds_file_init quiet (onDisk candidateLockedFrame) unopened).ds S2
      NC_DATASTORE.NC_DATASTORE_CANDIDATE).ret = retcode.EXIT_FAILURE ∧
    (ncds_file_lock plainExt calm (ncds_file_init quiet (onDisk candidateLockedFrame) unopened).w
      (ncds_file_init quiet (onDisk candidateLockedFrame) unopened).ds S2
      NC_DATASTORE.NC_DATASTORE_CANDIDATE).error =
      some { kind := NC_ERR.NC_ERR_LOCK_DENIED, message := none, sid := some "S1",
             badelem := none } := by
  decide

/-- C13, the code at a file with a stale lock: after a successful
`ncds_file_init` on the frame in which `S1` has locked the candidate, the
candidate of the structure has an empty `lock` and a non-empty `locktime`. -/
theorem init_leaves_locktime :
    file_structure_check candidateLockedFrame = true ∧
    (ncds_file_init quiet (onDisk candidateLockedFrame) unopened).ret = retcode.EXIT_SUCCESS ∧
    (ncds_file_init quiet (onDisk candidateLockedFrame) unopened).ds.attr
      NC_DATASTORE.NC_DATASTORE_CANDIDATE "lock" = some "" ∧
    (ncds_file_init quiet (onDisk candidateLockedFrame) unopened).ds.attr
      NC_DATASTORE.NC_DATASTORE_CANDIDATE "locktime" = some "2012-12-24T18:00:00Z" := by
  decide

/-- C17, evaluated: a structure that holds the mutex and was last synchronised
at time 50 reloads a file whose modification time is 50 as well.  The file is
read again: the document of the file replaces the one in memory and
`last_access` moves to the time of the call. -/
theorem reload_rereads_at_equal_mtime :
    holdingAt50.holding_lock = true ∧
    writtenAt50.st_mtime = some holdingAt50.last_access ∧
    holdingAt50.xml = some emptyFrame ∧
    (file_reload calm writtenAt50 holdingAt50).1 = retcode.EXIT_SUCCESS ∧
    (file_reload calm writtenAt50 holdingAt50).2.xml = some candidateLockedFrame ∧
    (file_reload calm writtenAt50 holdingAt50).2.xml ≠ holdingAt50.xml ∧
    (file_reload calm writtenAt50 holdingAt50).2.last_access = 100 ∧
    (file_reload calm writtenAt50 holdingAt50).2 ≠ holdingAt50 := by
  decide

/-- C17, as the code has it: for a structure that holds the mutex and a file
that `stat` finds with modification time `m`, `file_reload` returns success
and leaves the structure as it is when `m` is strictly below `last_access`;
when `m` is equal to or above `last_access` the file is read again: the reload
fails, leaving the structure as it is, when the file does not parse or
`file_fill_dsnodes` fails on the parsed document, and otherwise succeeds with
the parsed document installed, the three handles set in it, and `last_access`
set to the time of the call (0 when `time` fails). -/
theorem file_reload_mtime (o : Oracle) (w : World) (ds : ncds_ds_file) (m : Int)
    (hh : ds.holding_lock = true) (hm : w.st_mtime = some m) :
    (m < ds.last_access → file_reload o w ds = (retcode.EXIT_SUCCESS, ds)) ∧
    (ds.last_access ≤ m →
      (w.content = none → file_reload o w ds = (retcode.EXIT_FAILURE, ds)) ∧
      (∀ doc, w.content = some doc →
        (file_fill_dsnodes { ds with xml := some doc }).1 ≠ retcode.EXIT_SUCCESS →
        file_reload o w ds = (retcode.EXIT_FAILURE, ds)) ∧
      (∀ doc, w.content = some doc →
        (file_fill_dsnodes { ds with xml := some doc }).1 = retcode.EXIT_SUCCESS →
        (file_reload o w ds).1 = retcode.EXIT_SUCCESS ∧
        (file_reload o w ds).2.xml = some doc ∧
        (file_reload o w ds).2.filled ∧
        (file_reload o w ds).2.last_access = if o.time_reload = -1 then 0 else o.time_reload)) := by
  constructor
  · intro hlt
    exact file_reload_skip o w ds hh ((skips_iff w ds m hm).2 hlt)
  · intro hle
    have hs : skips w ds = false := by
      rw [Bool.eq_false_iff]
      intro h
      have := (skips_iff w ds m hm).1 h
      omega
    rw [file_reload_reread o w ds hh hs]
    refine ⟨?_, ?_, ?_⟩
    · intro hc
      rw [hc]
    · intro doc hc hf
      rw [hc]
      simp only
      rw [if_neg hf]
    · intro doc hc hf
      rw [hc]
      simp only
      rw [if_pos hf]
      have h4 := file_fill_dsnodes_filled _ hf
      exact ⟨rfl, h4.2.1, ncds_ds_file.filled_congr _ _ h4.1 rfl rfl rfl rfl, rfl⟩

/-- C16, evaluated: the file holds a document whose root is named `store`, so
`file_structure_check` rejects it; a structure that holds the mutex reads the
file again, and the reload succeeds and installs that document. -/
theorem reload_installs_renamed_root :
    file_structure_check renamedRootDoc = false ∧
    holdingAt50.holding_lock = true ∧
    skips renamedAt60 holdingAt50 = false ∧
    renamedAt60.content = some renamedRootDoc ∧
    (file_reload calm renamedAt60 holdingAt50).1 = retcode.EXIT_SUCCESS ∧
    (file_reload calm renamedAt60 holdingAt50).2.xml = some renamedRootDoc ∧
    (file_reload calm renamedAt60 holdingAt50).2.xml ≠ holdingAt50.xml := by
  decide

/-- C16, as the code has it: when a structure that holds the mutex reads the
file again, `file_reload` succeeds exactly when the file parses to a document
that has a first top-level node among whose children, of whatever type,
exactly one is named `running`, one `startup` and one `candidate` (the name of
the top-level node is not looked at, and `file_structure_check` is not
called).  When it does not succeed it returns failure and leaves the document,
the handles and `last_access` as they were; when it succeeds the parsed
document is installed with the three handles set in it. -/
theorem file_reload_installs (o : Oracle) (w : World) (ds : ncds_ds_file)
    (hh : ds.holding_lock = true) (hs : skips w ds = false) :
    ((file_reload o w ds).1 = retcode.EXIT_SUCCESS ↔
      ∃ doc, w.content = some doc ∧ named_once doc) ∧
    ((file_reload o w ds).1 ≠ retcode.EXIT_SUCCESS →
      file_reload o w ds = (retcode.EXIT_FAILURE, ds)) ∧
    (∀ doc, w.content = some doc → named_once doc →
      (file_reload o w ds).2.xml = some doc ∧ (file_reload o w ds).2.filled) := by
  rw [file_reload_reread o w ds hh hs]
  cases hc : w.content with
  | none => simp
  | some doc =>
    have hiff := file_fill_dsnodes_iff { ds with xml := some doc }
    simp only [Option.some.injEq, exists_eq_left'] at hiff ⊢
    by_cases hf : (file_fill_dsnodes { ds with xml := some doc }).1 = retcode.EXIT_SUCCESS
    · rw [if_pos hf]
      have h4 := file_fill_dsnodes_filled _ hf
      refine ⟨⟨fun _ => hiff.1 hf, fun _ => rfl⟩, fun h => absurd rfl h, ?_⟩
      intro doc' hd _
      subst hd
      exact ⟨h4.2.1, ncds_ds_file.filled_congr _ _ h4.1 rfl rfl rfl rfl⟩
    · rw [if_neg hf]
      refine ⟨⟨fun h => by simp at h, fun h => absurd (hiff.2 h) hf⟩, fun _ => rfl, ?_⟩
      intro doc' hd hn
      subst hd
      exact absurd (hiff.2 hn) hf

/-- C14, evaluated: for the path `/tmp/x.xml` the semaphore name is
`/NCDS_FLOCK__tmp_x.xml`, not `/_tmp_x.xml`; a successful `ncds_file_init` on
that path opens the semaphore under that name. -/
theorem sem_name_has_prefix :
    sem_name "/tmp/x.xml" = "/NCDS_FLOCK__tmp_x.xml" ∧
    "/" ++ underscored "/tmp/x.xml" = "/_tmp_x.xml" ∧
    sem_name "/tmp/x.xml" ≠ "/" ++ underscored "/tmp/x.xml" ∧
    (ncds_file_init quiet (onDisk emptyFrame) unopened).ret = retcode.EXIT_SUCCESS ∧
    (ncds_file_init quiet (onDisk emptyFrame) unopened).ds.path = "/tmp/x.xml" ∧
    (ncds_file_init quiet (onDisk emptyFrame) unopened).sempath =
      some "/NCDS_FLOCK__tmp_x.xml" := by
  refine ⟨?_, by decide, ?_, by decide, by decide, ?_⟩
  · rw [sem_name_eq]
    decide
  · rw [sem_name_eq]
    decide
  · rw [ncds_file_init_sempath _ _ _ (by decide), sem_name_eq]
    decide

/-- C14, as the code has it: for every path the semaphore name is the prefix
`/NCDS_FLOCK_` followed by the path with each `/` replaced by `_`, and a
successful `ncds_file_init` opens the semaphore under the name so built from
the path the structure then holds. -/
theorem sem_name_spec (path : String) (i : InitOracle) (w : World) (ds : ncds_ds_file) :
    sem_name path = "/NCDS_FLOCK_" ++ underscored path ∧
    ((ncds_file_init i w ds).ret = retcode.EXIT_SUCCESS →
      (ncds_file_init i w ds).sempath =
        some ("/NCDS_FLOCK_" ++ underscored (ncds_file_init i w ds).ds.path)) := by
  refine ⟨sem_name_eq path, fun h => ?_⟩
  rw [ncds_file_init_sempath i w ds h, sem_name_eq]

/-- Every return of the seven operations releases the mutex: each of
`ncds_file_lockinfo`, `ncds_file_lock`, `ncds_file_unlock`,
`ncds_file_getconfig`, `ncds_file_copyconfig`, `ncds_file_deleteconfig` and
`ncds_file_editconfig`, whenever it returns, has issued one `sem_wait`
followed by one `sem_post` on the semaphore, has cleared `holding_lock`, and
has put the signal mask of the entry back in force.  Five of them return on
every input.  The call of `ncds_file_lockinfo` does not return exactly when it
reaches `strlen` with the `NULL` of an absent `lock` attribute, and the call
of `ncds_file_deleteconfig` exactly when it frees a child that stays linked. -/
theorem mutex_released_on_return (x : Ext) (o : Oracle) (w : World) (ds : ncds_ds_file) :
    (∀ target out, ncds_file_lockinfo o w ds target = some out → released w out.w out.ds) ∧
    (∀ target, ncds_file_lockinfo o w ds target = none ↔
      reloads o w ds ∧ target.stored ∧ (reloaded o w ds).attr target "lock" = none) ∧
    (∀ session target,
      released w (ncds_file_lock x o w ds session target).w
        (ncds_file_lock x o w ds session target).ds) ∧
    (∀ session target,
      released w (ncds_file_unlock x o w ds session target).w
        (ncds_file_unlock x o w ds session target).ds) ∧
    (∀ xmlNodeDump buffer_ok source,
      released w (ncds_file_getconfig xmlNodeDump buffer_ok o w ds source).w
        (ncds_file_getconfig xmlNodeDump buffer_ok o w ds source).ds) ∧
    (∀ session rpc target source config,
      released w (ncds_file_copyconfig x o w ds session rpc target source config).w
        (ncds_file_copyconfig x o w ds session rpc target source config).ds) ∧
    (∀ session target out, ncds_file_deleteconfig o w ds session target = some out →
      released w out.w out.ds) ∧
    (∀ session target, ncds_file_deleteconfig o w ds session target = none ↔
      reloads o w ds ∧ target ≠ NC_DATASTORE.NC_DATASTORE_RUNNING ∧
      ∃ p, (reloaded o w ds).select target = some p ∧
        file_ds_access (reloaded o w ds) target session = retcode.EXIT_SUCCESS ∧
        (reloaded o w ds).linked p = false ∧ (reloaded o w ds).childrenOf p ≠ []) ∧
    (∀ session rpc target config defop errop,
      released w (ncds_file_editconfig x o w ds session rpc target config defop errop).w
        (ncds_file_editconfig x o w ds session rpc target config defop errop).ds) :=
  ⟨fun target out h => ncds_file_lockinfo_released o w ds target out h,
   fun target => ncds_file_lockinfo_none_iff o w ds target,
   fun session target => ncds_file_lock_released x o w ds session target,
   fun session target => ncds_file_unlock_released x o w ds session target,
   fun xmlNodeDump buffer_ok source =>
     ncds_file_getconfig_released xmlNodeDump buffer_ok o w ds source,
   fun session rpc target source config =>
     ncds_file_copyconfig_released x o w ds session rpc target source config,
   fun session target out h => ncds_file_deleteconfig_released o w ds session target out h,
   fun session target => ncds_file_deleteconfig_none_iff o w ds session target,
   fun session rpc target config defop errop =>
     ncds_file_editconfig_released x o w ds session rpc target config defop errop⟩

/-- C15, the code at a file whose `running` element has no `lock` attribute.
The file passes `file_structure_check` and `ncds_file_init` succeeds on it.
The request for the lock information of running that follows takes the mutex
(one `sem_wait`, all signals blocked), reads the file again, finds no `lock`
attribute and calls `strlen (NULL)`: it never reaches `UNLOCK`, so no
`sem_post` follows the `sem_wait`. -/
theorem lockinfo_dies_holding_mutex :
    file_structure_check noLockFrame = true ∧
    (ncds_file_init quiet (onDisk noLockFrame) unopened).ret = retcode.EXIT_SUCCESS ∧
    (ncds_file_init quiet (onDisk noLockFrame) unopened).ds.holding_lock = false ∧
    reloads calm (ncds_file_init quiet (onDisk noLockFrame) unopened).w
      (ncds_file_init quiet (onDisk noLockFrame) unopened).ds ∧
    (reloaded calm (ncds_file_init quiet (onDisk noLockFrame) unopened).w
      (ncds_file_init quiet (onDisk noLockFrame) unopened).ds).attr
      NC_DATASTORE.NC_DATASTORE_RUNNING "lock" = none ∧
    ncds_file_lockinfo calm (ncds_file_init quiet (onDisk noLockFrame) unopened).w
      (ncds_file_init quiet (onDisk noLockFrame) unopened).ds
      NC_DATASTORE.NC_DATASTORE_RUNNING = none ∧
    (LOCK (ncds_file_init quiet (onDisk noLockFrame) unopened).w
      (ncds_file_init quiet (onDisk noLockFrame) unopened).ds).1.sem = [sem_op.sem_wait] ∧
    (LOCK (ncds_file_init quiet (onDisk noLockFrame) unopened).w
      (ncds_file_init quiet (onDisk noLockFrame) unopened).ds).1.sigmask = sigset_t.filled ∧
    (reloaded calm (ncds_file_init quiet (onDisk noLockFrame) unopened).w
      (ncds_file_init quiet (onDisk noLockFrame) unopened).ds).holding_lock = true := by
  decide

/-- C2 at work: with `S1` holding the candidate, the request of `S2` is
refused and the error names `S1`. -/
theorem lock_denied_when_locked_witness :
    reloads calm (onDisk candidateLockedFrame) (opened candidateLockedFrame) ∧
    (ncds_file_lock plainExt calm (onDisk candidateLockedFrame) (opened candidateLockedFrame) S2
      NC_DATASTORE.NC_DATASTORE_CANDIDATE).error =
      some { kind := NC_ERR.NC_ERR_LOCK_DENIED, message := none, sid := some "S1",
             badelem := none } :=
  ⟨by decide,
   (lock_denied_when_locked plainExt calm (onDisk candidateLockedFrame)
      (opened candidateLockedFrame) S2 NC_DATASTORE.NC_DATASTORE_CANDIDATE "S1"
      (by decide) (by decide) (by decide) (by decide) (by decide)).2.1⟩

/-- C3 at work: `S1` asks for the lock on a candidate it has edited without
locking, and on the untouched candidate of the empty frame. -/
theorem lock_candidate_modified_witness :
    (ncds_file_lock plainExt calm (onDisk candidateModifiedFrame) (opened candidateModifiedFrame)
      S1 NC_DATASTORE.NC_DATASTORE_CANDIDATE).error =
      some { kind := NC_ERR.NC_ERR_LOCK_DENIED,
             message := some "Candidate datastore not locked but already modified.",
             sid := none, badelem := none } ∧
    (ncds_file_lock plainExt calm (onDisk emptyFrame) (opened emptyFrame)
      S1 NC_DATASTORE.NC_DATASTORE_CANDIDATE).ret = retcode.EXIT_SUCCESS :=
  ⟨((lock_candidate_modified plainExt calm (onDisk candidateModifiedFrame)
      (opened candidateModifiedFrame) S1 (by decide) (by decide) (by decide)).1 (by decide)).2.1,
   ((lock_candidate_modified plainExt calm (onDisk emptyFrame) (opened emptyFrame) S1
      (by decide) (by decide) (by decide)).2 (Or.inl (by decide))).2 (by decide)⟩

/-- C4 at work: `S1` unlocks the unlocked candidate of the modified frame, and
`S2` unlocks the candidate that `S1` holds. -/
theorem unlock_refused_witness :
    (ncds_file_unlock plainExt calm (onDisk candidateModifiedFrame)
      (opened candidateModifiedFrame) S1 NC_DATASTORE.NC_DATASTORE_CANDIDATE).error =
      some { kind := NC_ERR.NC_ERR_OP_FAILED,
             message := some "Target datastore is not locked.",
             sid := none, badelem := none } ∧
    (ncds_file_unlock plainExt calm (onDisk candidateLockedFrame)
      (opened candidateLockedFrame) S2 NC_DATASTORE.NC_DATASTORE_CANDIDATE).ret =
      retcode.EXIT_FAILURE :=
  ⟨((unlock_refused plainExt calm (onDisk candidateModifiedFrame)
      (opened candidateModifiedFrame) S1 NC_DATASTORE.NC_DATASTORE_CANDIDATE
      (by decide) (by decide)).1 (by decide)).2.1,
   ((unlock_refused plainExt calm (onDisk candidateLockedFrame)
      (opened candidateLockedFrame) S2 NC_DATASTORE.NC_DATASTORE_CANDIDATE
      (by decide) (by decide)).2.1 "S1" (by decide) (by decide) (by decide)).1⟩

/-- C7 at work: with `S1` holding the candidate, `S2` may not copy running
into the candidate, and may not commit either. -/
theorem copyconfig_in_use_iff_witness :
    (ncds_file_copyconfig plainExt calm (onDisk candidateLockedFrame)
      (opened candidateLockedFrame) (some S2) none NC_DATASTORE.NC_DATASTORE_CANDIDATE
      NC_DATASTORE.NC_DATASTORE_RUNNING none).inUse ∧
    (ncds_file_copyconfig plainExt calm (onDisk candidateLockedFrame)
      (opened candidateLockedFrame) (some S2) none NC_DATASTORE.NC_DATASTORE_RUNNING
      NC_DATASTORE.NC_DATASTORE_CANDIDATE none).inUse :=
  ⟨(copyconfig_in_use_iff plainExt calm (onDisk candidateLockedFrame)
      (opened candidateLockedFrame) S2 none NC_DATASTORE.NC_DATASTORE_CANDIDATE
      NC_DATASTORE.NC_DATASTORE_RUNNING none (by decide) (by decide)).1.2
      (Or.inl ⟨by decide, by decide⟩),
   (copyconfig_in_use_iff plainExt calm (onDisk candidateLockedFrame)
      (opened candidateLockedFrame) S2 none NC_DATASTORE.NC_DATASTORE_RUNNING
      NC_DATASTORE.NC_DATASTORE_CANDIDATE none (by decide) (by decide)).1.2
      (Or.inr ⟨rfl, rfl, by decide, by decide⟩)⟩

/-- C8 at work, once for each of the five mutations: `S1` releases the
candidate it holds; `S1` copies running into the modified candidate that holds
`<foo/>`; `S1` copies startup, which holds `<a/>` and `<b/>`, into the
candidate; `S1` deletes the candidate that holds `<foo/>`; and `S1` edits the
candidate of the empty frame.  All five calls succeed and leave the mark the
law gives. -/
theorem candidate_modified_law_witness :
    ((ncds_file_unlock plainExt calm (onDisk candidateLockedFrame) (opened candidateLockedFrame)
        S1 NC_DATASTORE.NC_DATASTORE_CANDIDATE).ret = retcode.EXIT_SUCCESS ∧
      (ncds_file_unlock plainExt calm (onDisk candidateLockedFrame) (opened candidateLockedFrame)
        S1 NC_DATASTORE.NC_DATASTORE_CANDIDATE).ds.attr
          NC_DATASTORE.NC_DATASTORE_CANDIDATE "modified" = some "false") ∧
    ((ncds_file_copyconfig plainExt calm (onDisk candidateModifiedFrame)
        (opened candidateModifiedFrame) (some S1) none NC_DATASTORE.NC_DATASTORE_CANDIDATE
        NC_DATASTORE.NC_DATASTORE_RUNNING none).ret = retcode.EXIT_SUCCESS ∧
      (ncds_file_copyconfig plainExt calm (onDisk candidateModifiedFrame)
        (opened candidateModifiedFrame) (some S1) none NC_DATASTORE.NC_DATASTORE_CANDIDATE
        NC_DATASTORE.NC_DATASTORE_RUNNING none).ds.attr
          NC_DATASTORE.NC_DATASTORE_CANDIDATE "modified" = some "false") ∧
    ((ncds_file_copyconfig plainExt calm (onDisk startupTwoFrame) (opened startupTwoFrame)
        (some S1) none NC_DATASTORE.NC_DATASTORE_CANDIDATE NC_DATASTORE.NC_DATASTORE_STARTUP
        none).ret = retcode.EXIT_SUCCESS ∧
      (ncds_file_copyconfig plainExt calm (onDisk startupTwoFrame) (opened startupTwoFrame)
        (some S1) none NC_DATASTORE.NC_DATASTORE_CANDIDATE NC_DATASTORE.NC_DATASTORE_STARTUP
        none).ds.attr NC_DATASTORE.NC_DATASTORE_CANDIDATE "modified" = some "true") ∧
    ((ncds_file_deleteconfig calm (onDisk candidateModifiedFrame)
        (opened candidateModifiedFrame) (some S1) NC_DATASTORE.NC_DATASTORE_CANDIDATE).map
          (fun out => out.ret) = some retcode.EXIT_SUCCESS ∧
      (ncds_file_deleteconfig calm (onDisk candidateModifiedFrame)
        (opened candidateModifiedFrame) (some S1) NC_DATASTORE.NC_DATASTORE_CANDIDATE).map
          (fun out => out.ds.attr NC_DATASTORE.NC_DATASTORE_CANDIDATE "modified") =
        some (some "true")) ∧
    ((ncds_file_editconfig plainExt calm (onDisk emptyFrame) (opened emptyFrame) (some S1) none
        NC_DATASTORE.NC_DATASTORE_CANDIDATE "<foo/>" 0 0).ret = retcode.EXIT_SUCCESS ∧
      (ncds_file_editconfig plainExt calm (onDisk emptyFrame) (opened emptyFrame) (some S1) none
        NC_DATASTORE.NC_DATASTORE_CANDIDATE "<foo/>" 0 0).ds.attr
          NC_DATASTORE.NC_DATASTORE_CANDIDATE "modified" = some "true") := by
  have hL := candidate_modified_law plainExt calm (onDisk candidateLockedFrame)
    (opened candidateLockedFrame) (by decide)
  have hM := candidate_modified_law plainExt calm (onDisk candidateModifiedFrame)
    (opened candidateModifiedFrame) (by decide)
  have hS := candidate_modified_law plainExt calm (onDisk startupTwoFrame)
    (opened startupTwoFrame) (by decide)
  have hE := candidate_modified_law plainExt calm (onDisk emptyFrame) (opened emptyFrame)
    (by decide)
  have r1 := (hL.2.2.2.2.2 (by decide) (by decide)).1 S1 (by decide) (by decide) (by decide)
  have r2 := (hM.2.2.2.2.2 (by decide) (by decide)).2.1 S1 none
    NC_DATASTORE.NC_DATASTORE_RUNNING none [] (by decide) rfl rfl (by decide)
  have r3 := (hS.2.2.2.2.2 (by decide) (by decide)).2.1 S1 none
    NC_DATASTORE.NC_DATASTORE_STARTUP none [element "a" [] [], element "b" [] []]
    (by decide) rfl rfl (by decide)
  obtain ⟨out, r4, r4s⟩ := (hM.2.2.2.2.2 (by decide) (by decide)).2.2.1 S1 (by decide)
    (Or.inl (by decide))
  have r5 := (hE.2.2.2.2.2 (by decide) (by decide)).2.2.2 S1 none "<foo/>" 0 0
    { children := [element "foo" [] []] } (by decide) rfl rfl
  refine ⟨⟨r1, (hL.1 S1 r1).1⟩, ⟨r2, (hM.2.1 (some S1) none none r2).1⟩,
    ⟨r3, (hS.2.2.1 (some S1) none NC_DATASTORE.NC_DATASTORE_STARTUP none (by decide) r3).1⟩,
    ?_, ⟨r5, (hE.2.2.2.2.1 (some S1) none "<foo/>" 0 0 r5).1⟩⟩
  rw [r4]
  exact ⟨congrArg some r4s, congrArg some (hM.2.2.2.1 (some S1) out r4 r4s).1⟩

/-- C9 as amended, at work: `S1` copies the empty running into the candidate
that holds `<foo/>` and is marked modified; the call succeeds, the mark is
reset, and the lock request that follows succeeds. -/
theorem copy_from_running_resets_mark_witness :
    (ncds_file_copyconfig plainExt calm (onDisk candidateModifiedFrame)
      (opened candidateModifiedFrame) (some S1) none NC_DATASTORE.NC_DATASTORE_CANDIDATE
      NC_DATASTORE.NC_DATASTORE_RUNNING none).ret = retcode.EXIT_SUCCESS ∧
    (ncds_file_copyconfig plainExt calm (onDisk candidateModifiedFrame)
      (opened candidateModifiedFrame) (some S1) none NC_DATASTORE.NC_DATASTORE_CANDIDATE
      NC_DATASTORE.NC_DATASTORE_RUNNING none).ds.attr
        NC_DATASTORE.NC_DATASTORE_CANDIDATE "modified" = some "false" ∧
    (ncds_file_lock plainExt calm
      (ncds_file_copyconfig plainExt calm (onDisk candidateModifiedFrame)
        (opened candidateModifiedFrame) (some S1) none NC_DATASTORE.NC_DATASTORE_CANDIDATE
        NC_DATASTORE.NC_DATASTORE_RUNNING none).w
      (ncds_file_copyconfig plainExt calm (onDisk candidateModifiedFrame)
        (opened candidateModifiedFrame) (some S1) none NC_DATASTORE.NC_DATASTORE_CANDIDATE
        NC_DATASTORE.NC_DATASTORE_RUNNING none).ds
      S1 NC_DATASTORE.NC_DATASTORE_CANDIDATE).ret = retcode.EXIT_SUCCESS :=
  have h := copy_from_running_resets_mark plainExt calm (onDisk candidateModifiedFrame)
    (opened candidateModifiedFrame) S1 none none (by decide) (by decide) (by decide) (by decide)
  have hret := h.2.1 (fun he => absurd (congrArg List.length he.2) (by decide)) rfl (by decide)
  ⟨hret, (h.1 hret).1, ((h.1 hret).2 plainExt calm S1).2 (by decide)⟩

/-- C11 at work: `S1` asks to delete the running datastore of the empty frame. -/
theorem deleteconfig_running_refused_witness :
    reloads calm (onDisk emptyFrame) (opened emptyFrame) ∧
    (ncds_file_deleteconfig calm (onDisk emptyFrame) (opened emptyFrame) (some S1)
      NC_DATASTORE.NC_DATASTORE_RUNNING).map (fun out => out.ret) =
      some retcode.EXIT_FAILURE ∧
    (ncds_file_deleteconfig calm (onDisk emptyFrame) (opened emptyFrame) (some S1)
      NC_DATASTORE.NC_DATASTORE_RUNNING).map (fun out => out.error) =
      some (some { kind := NC_ERR.NC_ERR_OP_FAILED,
                   message := some "Cannot delete a running datastore.",
                   sid := none, badelem := none }) := by
  obtain ⟨out, he, h1, -, h3⟩ :=
    deleteconfig_running_refused calm (onDisk emptyFrame) (opened emptyFrame) (some S1)
  rw [he]
  exact ⟨by decide, congrArg some h1, congrArg some (h3 (by decide))⟩

/-- C17 at work: with `last_access` at 50, a file written at time 20 is not
read again, and a file written at time 50 is. -/
theorem file_reload_mtime_witness :
    file_reload calm writtenAt20 holdingAt50 = (retcode.EXIT_SUCCESS, holdingAt50) ∧
    (file_reload calm writtenAt50 holdingAt50).2.xml = some candidateLockedFrame :=
  ⟨(file_reload_mtime calm writtenAt20 holdingAt50 20 rfl rfl).1 (by decide),
   (((file_reload_mtime calm writtenAt50 holdingAt50 50 rfl rfl).2 (by decide)).2.2
      candidateLockedFrame rfl (by decide)).2.1⟩

/-- C16 at work: the document with the root named `store` names each
datastore once, and the reload installs it. -/
theorem file_reload_installs_witness :
    named_once renamedRootDoc ∧
    (file_reload calm renamedAt60 holdingAt50).2.xml = some renamedRootDoc ∧
    (file_reload calm renamedAt60 holdingAt50).2.filled :=
  ⟨by decide,
   (file_reload_installs calm renamedAt60 holdingAt50 rfl (by decide)).2.2
     renamedRootDoc rfl (by decide)⟩

/-- C14 at work: the name opened for the file `/tmp/x.xml`. -/
theorem sem_name_spec_witness :
    (ncds_file_init quiet (onDisk emptyFrame) unopened).ret = retcode.EXIT_SUCCESS ∧
    (ncds_file_init quiet (onDisk emptyFrame) unopened).sempath =
      some ("/NCDS_FLOCK_" ++
        underscored (ncds_file_init quiet (onDisk emptyFrame) unopened).ds.path) :=
  ⟨by decide,
   (sem_name_spec "/tmp/x.xml" quiet (onDisk emptyFrame) unopened).2 (by decide)⟩

end DatastoreFile
